import Mathlib

/-!
# Canaan K230 clock driver

A shallow embedding of `drivers/clk/canaan/clk-k230.c` and `clk-k230.h`.

* C integers are natural numbers (or integers for `long`) with an explicit
  reduction modulo `2^32` / `2^64` wherever the C type truncates.
* The memory-mapped register file is a function from addresses to words;
  `readl` and `writel` are the only accesses.
* Locals that the C code declares without an initialiser (`u32 mul, div;`)
  are explicit parameters holding their indeterminate start value.
* Division by zero, reading a rate table past its end, a loop that cannot
  terminate and a registry store past the end of the array are reported as a
  `Fault`.
-/

namespace K230

/-! ## Machine arithmetic -/

/-- Behaviour of the C code that yields no result. -/
inductive Fault where
  | div_by_zero
  | table_overrun
  | loop_diverges
  | hws_overrun
  deriving DecidableEq, Repr

deriving instance DecidableEq for Except

/-- Truncation to `u32`. -/
def u32 (x : Nat) : Nat := x % 2 ^ 32

/-- Truncation to `unsigned long` (64 bit). -/
def u64 (x : Nat) : Nat := x % 2 ^ 64

/-- Truncation to `u8`. -/
def u8 (x : Nat) : Nat := x % 2 ^ 8

/-- Conversion to `long` (64 bit two's complement); the kernel is built with
wrapping signed arithmetic. -/
def s64 (x : Int) : Int := (x + 2 ^ 63) % 2 ^ 64 - 2 ^ 63

/-- Bitwise complement of a `u32`. -/
def not32 (x : Nat) : Nat := 0xFFFFFFFF ^^^ x

/-- Modelled from the spec: the kernel macro `BIT(nr)`, `1UL << nr`, which is
not part of the driver sources ("one bit in one register"). -/
def BIT (nr : Nat) : Nat := 1 <<< nr

/-- Modelled from the spec: the kernel macro `GENMASK(h, l)`, the word with
bits `l..h` set, which is not part of the driver sources (field widths
13/6/4 bits for the PLL divide fields). -/
def GENMASK (h l : Nat) : Nat := 2 ^ (h + 1) - 2 ^ l

/-- Modelled from the spec: the kernel macro `mult_frac(x, n, d)` with `x` an
`unsigned long`, which is not part of the driver sources: quotient and
remainder of `x / d` are scaled separately, `q * n + r * n / d`, each
operation in 64 bit ("order multiply before divide to preserve precision").
The divisor must be non-zero; callers that may pass zero guard the call. -/
def mult_frac (x n d : Nat) : Nat :=
  u64 (u64 (x / d * n) + u64 (x % d * n) / d)

/-- Modelled from the spec: the kernel macro `abs` at type `long`, which is
not part of the driver sources. -/
def abs_long (x : Int) : Int := if x < 0 then s64 (-x) else x

/-- Modelled from the spec: the errno constant `EINVAL` of the kernel headers,
which is not part of the driver sources. -/
def EINVAL : Int := 22

/-! ## Register file -/

/-- Register contents by address. -/
abbrev Regs := Nat → Nat

/-- The 32-bit word read at an address. -/
def readl (regs : Regs) (addr : Nat) : Nat := u32 (regs addr)

/-- The register file after a 32-bit write. -/
def writel (value addr : Nat) (regs : Regs) : Regs :=
  fun a => if a = addr then value else regs a

/-! ## Constants of clk-k230.h -/

def K230_PLL_DIVIDE_OUT_SHIFT : Nat := 24
def K230_PLL_DIVIDE_OUT_MASK : Nat := GENMASK 3 0
def K230_PLL_DIVIDE_REF_SHIFT : Nat := 16
def K230_PLL_DIVIDE_REF_MASK : Nat := GENMASK 5 0
def K230_PLL_DIVIDE_FB_SHIFT : Nat := 0
def K230_PLL_DIVIDE_FB_MASK : Nat := GENMASK 12 0

def K230_PLL_DIVIDE_BYPASS_REG_ENABLE_BIT : Nat := 19
def K230_PLL_GATE_REG_ENABLE_BIT : Nat := 2
def K230_PLL_GATE_REG_WRITE_ENABLE_BIT : Nat := 18

def K230_PLL_LOCK_REG_STATUS_BIT : Nat := 0

def K230_PLL_CLK_DIVIDE_OFFSET : Nat := 0
def K230_PLL_CLK_DIVIDE_BYPASS_OFFSET : Nat := 4
def K230_PLL_CLK_GATE_OFFSET : Nat := 8
def K230_PLL_CLK_LOCK_OFFSET : Nat := 0xC

/-! ## PLL node -/

/-- The register block of a PLL (`struct k230_pll_clk`); the lock is not
modelled. -/
structure k230_pll_clk where
  reg : Nat
  deriving DecidableEq, Repr

/-- What `k230_pll_clk_recalc_rate` hands back: the returned `unsigned long`
and whether the `pr_err` line was emitted. -/
structure pll_recalc_out where
  ret : Nat
  pr_err : Bool
  deriving DecidableEq, Repr

/-- The function `k230_pll_clk_recalc_rate`. -/
def k230_pll_clk_recalc_rate (k230_pll : k230_pll_clk) (regs : Regs)
    (parent_rate : Nat) : pll_recalc_out :=
  let pll_div_bypass_value := readl regs (k230_pll.reg + K230_PLL_CLK_DIVIDE_BYPASS_OFFSET)
  if (pll_div_bypass_value &&& BIT K230_PLL_DIVIDE_BYPASS_REG_ENABLE_BIT) ≠ 0 then
    { ret := parent_rate, pr_err := false }
  else
    let pll_div_lock_value := readl regs (k230_pll.reg + K230_PLL_CLK_LOCK_OFFSET)
    if (pll_div_lock_value &&& BIT K230_PLL_LOCK_REG_STATUS_BIT) ≠ 0 then
      let pll_div_value := readl regs (k230_pll.reg + K230_PLL_CLK_DIVIDE_OFFSET)
      let fb_div :=
        u32 (((pll_div_value >>> K230_PLL_DIVIDE_FB_SHIFT) &&& K230_PLL_DIVIDE_FB_MASK) + 1)
      let ref_div :=
        u32 (((pll_div_value >>> K230_PLL_DIVIDE_REF_SHIFT) &&& K230_PLL_DIVIDE_REF_MASK) + 1)
      let out_div :=
        u32 (((pll_div_value >>> K230_PLL_DIVIDE_OUT_SHIFT) &&& K230_PLL_DIVIDE_OUT_MASK) + 1)
      let rate := mult_frac parent_rate fb_div ref_div / out_div
      { ret := rate, pr_err := false }
    else
      { ret := 0, pr_err := true }

/-! ## Clock identifiers of dt-bindings/clock/canaan,k230-clk.h -/

def K230_TIMERX_PULSE_IN : Nat := 0
def K230_SYSCTL_PCLK : Nat := 1
def K230_PLL0_CLK : Nat := 2
def K230_PLL1_CLK : Nat := 3
def K230_PLL2_CLK : Nat := 4
def K230_PLL3_CLK : Nat := 5
def K230_PLL0_DIV2_CLK : Nat := 6
def K230_PLL0_DIV3_CLK : Nat := 7
def K230_PLL0_DIV4_CLK : Nat := 8
def K230_PLL0_DIV16_CLK : Nat := 9
def K230_PLL1_DIV2_CLK : Nat := 10
def K230_PLL1_DIV3_CLK : Nat := 11
def K230_PLL1_DIV4_CLK : Nat := 12
def K230_PLL2_DIV2_CLK : Nat := 13
def K230_PLL2_DIV3_CLK : Nat := 14
def K230_PLL2_DIV4_CLK : Nat := 15
def K230_PLL3_DIV2_CLK : Nat := 16
def K230_PLL3_DIV3_CLK : Nat := 17
def K230_PLL3_DIV4_CLK : Nat := 18
def K230_SD_SRC_CCLK : Nat := 19
def K230_SD0_GATE_CCLK : Nat := 20
def K230_SSI0_CCLK : Nat := 21
def K230_SSI1_CCLK : Nat := 22
def K230_SSI2_CCLK : Nat := 23
def K230_I2C0_CCLK : Nat := 24
def K230_I2C1_CCLK : Nat := 25
def K230_I2C2_CCLK : Nat := 26
def K230_I2C3_CCLK : Nat := 27
def K230_I2C4_CCLK : Nat := 28
def K230_WDT0_CCLK : Nat := 29
def K230_SHRM_AXIM_CCLK : Nat := 30
def K230_PDMA_APB_CCLK : Nat := 31
def K230_ADC_CLK : Nat := 32
def K230_AUDIO_DEV_CLK : Nat := 33
def K230_CODEC_ADC_MCLK : Nat := 34
def K230_CODEC_DAC_MCLK : Nat := 35
def K230_LOWSYS_APB_CCLK : Nat := 36
def K230_PWM_CCLK : Nat := 37
def K230_CPU0_SRC : Nat := 38
def K230_CPU0_PLIC : Nat := 39
def K230_CPU0_ACLK : Nat := 40
def K230_CPU0_DDRCP4 : Nat := 41
def K230_CPU0_PCLK : Nat := 42
def K230_PMU_PCLK : Nat := 43
def K230_HS_HCLK_HIGH_SRC : Nat := 44
def K230_HS_HCLK_HIGH : Nat := 45
def K230_HS_HCLK_SRC : Nat := 46
def K230_SD0_HCLK_GATE : Nat := 47
def K230_SD1_HCLK_GATE : Nat := 48
def K230_USB0_HCLK_GATE : Nat := 49
def K230_USB1_HCLK_GATE : Nat := 50
def K230_SSI1_HCLK_GATE : Nat := 51
def K230_SSI2_HCLK_GATE : Nat := 52
def K230_QSPI_ACLK_SRC : Nat := 53
def K230_SSI1_ACLK_GATE : Nat := 54
def K230_SSI2_ACLK_GATE : Nat := 55
def K230_SD_ACLK : Nat := 56
def K230_SD0_ACLK_GATE : Nat := 57
def K230_SD1_ACLK_GATE : Nat := 58
def K230_SD0_BCLK_GATE : Nat := 59
def K230_SD1_BCLK_GATE : Nat := 60
def K230_USB_REF_50M_CLK : Nat := 61
def K230_USB0_REF_CLK : Nat := 62
def K230_USB1_REF_CLK : Nat := 63
def K230_SD_TMCLK_SRC : Nat := 64
def K230_SD0_TMCLK_GATE : Nat := 65
def K230_SD1_TMCLK_GATE : Nat := 66
def K230_UART0_PCLK_GATE : Nat := 67
def K230_UART1_PCLK_GATE : Nat := 68
def K230_UART2_PCLK_GATE : Nat := 69
def K230_UART3_PCLK_GATE : Nat := 70
def K230_UART4_PCLK_GATE : Nat := 71
def K230_I2C0_PCLK_GATE : Nat := 72
def K230_I2C1_PCLK_GATE : Nat := 73
def K230_I2C2_PCLK_GATE : Nat := 74
def K230_I2C3_PCLK_GATE : Nat := 75
def K230_I2C4_PCLK_GATE : Nat := 76
def K230_GPIO_PCLK_GATE : Nat := 77
def K230_JAMLINK0_PCLK_GATE : Nat := 78
def K230_JAMLINK1_PCLK_GATE : Nat := 79
def K230_JAMLINK2_PCLK_GATE : Nat := 80
def K230_JAMLINK3_PCLK_GATE : Nat := 81
def K230_AUDIO_PCLK_GATE : Nat := 82
def K230_ADC_PCLK_GATE : Nat := 83
def K230_CODEC_PCLK_GATE : Nat := 84
def K230_UART0_CLK : Nat := 85
def K230_UART1_CLK : Nat := 86
def K230_UART2_CLK : Nat := 87
def K230_UART3_CLK : Nat := 88
def K230_UART4_CLK : Nat := 89
def K230_JAMLINKCO_DIV : Nat := 90
def K230_JAMLINK0CO_GATE : Nat := 91
def K230_JAMLINK1CO_GATE : Nat := 92
def K230_JAMLINK2CO_GATE : Nat := 93
def K230_JAMLINK3CO_GATE : Nat := 94
def K230_PDM_CLK : Nat := 95
def K230_GPIO_DBCLK : Nat := 96
def K230_WDT0_PCLK_GATE : Nat := 97
def K230_WDT1_PCLK_GATE : Nat := 98
def K230_TIMER_PCLK_GATE : Nat := 99
def K230_IOMUX_PCLK_GATE : Nat := 100
def K230_MAILBOX_PCLK_GATE : Nat := 101
def K230_HDI_CLK : Nat := 102
def K230_STC_CLK : Nat := 103
def K230_TS_CLK : Nat := 104
def K230_WDT1_CCLK : Nat := 105
def K230_TIMER0_CLK_SRC : Nat := 106
def K230_TIMER0_CLK : Nat := 107
def K230_TIMER1_CLK_SRC : Nat := 108
def K230_TIMER1_CLK : Nat := 109
def K230_TIMER2_CLK_SRC : Nat := 110
def K230_TIMER2_CLK : Nat := 111
def K230_TIMER3_CLK_SRC : Nat := 112
def K230_TIMER3_CLK : Nat := 113
def K230_TIMER4_CLK_SRC : Nat := 114
def K230_TIMER4_CLK : Nat := 115
def K230_TIMER5_CLK_SRC : Nat := 116
def K230_TIMER5_CLK : Nat := 117
def K230_SHRM_SRC : Nat := 118
def K230_SHRM_PCLK : Nat := 119
def K230_GSDMA_ACLK_GATE : Nat := 120
def K230_NONAI2D_ACLK_GATE : Nat := 121
def K230_DISP_HCLK : Nat := 122
def K230_DISP_ACLK_GATE : Nat := 123
def K230_DISP_CLK_EXT : Nat := 124
def K230_DISP_GPU : Nat := 125
def K230_DPIPCLK : Nat := 126
def K230_DISP_CFGCLK : Nat := 127
def K230_DISP_REFCLK_GATE : Nat := 128
def K230_DDRC_CORE_CLK : Nat := 129
def K230_DDRC_BYPASS_GATE : Nat := 130
def K230_DDRC_PCLK : Nat := 131
def K230_VPU_SRC : Nat := 132
def K230_VPU_ACLK_SRC : Nat := 133
def K230_VPU_ACLK : Nat := 134
def K230_VPU_DDRCP2 : Nat := 135
def K230_VPU_CFG : Nat := 136
def K230_SEC_PCLK : Nat := 137
def K230_SEC_FIXCLK : Nat := 138
def K230_SEC_ACLK_GATE : Nat := 139
def K230_USB_CLK480 : Nat := 140
def K230_USB_CLK100 : Nat := 141
def K230_DPHY_TEST_CLK : Nat := 142
def K230_SPI2AXI_ACLK : Nat := 143
def K230_SHRM_DIV2 : Nat := 144
def K230_SHRM_AXIS_CLK_GATE : Nat := 145
def K230_DECOMPRESS_CLK_GATE : Nat := 146


/-! ## Fractional divider node -/

/-- A row of a rate table (`struct k230_fracdiv_table`). -/
structure k230_fracdiv_table where
  rate : Nat
  mul : Nat
  div : Nat
  deriving DecidableEq, Repr

/-- The fractional divider (`struct k230_clk_fracdiv`). The pointers `reg`,
`reg_1` and `fracdiv_table` are `none` when NULL; a table is the C array, its
sentinel row included. The lock is not modelled. -/
structure k230_clk_fracdiv where
  fracdiv_table : Option (List k230_fracdiv_table)
  reg : Option Nat
  reg_1 : Option Nat
  m_shift : Nat
  m_mask : Nat
  m_min : Nat
  m_max : Nat
  n_shift : Nat
  n_mask : Nat
  n_min : Nat
  n_max : Nat
  bit_idx : Nat
  deriving DecidableEq, Repr

/-- The fields hold values of their C types (`u32`, `u8` for `bit_idx`) and
no shift is by the width of its operand or more. -/
def k230_clk_fracdiv.wf (c : k230_clk_fracdiv) : Prop :=
  c.m_shift < 32 ∧ c.m_mask < 2 ^ 32 ∧ c.m_min < 2 ^ 32 ∧ c.m_max < 2 ^ 32 ∧
  c.n_shift < 32 ∧ c.n_mask < 2 ^ 32 ∧ c.n_min < 2 ^ 32 ∧ c.n_max < 2 ^ 32 ∧
  c.bit_idx < 64

instance (c : k230_clk_fracdiv) : Decidable c.wf := by
  unfold k230_clk_fracdiv.wf
  infer_instance

/-- The table `codec_fracdiv_table`. -/
def codec_fracdiv_table : List k230_fracdiv_table :=
  [ { rate := 2048000, mul := 16, div := 3125 },
    { rate := 3072000, mul := 24, div := 3125 },
    { rate := 4096000, mul := 32, div := 3125 },
    { rate := 6144000, mul := 48, div := 3125 },
    { rate := 8192000, mul := 64, div := 3125 },
    { rate := 11289600, mul := 441, div := 15625 },
    { rate := 12288000, mul := 96, div := 3125 },
    { rate := 24576000, mul := 192, div := 3125 },
    { rate := 49152000, mul := 384, div := 3125 },
    { rate := 0, mul := 0, div := 0 } ]

/-- The table `pdm_fracdiv_table`. -/
def pdm_fracdiv_table : List k230_fracdiv_table :=
  [ { rate := 128000, mul := 1, div := 3125 },
    { rate := 192000, mul := 3, div := 6250 },
    { rate := 256000, mul := 2, div := 3125 },
    { rate := 384000, mul := 3, div := 3125 },
    { rate := 512000, mul := 4, div := 3125 },
    { rate := 768000, mul := 6, div := 3125 },
    { rate := 1024000, mul := 8, div := 3125 },
    { rate := 1441200, mul := 441, div := 125000 },
    { rate := 1536000, mul := 12, div := 3125 },
    { rate := 2048000, mul := 16, div := 3125 },
    { rate := 2822400, mul := 441, div := 62500 },
    { rate := 3072000, mul := 24, div := 3125 },
    { rate := 4096000, mul := 32, div := 3125 },
    { rate := 5644800, mul := 441, div := 31250 },
    { rate := 6144000, mul := 48, div := 3125 },
    { rate := 8192000, mul := 64, div := 3125 },
    { rate := 11289600, mul := 441, div := 15625 },
    { rate := 12288000, mul := 96, div := 3125 },
    { rate := 24576000, mul := 192, div := 3125 },
    { rate := 49152000, mul := 384, div := 3125 },
    { rate := 0, mul := 0, div := 0 } ]

/-- The body of the two search loops of `k230_approximate_clock_rate`,
`for (u32 i = start; i <= bound; ++i)`, run for the given number of passes
from counter value `i`. `candidate i` is the scaled ratio that pass `i`
compares with `perfect_divide` (a fault when its division is by zero); the
state is `abs_min` and the output variable the loop assigns (`*mul` or
`*div`). -/
def approximate_loop (perfect_divide : Int) (candidate : Nat → Except Fault Int) :
    Nat → Nat → Int → Nat → Except Fault (Int × Nat)
  | 0, _, abs_min, out => .ok (abs_min, out)
  | k + 1, i, abs_min, out =>
    match candidate i with
    | .error e => .error e
    | .ok c =>
      let abs_current := abs_long (s64 (perfect_divide - c))
      if abs_min > abs_current then
        approximate_loop perfect_divide candidate k (i + 1) abs_current i
      else
        approximate_loop perfect_divide candidate k (i + 1) abs_min out

/-- The table scan of `k230_approximate_clock_rate`:
`for (tbl = clk->fracdiv_table; tbl->div; ++tbl)`. It yields the values of
`*mul` and `*div` after the loop. An array without a sentinel row is read
past its end. -/
def fracdiv_table_scan (rate : Nat) :
    List k230_fracdiv_table → Nat → Nat → Except Fault (Nat × Nat)
  | [], _, _ => .error .table_overrun
  | tbl :: rest, mul, div =>
    if tbl.div = 0 then .ok (mul, div)
    else if rate = tbl.rate then .ok (tbl.mul, tbl.div)
    else fracdiv_table_scan rate rest mul div

/-- The function `k230_approximate_clock_rate`. The arguments `mul` and `div`
are the contents of `*mul` and `*div` on entry; the result is the returned
`int` with the contents of `*mul` and `*div` on exit. A loop whose bound is
`0xFFFFFFFF` has no exit, its `u32` counter never exceeds the bound. The
`draft_mul`/`draft_div` values only feed `pr_debug`; their `mult_frac` still
divides. -/
def k230_approximate_clock_rate (clk : k230_clk_fracdiv) (rate parent_rate : Nat)
    (mul div : Nat) : Except Fault (Int × Nat × Nat) :=
  if clk.n_min = clk.n_max then
    -- Only change the numerator
    if rate = 0 then .error .div_by_zero
    else
      let perfect_divide : Int := s64 (u64 (parent_rate * 1000) / rate : Nat)
      if clk.m_min = 0 then .error .div_by_zero
      else
        let abs_min := abs_long (s64 (perfect_divide - (clk.n_max * 1000 / clk.m_min : Nat)))
        if clk.m_max = 0xFFFFFFFF then .error .loop_diverges
        else
          let start := u32 (clk.m_min + 1)
          match approximate_loop perfect_divide
              (fun i => if i = 0 then .error .div_by_zero
                else .ok ((clk.n_max * 1000 / i : Nat) : Int))
              (clk.m_max + 1 - start) start abs_min mul with
          | .error e => .error e
          | .ok (_, mul) =>
            if parent_rate = 0 then .error .div_by_zero
            else .ok (0, mul, clk.n_min)
  else if clk.m_min = clk.m_max then
    -- Constant multiplier - Only change the denominator
    if rate = 0 then .error .div_by_zero
    else
      let perfect_divide : Int := s64 (u64 (parent_rate * 1000) / rate : Nat)
      if clk.m_max = 0 then .error .div_by_zero
      else
        let abs_min := abs_long (s64 (perfect_divide - (clk.n_min * 1000 / clk.m_max : Nat)))
        if clk.n_max = 0xFFFFFFFF then .error .loop_diverges
        else
          let start := u32 (clk.n_min + 1)
          match approximate_loop perfect_divide
              (fun i => .ok ((i * 1000 / clk.m_max : Nat) : Int))
              (clk.n_max + 1 - start) start abs_min clk.n_min with
          | .error e => .error e
          | .ok (_, div) => .ok (0, clk.m_min, div)
  else
    match clk.fracdiv_table with
    | none => .ok (-EINVAL, mul, div)
    | some table =>
      match fracdiv_table_scan rate table mul div with
      | .error e => .error e
      | .ok (mul, div) => .ok (0, mul, div)

/-- The function `k230_rate_clk_set_rate`. The arguments `mul` and `div` are
the indeterminate contents of the locals `u32 mul, div` at their declaration;
the result is the returned `int` and the register file on return. -/
def k230_rate_clk_set_rate (fracdiv_clk : k230_clk_fracdiv) (regs : Regs)
    (rate parent_rate : Nat) (mul div : Nat) : Except Fault (Int × Regs) :=
  match fracdiv_clk.reg with
  | none => .ok (-EINVAL, regs)
  | some reg_addr =>
    if rate > parent_rate ∨ rate = 0 ∨ parent_rate = 0 then .ok (-EINVAL, regs)
    else
      match k230_approximate_clock_rate fracdiv_clk rate parent_rate mul div with
      | .error e => .error e
      | .ok (err, mul, div) =>
        if err ≠ 0 then .ok (-EINVAL, regs)
        else
          match fracdiv_clk.reg_1 with
          | none =>
            let reg := readl regs reg_addr
            let reg := reg &&& not32 (u32 (fracdiv_clk.n_mask <<< fracdiv_clk.n_shift))
            let reg :=
              if fracdiv_clk.n_min ≠ fracdiv_clk.n_max ∧ fracdiv_clk.m_min ≠ fracdiv_clk.m_max then
                reg &&& not32 (u32 (fracdiv_clk.m_mask <<< fracdiv_clk.m_shift))
              else reg
            let reg := u32 (reg ||| BIT fracdiv_clk.bit_idx)
            let reg :=
              if fracdiv_clk.n_min = fracdiv_clk.n_max then
                -- Only change the numerator
                reg ||| u32 ((u32 (mul + 2 ^ 32 - 1) &&& fracdiv_clk.n_mask) <<<
                  fracdiv_clk.n_shift)
              else if fracdiv_clk.m_min = fracdiv_clk.m_max then
                -- Only change the denominator
                reg ||| u32 ((u32 (div + 2 ^ 32 - 1) &&& fracdiv_clk.n_mask) <<<
                  fracdiv_clk.n_shift)
              else
                let reg := reg ||| u32 ((mul &&& fracdiv_clk.m_mask) <<< fracdiv_clk.m_shift)
                reg ||| u32 ((div &&& fracdiv_clk.n_mask) <<< fracdiv_clk.n_shift)
            .ok (0, writel reg reg_addr regs)
          | some reg_1_addr =>
            let reg := readl regs reg_addr
            let reg_1 := readl regs reg_1_addr
            let reg := reg &&& not32 (u32 (fracdiv_clk.n_mask <<< fracdiv_clk.n_shift))
            let reg_1 := reg_1 &&& not32 (u32 (fracdiv_clk.m_mask <<< fracdiv_clk.m_shift))
            let reg_1 := u32 (reg_1 ||| BIT fracdiv_clk.bit_idx)
            let reg_1 := reg_1 ||| u32 ((mul &&& fracdiv_clk.m_mask) <<< fracdiv_clk.m_shift)
            let reg := reg ||| u32 ((div &&& fracdiv_clk.n_mask) <<< fracdiv_clk.n_shift)
            .ok (0, writel reg_1 reg_1_addr (writel reg reg_addr regs))

/-- The function `k230_rate_clk_recalc_rate`; the final `mult_frac` divides
by `rate_div`. -/
def k230_rate_clk_recalc_rate (fracdiv_clk : k230_clk_fracdiv) (regs : Regs)
    (parent_rate : Nat) : Except Fault Nat :=
  match fracdiv_clk.reg with
  | none => .ok parent_rate
  | some reg_addr =>
    let md : Nat × Nat :=
      if fracdiv_clk.n_min = fracdiv_clk.n_max then
        -- Only change the numerator
        let reg_val := readl regs reg_addr
        let reg_val := (reg_val >>> fracdiv_clk.n_shift) &&& fracdiv_clk.n_mask
        (u32 (reg_val + 1), fracdiv_clk.n_max)
      else if fracdiv_clk.m_min = fracdiv_clk.m_max then
        -- Only change the denominator
        let reg_val := readl regs reg_addr
        let reg_val := (reg_val >>> fracdiv_clk.n_shift) &&& fracdiv_clk.n_mask
        (fracdiv_clk.m_max, u32 (reg_val + 1))
      else
        match fracdiv_clk.reg_1 with
        | none =>
          let reg_val := readl regs reg_addr
          ((reg_val >>> fracdiv_clk.m_shift) &&& fracdiv_clk.m_mask,
            (reg_val >>> fracdiv_clk.n_shift) &&& fracdiv_clk.n_mask)
        | some reg_1_addr =>
          let reg_val := readl regs reg_addr
          let reg_1_val := readl regs reg_1_addr
          ((reg_1_val >>> fracdiv_clk.m_shift) &&& fracdiv_clk.m_mask,
            (reg_val >>> fracdiv_clk.n_shift) &&& fracdiv_clk.n_mask)
    let rate_mul := md.1
    let rate_div := md.2
    if rate_div = 0 then .error .div_by_zero
    else .ok (mult_frac parent_rate rate_mul rate_div)

/-! ## Mux node -/

/-- The fields of the kernel type `struct clk_mux` that the driver uses; the
type is declared in the kernel headers, not in the driver sources. -/
structure clk_mux where
  reg : Nat
  shift : Nat
  mask : Nat
  deriving DecidableEq, Repr

/-- The function `k230_mux_clk_get_parent`; the result is a `u8`. -/
def k230_mux_clk_get_parent (mux : clk_mux) (regs : Regs) : Nat :=
  let mux_value := readl regs mux.reg
  u8 ((mux_value >>> mux.shift) &&& mux.mask)

/-- The function `k230_mux_clk_set_parent`: the returned `int` and the
register file on return. -/
def k230_mux_clk_set_parent (mux : clk_mux) (regs : Regs) (index : Nat) : Int × Regs :=
  let mux_value := u32 ((index &&& mux.mask) <<< mux.shift)
  (0, writel mux_value mux.reg regs)

/-- The fields of the kernel type `struct clk_gate` that the driver uses; the
type is declared in the kernel headers, not in the driver sources. -/
structure clk_gate where
  reg : Nat
  bit_idx : Nat
  flags : Nat
  deriving DecidableEq, Repr

/-- Modelled from the spec: the kernel flag `CLK_GATE_SET_TO_DISABLE`,
`BIT(0)`, which is not part of the driver sources ("bit set = disabled"). -/
def CLK_GATE_SET_TO_DISABLE : Nat := BIT 0

/-! ## Composite configuration -/

/-- The configuration record `struct k230_composite_clk_cfg`; a field that an
initialiser leaves out is zero. -/
structure k230_composite_clk_cfg where
  name : String := ""
  onecell_idx : Nat := 0
  parent_names : List String := []
  num_parents : Nat := 0
  is_fracdiv : Bool := false
  is_fracdiv_1 : Bool := false
  is_gate : Bool := false
  is_mux : Bool := false
  fracdiv_reg_offset : Nat := 0
  fracdiv_reg_1_offset : Nat := 0
  gate_reg_offset : Nat := 0
  fracdiv_m_min : Nat := 0
  fracdiv_m_max : Nat := 0
  fracdiv_n_min : Nat := 0
  fracdiv_n_max : Nat := 0
  fracdiv_m_shift : Nat := 0
  fracdiv_m_mask : Nat := 0
  fracdiv_n_shift : Nat := 0
  fracdiv_n_mask : Nat := 0
  fracdiv_write_enable_bit : Nat := 0
  gate_enable_bit : Nat := 0
  gate_is_inverse : Bool := false
  mux_reg_offset : Nat := 0
  mux_shift : Nat := 0
  mux_mask : Nat := 0
  deriving DecidableEq, Repr

/-- The initialiser `K230_GATE`. -/
def K230_GATE (_onecell_idx : Nat) (_name _parent_name : String)
    (_gate_reg_offset _gate_enable_bit : Nat) (_gate_is_inverse : Bool) :
    k230_composite_clk_cfg :=
  { onecell_idx := _onecell_idx
    name := _name
    parent_names := [_parent_name]
    num_parents := 1
    is_gate := true
    gate_reg_offset := _gate_reg_offset
    gate_enable_bit := _gate_enable_bit
    gate_is_inverse := _gate_is_inverse }

/-- The initialiser `K230_DIV`. -/
def K230_DIV (_onecell_idx : Nat) (_name _parent_name : String) (_fracdiv_reg_offset : Nat)
    (_fracdiv_m_min _fracdiv_m_max _fracdiv_m_shift _fracdiv_m_mask : Nat)
    (_fracdiv_n_min _fracdiv_n_max _fracdiv_n_shift _fracdiv_n_mask : Nat)
    (_fracdiv_write_enable_bit : Nat) : k230_composite_clk_cfg :=
  { onecell_idx := _onecell_idx
    name := _name
    parent_names := [_parent_name]
    num_parents := 1
    is_fracdiv := true
    fracdiv_reg_offset := _fracdiv_reg_offset
    fracdiv_m_min := _fracdiv_m_min
    fracdiv_m_max := _fracdiv_m_max
    fracdiv_m_shift := _fracdiv_m_shift
    fracdiv_m_mask := _fracdiv_m_mask
    fracdiv_n_min := _fracdiv_n_min
    fracdiv_n_max := _fracdiv_n_max
    fracdiv_n_shift := _fracdiv_n_shift
    fracdiv_n_mask := _fracdiv_n_mask
    fracdiv_write_enable_bit := _fracdiv_write_enable_bit }

/-- The initialiser `K230_GDIV`. -/
def K230_GDIV (_onecell_idx : Nat) (_name _parent_name : String)
    (_gate_reg_offset _gate_enable_bit : Nat) (_gate_is_inverse : Bool)
    (_fracdiv_reg_offset : Nat)
    (_fracdiv_m_min _fracdiv_m_max _fracdiv_m_shift _fracdiv_m_mask : Nat)
    (_fracdiv_n_min _fracdiv_n_max _fracdiv_n_shift _fracdiv_n_mask : Nat)
    (_fracdiv_write_enable_bit : Nat) : k230_composite_clk_cfg :=
  { onecell_idx := _onecell_idx
    name := _name
    parent_names := [_parent_name]
    num_parents := 1
    is_fracdiv := true
    fracdiv_reg_offset := _fracdiv_reg_offset
    fracdiv_m_min := _fracdiv_m_min
    fracdiv_m_max := _fracdiv_m_max
    fracdiv_m_shift := _fracdiv_m_shift
    fracdiv_m_mask := _fracdiv_m_mask
    fracdiv_n_min := _fracdiv_n_min
    fracdiv_n_max := _fracdiv_n_max
    fracdiv_n_shift := _fracdiv_n_shift
    fracdiv_n_mask := _fracdiv_n_mask
    fracdiv_write_enable_bit := _fracdiv_write_enable_bit
    is_gate := true
    gate_reg_offset := _gate_reg_offset
    gate_enable_bit := _gate_enable_bit
    gate_is_inverse := _gate_is_inverse }

/-- The initialiser `K230_GDIV1`. -/
def K230_GDIV1 (_onecell_idx : Nat) (_name _parent_name : String)
    (_gate_reg_offset _gate_enable_bit : Nat) (_gate_is_inverse : Bool)
    (_fracdiv_reg_offset _fracdiv_reg_1_offset : Nat)
    (_fracdiv_m_min _fracdiv_m_max _fracdiv_m_shift _fracdiv_m_mask : Nat)
    (_fracdiv_n_min _fracdiv_n_max _fracdiv_n_shift _fracdiv_n_mask : Nat)
    (_fracdiv_write_enable_bit : Nat) : k230_composite_clk_cfg :=
  { onecell_idx := _onecell_idx
    name := _name
    parent_names := [_parent_name]
    num_parents := 1
    is_fracdiv := true
    fracdiv_reg_offset := _fracdiv_reg_offset
    fracdiv_m_min := _fracdiv_m_min
    fracdiv_m_max := _fracdiv_m_max
    fracdiv_m_shift := _fracdiv_m_shift
    fracdiv_m_mask := _fracdiv_m_mask
    fracdiv_n_min := _fracdiv_n_min
    fracdiv_n_max := _fracdiv_n_max
    fracdiv_n_shift := _fracdiv_n_shift
    fracdiv_n_mask := _fracdiv_n_mask
    fracdiv_write_enable_bit := _fracdiv_write_enable_bit
    is_fracdiv_1 := true
    fracdiv_reg_1_offset := _fracdiv_reg_1_offset
    is_gate := true
    gate_reg_offset := _gate_reg_offset
    gate_enable_bit := _gate_enable_bit
    gate_is_inverse := _gate_is_inverse }

/-- The initialiser `K230_GMUX`; `num_parents` is `ARRAY_SIZE(_parent_names)`. -/
def K230_GMUX (_onecell_idx : Nat) (_name : String) (_parent_names : List String)
    (_gate_reg_offset _gate_enable_bit : Nat) (_gate_is_inverse : Bool)
    (_mux_reg_offset _mux_shift _mux_mask : Nat) : k230_composite_clk_cfg :=
  { onecell_idx := _onecell_idx
    name := _name
    parent_names := _parent_names
    num_parents := _parent_names.length
    is_gate := true
    gate_reg_offset := _gate_reg_offset
    gate_enable_bit := _gate_enable_bit
    gate_is_inverse := _gate_is_inverse
    is_mux := true
    mux_reg_offset := _mux_reg_offset
    mux_shift := _mux_shift
    mux_mask := _mux_mask }

/-- The initialiser `K230_GMD`; `num_parents` is `ARRAY_SIZE(_parent_names)`. -/
def K230_GMD (_onecell_idx : Nat) (_name : String) (_parent_names : List String)
    (_gate_reg_offset _gate_enable_bit : Nat) (_gate_is_inverse : Bool)
    (_mux_reg_offset _mux_shift _mux_mask : Nat) (_fracdiv_reg_offset : Nat)
    (_fracdiv_m_min _fracdiv_m_max _fracdiv_m_shift _fracdiv_m_mask : Nat)
    (_fracdiv_n_min _fracdiv_n_max _fracdiv_n_shift _fracdiv_n_mask : Nat)
    (_fracdiv_write_enable_bit : Nat) : k230_composite_clk_cfg :=
  { onecell_idx := _onecell_idx
    name := _name
    parent_names := _parent_names
    num_parents := _parent_names.length
    is_gate := true
    gate_reg_offset := _gate_reg_offset
    gate_enable_bit := _gate_enable_bit
    gate_is_inverse := _gate_is_inverse
    is_mux := true
    mux_reg_offset := _mux_reg_offset
    mux_shift := _mux_shift
    mux_mask := _mux_mask
    is_fracdiv := true
    fracdiv_reg_offset := _fracdiv_reg_offset
    fracdiv_m_min := _fracdiv_m_min
    fracdiv_m_max := _fracdiv_m_max
    fracdiv_m_shift := _fracdiv_m_shift
    fracdiv_m_mask := _fracdiv_m_mask
    fracdiv_n_min := _fracdiv_n_min
    fracdiv_n_max := _fracdiv_n_max
    fracdiv_n_shift := _fracdiv_n_shift
    fracdiv_n_mask := _fracdiv_n_mask
    fracdiv_write_enable_bit := _fracdiv_write_enable_bit }

def k230_ssi0_parents : List String := ["pll0_div2", "pll2_div4"]
def k230_usb_ref_clk_parents : List String := ["osc24m", "usb_ref_50m"]
def k230_timer0_clk_parents : List String := ["timer0_clk_src", "timerx_pulse_in"]
def k230_timer1_clk_parents : List String := ["timer1_clk_src", "timerx_pulse_in"]
def k230_timer2_clk_parents : List String := ["timer2_clk_src", "timerx_pulse_in"]
def k230_timer3_clk_parents : List String := ["timer3_clk_src", "timerx_pulse_in"]
def k230_timer4_clk_parents : List String := ["timer4_clk_src", "timerx_pulse_in"]
def k230_timer5_clk_parents : List String := ["timer5_clk_src", "timerx_pulse_in"]
def k230_shrm_clk_parents : List String := ["pll0_div2", "pll3_div2"]
def k230_ddrc_core_clk_parents : List String := ["pll0_div2", "pll0_div3", "pll2_div4"]

/-! ### The entries of `k230_cclk_cfgs` -/

def cfg_sd_src_cclk : k230_composite_clk_cfg :=
  K230_GDIV K230_SD_SRC_CCLK "sd_src_cclk" "pll0_div4" 0x18 11 false 0x1C 1 1 0 0 2 8 12 0x7 31

def cfg_sd0_gate_cclk : k230_composite_clk_cfg :=
  K230_GATE K230_SD0_GATE_CCLK "sd0_gate_cclk" "sd_src_cclk" 0x18 15 false

def cfg_ssi0_cclk : k230_composite_clk_cfg :=
  K230_GMUX K230_SSI0_CCLK "ssi0_cclk" k230_ssi0_parents 0x18 24 false 0x20 18 0x1

def cfg_ssi1_cclk : k230_composite_clk_cfg :=
  K230_GDIV K230_SSI1_CCLK "ssi1_cclk" "pll0_div4" 0x18 25 false 0x20 1 1 0 0 1 8 3 0x7 31

def cfg_ssi2_cclk : k230_composite_clk_cfg :=
  K230_GDIV K230_SSI2_CCLK "ssi2_cclk" "pll0_div4" 0x18 26 false 0x20 1 1 0 0 1 8 6 0x7 31

def cfg_i2c0_cclk : k230_composite_clk_cfg :=
  K230_GDIV K230_I2C0_CCLK "i2c0_cclk" "pll0_div4" 0x24 21 false 0x2C 1 1 0 0 1 8 15 0x7 31

def cfg_i2c1_cclk : k230_composite_clk_cfg :=
  K230_GDIV K230_I2C1_CCLK "i2c1_cclk" "pll0_div4" 0x24 22 false 0x2C 1 1 0 0 1 8 18 0x7 31

def cfg_i2c2_cclk : k230_composite_clk_cfg :=
  K230_GDIV K230_I2C2_CCLK "i2c2_cclk" "pll0_div4" 0x24 23 false 0x2C 1 1 0 0 1 8 21 0x7 31

def cfg_i2c3_cclk : k230_composite_clk_cfg :=
  K230_GDIV K230_I2C3_CCLK "i2c3_cclk" "pll0_div4" 0x24 24 false 0x2C 1 1 0 0 1 8 24 0x7 31

def cfg_i2c4_cclk : k230_composite_clk_cfg :=
  K230_GDIV K230_I2C4_CCLK "i2c4_cclk" "pll0_div4" 0x24 25 false 0x2C 1 1 0 0 1 8 27 0x7 31

def cfg_wdt0_cclk : k230_composite_clk_cfg :=
  K230_GDIV K230_WDT0_CCLK "wdt0_cclk" "osc24m" 0x50 5 false 0x58 1 1 0 0 1 64 3 0x3F 31

def cfg_ls_pclk_src : k230_composite_clk_cfg :=
  K230_GDIV K230_LOWSYS_APB_CCLK "ls_pclk_src" "pll0_div4" 0x24 0 false 0x30 1 1 0 0 1 8 0 0x7 31

def cfg_pwm_cclk : k230_composite_clk_cfg :=
  K230_GATE K230_PWM_CCLK "pwm_cclk" "ls_pclk_src" 0x24 12 false

def cfg_shrm_axim_clk_gate : k230_composite_clk_cfg :=
  K230_GATE K230_SHRM_AXIM_CCLK "shrm_axim_clk_gate" "pll0_div4" 0x5C 12 false

def cfg_pdma_aclk_gate : k230_composite_clk_cfg :=
  K230_GATE K230_PDMA_APB_CCLK "pdma_aclk_gate" "shrm_axim_clk_gate" 0x5C 3 false

def cfg_adc_clk : k230_composite_clk_cfg :=
  K230_GDIV K230_ADC_CLK "adc_clk" "pll0_div4" 0x24 26 false 0x30 1 1 0 0 1 1024 3 0x3FF 31

def cfg_audio_dev_clk : k230_composite_clk_cfg :=
  K230_GDIV K230_AUDIO_DEV_CLK "audio_dev_clk" "pll0_div4" 0x24 28 false 0x34 4 0x1B9 16 0x7FFF 0xC35 0xF424 0 0xFFFF 31

def cfg_codec_adc_mclk : k230_composite_clk_cfg :=
  K230_GDIV K230_CODEC_ADC_MCLK "codec_adc_mclk" "pll0_div4" 0x24 29 false 0x38 10 0x1B9 14 0x1FFF 0xC35 0x3D09 0 0x3FFF 31

def cfg_codec_dac_mclk : k230_composite_clk_cfg :=
  K230_GDIV K230_CODEC_DAC_MCLK "codec_dac_mclk" "pll0_div4" 0x24 30 false 0x3C 10 0x1B9 14 0x1FFF 0xC35 0x3D09 0 0x3FFF 31

def cfg_cpu0_src : k230_composite_clk_cfg :=
  K230_GDIV K230_CPU0_SRC "cpu0_src" "pll0_div2" 0x0 0 false 0x0 1 16 0 0 16 16 1 0xF 31

def cfg_cpu0_plic : k230_composite_clk_cfg :=
  K230_GDIV K230_CPU0_PLIC "cpu0_plic" "cpu0_src" 0x0 9 false 0x0 1 1 0 0 1 8 10 0x7 31

def cfg_cpu0_aclk : k230_composite_clk_cfg :=
  K230_DIV K230_CPU0_ACLK "cpu0_aclk" "cpu0_src" 0x0 1 1 0 0 1 8 6 0x7 31

def cfg_cpu0_ddrcp4 : k230_composite_clk_cfg :=
  K230_GATE K230_CPU0_DDRCP4 "cpu0_ddrcp4" "cpu0_src" 0x60 7 false

def cfg_cpu0_pclk : k230_composite_clk_cfg :=
  K230_GDIV K230_CPU0_PCLK "cpu0_pclk" "pll0_div4" 0x0 13 false 0x0 1 1 0 0 1 8 15 0x7 31

def cfg_pmu_pclk : k230_composite_clk_cfg :=
  K230_GATE K230_PMU_PCLK "pmu_pclk" "osc24m" 0x10 0 false

def cfg_hs_hclk_high_src : k230_composite_clk_cfg :=
  K230_DIV K230_HS_HCLK_HIGH_SRC "hs_hclk_high_src" "pll0_div4" 0x1C 1 1 0 0 1 8 0 0x7 31

def cfg_hs_hclk_high : k230_composite_clk_cfg :=
  K230_GATE K230_HS_HCLK_HIGH "hs_hclk_high" "hs_hclk_high_src" 0x18 1 false

def cfg_hs_hclk_src : k230_composite_clk_cfg :=
  K230_GDIV K230_HS_HCLK_SRC "hs_hclk_src" "hs_hclk_high_src" 0x18 0 false 0x1C 1 1 0 0 1 8 3 0x7 31

def cfg_sd0_hclk_gate : k230_composite_clk_cfg :=
  K230_GATE K230_SD0_HCLK_GATE "sd0_hclk_gate" "hs_hclk_src" 0x18 2 false

def cfg_sd1_hclk_gate : k230_composite_clk_cfg :=
  K230_GATE K230_SD1_HCLK_GATE "sd1_hclk_gate" "hs_hclk_src" 0x18 3 false

def cfg_usb0_hclk_gate : k230_composite_clk_cfg :=
  K230_GATE K230_USB0_HCLK_GATE "usb0_hclk_gate" "hs_hclk_src" 0x18 4 false

def cfg_usb1_hclk_gate : k230_composite_clk_cfg :=
  K230_GATE K230_USB1_HCLK_GATE "usb1_hclk_gate" "hs_hclk_src" 0x18 5 false

def cfg_ssi1_hclk_gate : k230_composite_clk_cfg :=
  K230_GATE K230_SSI1_HCLK_GATE "ssi1_hclk_gate" "hs_hclk_src" 0x18 7 false

def cfg_ssi2_hclk_gate : k230_composite_clk_cfg :=
  K230_GATE K230_SSI2_HCLK_GATE "ssi2_hclk_gate" "hs_hclk_src" 0x18 8 false

def cfg_qspi_aclk_src : k230_composite_clk_cfg :=
  K230_GDIV K230_QSPI_ACLK_SRC "qspi_aclk_src" "pll0_div4" 0x18 28 false 0x20 1 1 0 0 1 8 12 0x7 31

def cfg_ssi1_aclk_gate : k230_composite_clk_cfg :=
  K230_GATE K230_SSI1_ACLK_GATE "ssi1_aclk_gate" "qspi_aclk_src" 0x18 29 false

def cfg_ssi2_aclk_gate : k230_composite_clk_cfg :=
  K230_GATE K230_SSI2_ACLK_GATE "ssi2_aclk_gate" "qspi_aclk_src" 0x18 30 false

def cfg_sd_aclk : k230_composite_clk_cfg :=
  K230_GDIV K230_SD_ACLK "sd_aclk" "pll2_div4" 0x18 9 false 0x1C 1 1 0 0 1 8 6 0x7 31

def cfg_sd0_aclk_gate : k230_composite_clk_cfg :=
  K230_GATE K230_SD0_ACLK_GATE "sd0_aclk_gate" "sd_aclk" 0x18 13 false

def cfg_sd1_aclk_gate : k230_composite_clk_cfg :=
  K230_GATE K230_SD1_ACLK_GATE "sd1_aclk_gate" "sd_aclk" 0x18 17 false

def cfg_sd0_bclk_gate : k230_composite_clk_cfg :=
  K230_GATE K230_SD0_BCLK_GATE "sd0_bclk_gate" "sd_aclk" 0x18 14 false

def cfg_sd1_bclk_gate : k230_composite_clk_cfg :=
  K230_GATE K230_SD1_BCLK_GATE "sd1_bclk_gate" "sd_aclk" 0x18 18 false

def cfg_usb_ref_50m : k230_composite_clk_cfg :=
  K230_DIV K230_USB_REF_50M_CLK "usb_ref_50m" "pll0_div16" 0x20 1 1 0 0 1 8 15 0x7 31

def cfg_usb0_ref_clk : k230_composite_clk_cfg :=
  K230_GMUX K230_USB0_REF_CLK "usb0_ref_clk" k230_usb_ref_clk_parents 0x18 21 false 0x18 23 0x1

def cfg_usb1_ref_clk : k230_composite_clk_cfg :=
  K230_GMUX K230_USB1_REF_CLK "usb1_ref_clk" k230_usb_ref_clk_parents 0x18 22 false 0x18 23 0x1

def cfg_sd_tmclk_src : k230_composite_clk_cfg :=
  K230_GDIV K230_SD_TMCLK_SRC "sd_tmclk_src" "osc24m" 0x18 12 false 0x1C 1 1 0 0 24 32 15 0x1F 31

def cfg_sd0_tmclk_gate : k230_composite_clk_cfg :=
  K230_GATE K230_SD0_TMCLK_GATE "sd0_tmclk_gate" "sd_tmclk_src" 0x18 16 false

def cfg_sd1_tmclk_gate : k230_composite_clk_cfg :=
  K230_GATE K230_SD1_TMCLK_GATE "sd1_tmclk_gate" "sd_tmclk_src" 0x18 20 false

def cfg_uart0_pclk_gate : k230_composite_clk_cfg :=
  K230_GATE K230_UART0_PCLK_GATE "uart0_pclk_gate" "ls_pclk_src" 0x24 1 false

def cfg_uart1_pclk_gate : k230_composite_clk_cfg :=
  K230_GATE K230_UART1_PCLK_GATE "uart1_pclk_gate" "ls_pclk_src" 0x24 2 false

def cfg_uart2_pclk_gate : k230_composite_clk_cfg :=
  K230_GATE K230_UART2_PCLK_GATE "uart2_pclk_gate" "ls_pclk_src" 0x24 3 false

def cfg_uart3_pclk_gate : k230_composite_clk_cfg :=
  K230_GATE K230_UART3_PCLK_GATE "uart3_pclk_gate" "ls_pclk_src" 0x24 4 false

def cfg_uart4_pclk_gate : k230_composite_clk_cfg :=
  K230_GATE K230_UART4_PCLK_GATE "uart4_pclk_gate" "ls_pclk_src" 0x24 5 false

def cfg_i2c0_pclk_gate : k230_composite_clk_cfg :=
  K230_GATE K230_I2C0_PCLK_GATE "i2c0_pclk_gate" "ls_pclk_src" 0x24 6 false

def cfg_i2c1_pclk_gate : k230_composite_clk_cfg :=
  K230_GATE K230_I2C1_PCLK_GATE "i2c1_pclk_gate" "ls_pclk_src" 0x24 7 false

def cfg_i2c2_pclk_gate : k230_composite_clk_cfg :=
  K230_GATE K230_I2C2_PCLK_GATE "i2c2_pclk_gate" "ls_pclk_src" 0x24 8 false

def cfg_i2c3_pclk_gate : k230_composite_clk_cfg :=
  K230_GATE K230_I2C3_PCLK_GATE "i2c3_pclk_gate" "ls_pclk_src" 0x24 9 false

def cfg_i2c4_pclk_gate : k230_composite_clk_cfg :=
  K230_GATE K230_I2C4_PCLK_GATE "i2c4_pclk_gate" "ls_pclk_src" 0x24 10 false

def cfg_gpio_pclk_gate : k230_composite_clk_cfg :=
  K230_GATE K230_GPIO_PCLK_GATE "gpio_pclk_gate" "ls_pclk_src" 0x24 11 false

def cfg_jamlink0_pclk_gate : k230_composite_clk_cfg :=
  K230_GATE K230_JAMLINK0_PCLK_GATE "jamlink0_pclk_gate" "ls_pclk_src" 0x28 4 false

def cfg_jamlink1_pclk_gate : k230_composite_clk_cfg :=
  K230_GATE K230_JAMLINK1_PCLK_GATE "jamlink1_pclk_gate" "ls_pclk_src" 0x28 5 false

def cfg_jamlink2_pclk_gate : k230_composite_clk_cfg :=
  K230_GATE K230_JAMLINK2_PCLK_GATE "jamlink2_pclk_gate" "ls_pclk_src" 0x28 6 false

def cfg_jamlink3_pclk_gate : k230_composite_clk_cfg :=
  K230_GATE K230_JAMLINK3_PCLK_GATE "jamlink3_pclk_gate" "ls_pclk_src" 0x28 7 false

def cfg_audio_pclk_gate : k230_composite_clk_cfg :=
  K230_GATE K230_AUDIO_PCLK_GATE "audio_pclk_gate" "ls_pclk_src" 0x24 13 false

def cfg_adc_pclk_gate : k230_composite_clk_cfg :=
  K230_GATE K230_ADC_PCLK_GATE "adc_pclk_gate" "ls_pclk_src" 0x24 15 false

def cfg_codec_pclk_gate : k230_composite_clk_cfg :=
  K230_GATE K230_CODEC_PCLK_GATE "codec_pclk_gate" "ls_pclk_src" 0x24 14 false

def cfg_uart0_clk : k230_composite_clk_cfg :=
  K230_GDIV K230_UART0_CLK "uart0_clk" "pll0_div16" 0x24 16 false 0x2C 1 1 0 0 1 8 0 0x7 31

def cfg_uart1_clk : k230_composite_clk_cfg :=
  K230_GDIV K230_UART1_CLK "uart1_clk" "pll0_div16" 0x24 17 false 0x2C 1 1 0 0 1 8 3 0x7 31

def cfg_uart2_clk : k230_composite_clk_cfg :=
  K230_GDIV K230_UART2_CLK "uart2_clk" "pll0_div16" 0x24 18 false 0x2C 1 1 0 0 1 8 6 0x7 31

def cfg_uart3_clk : k230_composite_clk_cfg :=
  K230_GDIV K230_UART3_CLK "uart3_clk" "pll0_div16" 0x24 19 false 0x2C 1 1 0 0 1 8 9 0x7 31

def cfg_uart4_clk : k230_composite_clk_cfg :=
  K230_GDIV K230_UART4_CLK "uart4_clk" "pll0_div16" 0x24 20 false 0x2C 1 1 0 0 1 8 12 0x7 31

def cfg_jamlinkCO_div : k230_composite_clk_cfg :=
  K230_DIV K230_JAMLINKCO_DIV "jamlinkCO_div" "pll0_div16" 0x30 1 1 0 0 2 512 23 0xFF 31

def cfg_jamlink0CO_gate : k230_composite_clk_cfg :=
  K230_GATE K230_JAMLINK0CO_GATE "jamlink0CO_gate" "jamlinkCO_div" 0x28 0 false

def cfg_jamlink1CO_gate : k230_composite_clk_cfg :=
  K230_GATE K230_JAMLINK1CO_GATE "jamlink1CO_gate" "jamlinkCO_div" 0x28 1 false

def cfg_jamlink2CO_gate : k230_composite_clk_cfg :=
  K230_GATE K230_JAMLINK2CO_GATE "jamlink2CO_gate" "jamlinkCO_div" 0x28 2 false

def cfg_jamlink3CO_gate : k230_composite_clk_cfg :=
  K230_GATE K230_JAMLINK3CO_GATE "jamlink3CO_gate" "jamlinkCO_div" 0x28 3 false

def cfg_pdm_clk : k230_composite_clk_cfg :=
  K230_GDIV1 K230_PDM_CLK "pdm_clk" "pll0_div4" 0x24 31 false 0x40 0x44 0x2 0x1B9 0 0xFFFF 0xC35 0x1E848 0 0x1FFFF 31

def cfg_gpio_dbclk : k230_composite_clk_cfg :=
  K230_GDIV K230_GPIO_DBCLK "gpio_dbclk" "osc24m" 0x24 27 false 0x30 1 1 0 0 1 1024 13 0x3FF 31

def cfg_wdt0_pclk_gate : k230_composite_clk_cfg :=
  K230_GATE K230_WDT0_PCLK_GATE "wdt0_pclk_gate" "sysctl_pclk" 0x50 1 false

def cfg_wdt1_pclk_gate : k230_composite_clk_cfg :=
  K230_GATE K230_WDT1_PCLK_GATE "wdt1_pclk_gate" "sysctl_pclk" 0x50 2 false

def cfg_timer_pclk_gate : k230_composite_clk_cfg :=
  K230_GATE K230_TIMER_PCLK_GATE "timer_pclk_gate" "sysctl_pclk" 0x50 3 false

def cfg_iomux_pclk_gate : k230_composite_clk_cfg :=
  K230_GATE K230_IOMUX_PCLK_GATE "iomux_pclk_gate" "sysctl_pclk" 0x50 20 false

def cfg_mailbox_pclk_gate : k230_composite_clk_cfg :=
  K230_GATE K230_MAILBOX_PCLK_GATE "mailbox_pclk_gate" "sysctl_pclk" 0x50 4 false

def cfg_hdi_clk : k230_composite_clk_cfg :=
  K230_GDIV K230_HDI_CLK "hdi_clk" "pll0_div4" 0x50 21 false 0x58 1 1 0 0 1 8 28 0x7 31

def cfg_stc_clk : k230_composite_clk_cfg :=
  K230_GDIV K230_STC_CLK "stc_clk" "pll1_div4" 0x50 19 false 0x58 1 1 0 0 1 32 15 0x1F 31

def cfg_ts_clk : k230_composite_clk_cfg :=
  K230_DIV K230_TS_CLK "ts_clk" "osc24m" 0x58 1 1 0 0 1 256 20 0xFF 31

def cfg_wdt1_cclk : k230_composite_clk_cfg :=
  K230_GDIV K230_WDT1_CCLK "wdt1_cclk" "osc24m" 0x50 6 false 0x58 1 1 0 0 1 64 9 0x3F 31

def cfg_timer0_clk_src : k230_composite_clk_cfg :=
  K230_DIV K230_TIMER0_CLK_SRC "timer0_clk_src" "pll0_div16" 0x54 1 1 0 0 1 8 0 0x7 31

def cfg_timer0_clk : k230_composite_clk_cfg :=
  K230_GMUX K230_TIMER0_CLK "timer0_clk" k230_timer0_clk_parents 0x50 13 false 0x50 7 0x1

def cfg_timer1_clk_src : k230_composite_clk_cfg :=
  K230_DIV K230_TIMER1_CLK_SRC "timer1_clk_src" "pll0_div16" 0x54 1 1 0 0 1 8 3 0x7 31

def cfg_timer1_clk : k230_composite_clk_cfg :=
  K230_GMUX K230_TIMER1_CLK "timer1_clk" k230_timer1_clk_parents 0x50 14 false 0x50 8 0x1

def cfg_timer2_clk_src : k230_composite_clk_cfg :=
  K230_DIV K230_TIMER2_CLK_SRC "timer2_clk_src" "pll0_div16" 0x54 1 1 0 0 1 8 6 0x7 31

def cfg_timer2_clk : k230_composite_clk_cfg :=
  K230_GMUX K230_TIMER2_CLK "timer2_clk" k230_timer2_clk_parents 0x50 15 false 0x50 9 0x1

def cfg_timer3_clk_src : k230_composite_clk_cfg :=
  K230_DIV K230_TIMER3_CLK_SRC "timer3_clk_src" "pll0_div16" 0x54 1 1 0 0 1 8 9 0x7 31

def cfg_timer3_clk : k230_composite_clk_cfg :=
  K230_GMUX K230_TIMER3_CLK "timer3_clk" k230_timer3_clk_parents 0x50 16 false 0x50 10 0x1

def cfg_timer4_clk_src : k230_composite_clk_cfg :=
  K230_DIV K230_TIMER4_CLK_SRC "timer4_clk_src" "pll0_div16" 0x54 1 1 0 0 1 8 12 0x7 31

def cfg_timer4_clk : k230_composite_clk_cfg :=
  K230_GMUX K230_TIMER4_CLK "timer4_clk" k230_timer4_clk_parents 0x50 17 false 0x50 11 0x1

def cfg_timer5_clk_src : k230_composite_clk_cfg :=
  K230_DIV K230_TIMER5_CLK_SRC "timer5_clk_src" "pll0_div16" 0x54 1 1 0 0 1 8 15 0x7 31

def cfg_timer5_clk : k230_composite_clk_cfg :=
  K230_GMUX K230_TIMER5_CLK "timer5_clk" k230_timer5_clk_parents 0x50 18 false 0x50 12 0x1

def cfg_shrm_src : k230_composite_clk_cfg :=
  K230_GMUX K230_SHRM_SRC "shrm_src" k230_shrm_clk_parents 0x5C 10 false 0x5C 14 0x1

def cfg_shrm_pclk : k230_composite_clk_cfg :=
  K230_GDIV K230_SHRM_PCLK "shrm_pclk" "pll0_div4" 0x5C 0 false 0x5C 1 1 0 0 1 8 18 0x7 31

def cfg_gsdma_aclk_gate : k230_composite_clk_cfg :=
  K230_GATE K230_GSDMA_ACLK_GATE "gsdma_aclk_gate" "shrm_axim_clk_gate" 0x5C 5 false

def cfg_nonai2d_aclk_gate : k230_composite_clk_cfg :=
  K230_GATE K230_NONAI2D_ACLK_GATE "nonai2d_aclk_gate" "shrm_axim_clk_gate" 0x5C 9 false

def cfg_disp_hclk : k230_composite_clk_cfg :=
  K230_GDIV K230_DISP_HCLK "disp_hclk" "pll0_div4" 0x74 0 false 0x78 1 1 0 0 1 8 0 0x7 31

def cfg_disp_aclk_gate : k230_composite_clk_cfg :=
  K230_GATE K230_DISP_ACLK_GATE "disp_aclk_gate" "pll0_div4" 0x74 1 false

def cfg_disp_clk_ext : k230_composite_clk_cfg :=
  K230_GDIV K230_DISP_CLK_EXT "disp_clk_ext" "pll0_div3" 0x74 5 false 0x78 1 1 0 0 1 16 16 0xF 31

def cfg_disp_gpu : k230_composite_clk_cfg :=
  K230_GDIV K230_DISP_GPU "disp_gpu" "pll0_div3" 0x74 6 false 0x78 1 1 0 0 1 16 20 0xF 31

def cfg_dpipclk : k230_composite_clk_cfg :=
  K230_GDIV K230_DPIPCLK "dpipclk" "pll1_div4" 0x74 2 false 0x78 1 1 0 0 1 256 3 0xFF 31

def cfg_disp_cfgclk : k230_composite_clk_cfg :=
  K230_GDIV K230_DISP_CFGCLK "disp_cfgclk" "pll1_div4" 0x74 4 false 0x78 1 1 0 0 1 32 11 0x1F 31

def cfg_disp_refclk_gate : k230_composite_clk_cfg :=
  K230_GATE K230_DISP_REFCLK_GATE "disp_refclk_gate" "osc24m" 0x74 3 false

def cfg_ddrc_core_clk : k230_composite_clk_cfg :=
  K230_GMD K230_DDRC_CORE_CLK "ddrc_core_clk" k230_ddrc_core_clk_parents 0x60 2 false 0x60 0 0x3 0x60 1 1 0 0 1 16 10 0xF 31

def cfg_ddrc_bypass_gate : k230_composite_clk_cfg :=
  K230_GATE K230_DDRC_BYPASS_GATE "ddrc_bypass_gate" "pll2_div4" 0x60 8 false

def cfg_ddrc_pclk : k230_composite_clk_cfg :=
  K230_GDIV K230_DDRC_PCLK "ddrc_pclk" "pll0_div4" 0x60 9 false 0x60 1 1 0 0 1 16 14 0xF 31

def cfg_vpu_src : k230_composite_clk_cfg :=
  K230_GDIV K230_VPU_SRC "vpu_src" "pll0_div2" 0xC 0 false 0xC 1 16 0 0 16 16 1 0xF 31

def cfg_vpu_aclk_src : k230_composite_clk_cfg :=
  K230_DIV K230_VPU_ACLK_SRC "vpu_aclk_src" "vpu_src" 0xC 1 1 0 0 1 16 6 0xF 31

def cfg_vpu_aclk : k230_composite_clk_cfg :=
  K230_GATE K230_VPU_ACLK "vpu_aclk" "vpu_aclk_src" 0xC 5 false

def cfg_vpu_ddrcp2 : k230_composite_clk_cfg :=
  K230_GATE K230_VPU_DDRCP2 "vpu_ddrcp2" "vpu_aclk_src" 0x60 5 false

def cfg_vpu_cfg : k230_composite_clk_cfg :=
  K230_GDIV K230_VPU_CFG "vpu_cfg" "pll0_div4" 0xC 10 false 0xC 1 1 0 0 1 16 11 0xF 31

def cfg_sec_pclk : k230_composite_clk_cfg :=
  K230_GDIV K230_SEC_PCLK "sec_pclk" "pll0_div4" 0x80 0 false 0x80 1 1 0 0 1 8 1 0x7 31

def cfg_sec_fixclk : k230_composite_clk_cfg :=
  K230_GDIV K230_SEC_FIXCLK "sec_fixclk" "pll1_div4" 0x80 5 false 0x80 1 1 0 0 1 32 6 0x1F 31

def cfg_sec_aclk_gate : k230_composite_clk_cfg :=
  K230_GDIV K230_SEC_ACLK_GATE "sec_aclk_gate" "pll1_div4" 0x80 4 false 0x80 1 1 0 0 1 8 11 0x3 31

def cfg_usb_clk480 : k230_composite_clk_cfg :=
  K230_GDIV K230_USB_CLK480 "usb_clk480" "pll1" 0x100 0 false 0x100 1 1 0 0 1 8 1 0x7 31

def cfg_usb_clk100 : k230_composite_clk_cfg :=
  K230_GDIV K230_USB_CLK100 "usb_clk100" "pll0_div4" 0x100 0 false 0x100 1 1 0 0 1 8 4 0x7 31

def cfg_dphy_test_clk : k230_composite_clk_cfg :=
  K230_GDIV K230_DPHY_TEST_CLK "dphy_test_clk" "pll0" 0x104 0 false 0x104 1 1 0 0 1 16 1 0xF 31

def cfg_spi2axi_aclk : k230_composite_clk_cfg :=
  K230_GDIV K230_SPI2AXI_ACLK "spi2axi_aclk" "pll0_div4" 0x108 0 false 0x108 1 1 0 0 1 8 1 0x7 31

def cfg_shrm_axis_clk_gate : k230_composite_clk_cfg :=
  K230_GATE K230_SHRM_AXIS_CLK_GATE "shrm_axis_clk_gate" "shrm_div2" 0x5C 11 false

def cfg_decompress_clk_gate : k230_composite_clk_cfg :=
  K230_GATE K230_DECOMPRESS_CLK_GATE "decompress_clk_gate" "shrm_src" 0x5C 7 false

/-- The table `k230_cclk_cfgs`. -/
def k230_cclk_cfgs : List k230_composite_clk_cfg :=
  [cfg_sd_src_cclk, cfg_sd0_gate_cclk, cfg_ssi0_cclk, cfg_ssi1_cclk, cfg_ssi2_cclk,
   cfg_i2c0_cclk, cfg_i2c1_cclk, cfg_i2c2_cclk, cfg_i2c3_cclk, cfg_i2c4_cclk, cfg_wdt0_cclk,
   cfg_ls_pclk_src, cfg_pwm_cclk, cfg_shrm_axim_clk_gate, cfg_pdma_aclk_gate, cfg_adc_clk,
   cfg_audio_dev_clk, cfg_codec_adc_mclk, cfg_codec_dac_mclk, cfg_cpu0_src, cfg_cpu0_plic,
   cfg_cpu0_aclk, cfg_cpu0_ddrcp4, cfg_cpu0_pclk, cfg_pmu_pclk, cfg_hs_hclk_high_src,
   cfg_hs_hclk_high, cfg_hs_hclk_src, cfg_sd0_hclk_gate, cfg_sd1_hclk_gate, cfg_usb0_hclk_gate,
   cfg_usb1_hclk_gate, cfg_ssi1_hclk_gate, cfg_ssi2_hclk_gate, cfg_qspi_aclk_src,
   cfg_ssi1_aclk_gate, cfg_ssi2_aclk_gate, cfg_sd_aclk, cfg_sd0_aclk_gate, cfg_sd1_aclk_gate,
   cfg_sd0_bclk_gate, cfg_sd1_bclk_gate, cfg_usb_ref_50m, cfg_usb0_ref_clk, cfg_usb1_ref_clk,
   cfg_sd_tmclk_src, cfg_sd0_tmclk_gate, cfg_sd1_tmclk_gate, cfg_uart0_pclk_gate,
   cfg_uart1_pclk_gate, cfg_uart2_pclk_gate, cfg_uart3_pclk_gate, cfg_uart4_pclk_gate,
   cfg_i2c0_pclk_gate, cfg_i2c1_pclk_gate, cfg_i2c2_pclk_gate, cfg_i2c3_pclk_gate,
   cfg_i2c4_pclk_gate, cfg_gpio_pclk_gate, cfg_jamlink0_pclk_gate, cfg_jamlink1_pclk_gate,
   cfg_jamlink2_pclk_gate, cfg_jamlink3_pclk_gate, cfg_audio_pclk_gate, cfg_adc_pclk_gate,
   cfg_codec_pclk_gate, cfg_uart0_clk, cfg_uart1_clk, cfg_uart2_clk, cfg_uart3_clk,
   cfg_uart4_clk, cfg_jamlinkCO_div, cfg_jamlink0CO_gate, cfg_jamlink1CO_gate,
   cfg_jamlink2CO_gate, cfg_jamlink3CO_gate, cfg_pdm_clk, cfg_gpio_dbclk, cfg_wdt0_pclk_gate,
   cfg_wdt1_pclk_gate, cfg_timer_pclk_gate, cfg_iomux_pclk_gate, cfg_mailbox_pclk_gate,
   cfg_hdi_clk, cfg_stc_clk, cfg_ts_clk, cfg_wdt1_cclk, cfg_timer0_clk_src, cfg_timer0_clk,
   cfg_timer1_clk_src, cfg_timer1_clk, cfg_timer2_clk_src, cfg_timer2_clk, cfg_timer3_clk_src,
   cfg_timer3_clk, cfg_timer4_clk_src, cfg_timer4_clk, cfg_timer5_clk_src, cfg_timer5_clk,
   cfg_shrm_src, cfg_shrm_pclk, cfg_gsdma_aclk_gate, cfg_nonai2d_aclk_gate, cfg_disp_hclk,
   cfg_disp_aclk_gate, cfg_disp_clk_ext, cfg_disp_gpu, cfg_dpipclk, cfg_disp_cfgclk,
   cfg_disp_refclk_gate, cfg_ddrc_core_clk, cfg_ddrc_bypass_gate, cfg_ddrc_pclk, cfg_vpu_src,
   cfg_vpu_aclk_src, cfg_vpu_aclk, cfg_vpu_ddrcp2, cfg_vpu_cfg, cfg_sec_pclk, cfg_sec_fixclk,
   cfg_sec_aclk_gate, cfg_usb_clk480, cfg_usb_clk100, cfg_dphy_test_clk, cfg_spi2axi_aclk,
   cfg_shrm_axis_clk_gate, cfg_decompress_clk_gate]

/-- The sub-parts that `k230_register_child_cclk` builds for a composite
before it hands them to `clk_hw_register_composite`. -/
structure k230_cclk_parts where
  rate_hw : Option k230_clk_fracdiv
  gate_hw : Option clk_gate
  mux_hw : Option clk_mux
  deriving DecidableEq, Repr

/-- The construction part of `k230_register_child_cclk` for one configuration
record, every allocation succeeding: `devm_kzalloc` zeroes the records, the
bases are mapped (non-NULL) addresses, `bit_idx` is a `u8`. -/
def k230_register_child_cclk (sys_base : Nat) (clk_cfg : k230_composite_clk_cfg) :
    k230_cclk_parts :=
  { rate_hw :=
      if clk_cfg.is_fracdiv then
        some
          { reg := some (sys_base + clk_cfg.fracdiv_reg_offset)
            m_shift := clk_cfg.fracdiv_m_shift
            m_mask := clk_cfg.fracdiv_m_mask
            m_min := clk_cfg.fracdiv_m_min
            m_max := clk_cfg.fracdiv_m_max
            n_shift := clk_cfg.fracdiv_n_shift
            n_mask := clk_cfg.fracdiv_n_mask
            n_min := clk_cfg.fracdiv_n_min
            n_max := clk_cfg.fracdiv_n_max
            bit_idx := u8 clk_cfg.fracdiv_write_enable_bit
            reg_1 :=
              if clk_cfg.is_fracdiv_1 then some (sys_base + clk_cfg.fracdiv_reg_1_offset)
              else none
            -- There are 4 special clocks that requires their own divider table.
            fracdiv_table :=
              if clk_cfg.fracdiv_reg_offset = 0x38 ∨ clk_cfg.fracdiv_reg_offset = 0x3C then
                some codec_fracdiv_table
              else if clk_cfg.fracdiv_reg_offset = 0x34 ∨ clk_cfg.fracdiv_reg_offset = 0x40 then
                some pdm_fracdiv_table
              else none }
      else none
    gate_hw :=
      if clk_cfg.is_gate then
        some
          { bit_idx := clk_cfg.gate_enable_bit
            flags := if clk_cfg.gate_is_inverse then 0 ||| CLK_GATE_SET_TO_DISABLE else 0
            reg := sys_base + clk_cfg.gate_reg_offset }
      else none
    mux_hw :=
      if clk_cfg.is_mux then
        some
          { reg := sys_base + clk_cfg.mux_reg_offset
            shift := clk_cfg.mux_shift
            mask := clk_cfg.mux_mask }
      else none }

/-- The fractional divider that registration builds for a configuration
record (all fields zero, pointers NULL, when the record has none). -/
def cclk_fracdiv (sys_base : Nat) (clk_cfg : k230_composite_clk_cfg) : k230_clk_fracdiv :=
  (k230_register_child_cclk sys_base clk_cfg).rate_hw.getD
    { fracdiv_table := none, reg := none, reg_1 := none, m_shift := 0, m_mask := 0, m_min := 0,
      m_max := 0, n_shift := 0, n_mask := 0, n_min := 0, n_max := 0, bit_idx := 0 }

/-- The mux that registration builds for a configuration record (all fields
zero when the record has none). -/
def cclk_mux (sys_base : Nat) (clk_cfg : k230_composite_clk_cfg) : clk_mux :=
  (k230_register_child_cclk sys_base clk_cfg).mux_hw.getD { reg := 0, shift := 0, mask := 0 }

/-- The gate that registration builds for a configuration record (all fields
zero when the record has none). -/
def cclk_gate (sys_base : Nat) (clk_cfg : k230_composite_clk_cfg) : clk_gate :=
  (k230_register_child_cclk sys_base clk_cfg).gate_hw.getD { reg := 0, bit_idx := 0, flags := 0 }

/-! ## PLL gate control -/

/-- Bitwise complement of an `unsigned long` (64 bit), as in `~BIT(nr)`. -/
def not64 (x : Nat) : Nat := 0xFFFFFFFFFFFFFFFF ^^^ x

/-- The function `k230_pll_clk_is_enabled`: the returned `int` and the
register file on return (the function has no `writel`). -/
def k230_pll_clk_is_enabled (k230_pll : k230_pll_clk) (regs : Regs) : Int × Regs :=
  let gate_value := readl regs (k230_pll.reg + K230_PLL_CLK_GATE_OFFSET)
  (if (gate_value &&& BIT K230_PLL_GATE_REG_ENABLE_BIT) > 0 then 1 else 0, regs)

/-- The function `k230_pll_clk_enable`: the returned `int` and the register
file on return. -/
def k230_pll_clk_enable (k230_pll : k230_pll_clk) (regs : Regs) : Int × Regs :=
  let gate_value := readl regs (k230_pll.reg + K230_PLL_CLK_GATE_OFFSET)
  let gate_value :=
    u32 (gate_value |||
      (BIT K230_PLL_GATE_REG_ENABLE_BIT ||| BIT K230_PLL_GATE_REG_WRITE_ENABLE_BIT))
  (0, writel gate_value (k230_pll.reg + K230_PLL_CLK_GATE_OFFSET) regs)

/-- The function `k230_pll_clk_disable`: the register file on return. -/
def k230_pll_clk_disable (k230_pll : k230_pll_clk) (regs : Regs) : Regs :=
  let gate_value := readl regs (k230_pll.reg + K230_PLL_CLK_GATE_OFFSET)
  let gate_value := u32 (gate_value &&& not64 (BIT K230_PLL_GATE_REG_ENABLE_BIT))
  let gate_value := u32 (gate_value ||| BIT K230_PLL_GATE_REG_WRITE_ENABLE_BIT)
  writel gate_value (k230_pll.reg + K230_PLL_CLK_GATE_OFFSET) regs

/-! ## Gate node -/

/-- The function `k230_gate_clk_enable`: the returned `int` and the register
file on return. -/
def k230_gate_clk_enable (gate : clk_gate) (regs : Regs) : Int × Regs :=
  let gate_val := readl regs gate.reg
  let gate_val :=
    if (gate.flags &&& CLK_GATE_SET_TO_DISABLE) = 0 then
      u32 (gate_val ||| BIT gate.bit_idx)
    else
      u32 (gate_val &&& not64 (BIT gate.bit_idx))
  (0, writel gate_val gate.reg regs)

/-- The function `k230_gate_clk_disable`: the register file on return. -/
def k230_gate_clk_disable (gate : clk_gate) (regs : Regs) : Regs :=
  let gate_val := readl regs gate.reg
  let gate_val :=
    if (gate.flags &&& CLK_GATE_SET_TO_DISABLE) ≠ 0 then
      u32 (gate_val ||| BIT gate.bit_idx)
    else
      u32 (gate_val &&& not64 (BIT gate.bit_idx))
  writel gate_val gate.reg regs

/-- Modelled from the spec: the kernel helper `clk_gate_is_enabled`, the
`is_enabled` operation of `k230_gate_clk_ops`, which is not part of the driver
sources: a "single-bit read" where, with `gate_is_inverse`, "bit set =
disabled" (the result is "computed as bit==0 under inverse policy"). -/
def clk_gate_is_enabled (gate : clk_gate) (regs : Regs) : Int :=
  let bit := (readl regs gate.reg).testBit gate.bit_idx
  if (gate.flags &&& CLK_GATE_SET_TO_DISABLE) ≠ 0 then
    if bit = false then 1 else 0
  else
    if bit = true then 1 else 0

/-! ## Advisory rounding -/

/-- Modelled from the spec: the limit `LONG_MAX` of the kernel headers
("the representable maximum"), which is not part of the driver sources. -/
def LONG_MAX : Nat := 2 ^ 63 - 1

/-- The function `k230_rate_clk_round_rate`: the returned `long`, the content
of `*parent_rate` on return and the register file on return. The kernel macro
`min` compares `rate` with `LONG_MAX` as `unsigned long`. -/
def k230_rate_clk_round_rate (_hw : k230_clk_fracdiv) (regs : Regs) (rate parent_rate : Nat) :
    Int × Nat × Regs :=
  (s64 ((min rate LONG_MAX : Nat) : Int), parent_rate, regs)

/-! ## Reference definition of the recalculated rate -/

/-- The multiplier and divisor that the spec reads back from the register(s)
of a fractional divider ("recovered mul treated as stored_n + 1, recovered
div fixed at n_max; denominator-fixed mirrors this with roles swapped;
both-variable reads both fields directly as mul and div with no +1 offset"),
over unbounded integers; `none` when no register is configured. -/
def recalc_rate_reference_mul_div (clk : k230_clk_fracdiv) (regs : Regs) : Option (Nat × Nat) :=
  match clk.reg with
  | none => none
  | some reg_addr =>
    let f := (readl regs reg_addr >>> clk.n_shift) &&& clk.n_mask
    if clk.n_min = clk.n_max then some (f + 1, clk.n_max)
    else if clk.m_min = clk.m_max then some (clk.m_max, f + 1)
    else
      let R :=
        match clk.reg_1 with
        | none => readl regs reg_addr
        | some reg_1_addr => readl regs reg_1_addr
      some ((R >>> clk.m_shift) &&& clk.m_mask, f)

/-- The reference definition of the recalculated rate, after the spec: the
parent rate "if no register configured", else `floor(parent_rate * mul / div)`
over unbounded integers. -/
def recalc_rate_reference (clk : k230_clk_fracdiv) (regs : Regs) (parent_rate : Nat) : Nat :=
  match recalc_rate_reference_mul_div clk regs with
  | none => parent_rate
  | some (mul, div) => parent_rate * mul / div

/-! ## Composite node -/

/-- Modelled from the spec: the `enable` operation of a composite, which the
kernel's `clk_hw_register_composite` provides and the driver sources do not
contain: a composite "delegates is_enabled/enable/disable to its Gate sub-part
(no-op success if absent)". The result is the returned `int` and the register
file on return. -/
def composite_enable (parts : k230_cclk_parts) (regs : Regs) : Int × Regs :=
  match parts.gate_hw with
  | none => (0, regs)
  | some gate => k230_gate_clk_enable gate regs

/-- Modelled from the spec: the `is_enabled` operation of a composite, which
the kernel's `clk_hw_register_composite` provides and the driver sources do
not contain: it is delegated to the Gate sub-part; without one the node has no
gate that could switch it off. -/
def composite_is_enabled (parts : k230_cclk_parts) (regs : Regs) : Int :=
  match parts.gate_hw with
  | none => 1
  | some gate => clk_gate_is_enabled gate regs

/-- Modelled from the spec: the `recalc_rate` operation of a composite, which
the kernel's `clk_hw_register_composite` provides and the driver sources do
not contain: it is delegated to the Rate sub-part, with "pass-through to
parent rate if absent". -/
def composite_recalc_rate (parts : k230_cclk_parts) (regs : Regs) (parent_rate : Nat) :
    Except Fault Nat :=
  match parts.rate_hw with
  | none => .ok parent_rate
  | some rate_hw => k230_rate_clk_recalc_rate rate_hw regs parent_rate

/-! ## Oscillator, PLL and fixed-factor configuration -/

/-- The configuration record `struct k230_internal_osc_cfg`. -/
structure k230_internal_osc_cfg where
  name : String
  onecell_idx : Nat
  freq : Nat
  deriving DecidableEq, Repr

/-- The configuration record `struct k230_pll_clk_cfg`. -/
structure k230_pll_clk_cfg where
  name : String
  onecell_idx : Nat
  pll_reg_offset : Nat
  deriving DecidableEq, Repr

/-- The configuration record `struct k230_fixedfactor_clk_cfg`. -/
structure k230_fixedfactor_clk_cfg where
  name : String
  parent_name : String
  onecell_idx : Nat
  clk_div : Nat
  deriving DecidableEq, Repr

/-- The initialiser `K230_INTERNAL_OSC`. -/
def K230_INTERNAL_OSC (_onecell_idx : Nat) (_name : String) (_freq : Nat) :
    k230_internal_osc_cfg :=
  { onecell_idx := _onecell_idx, name := _name, freq := _freq }

/-- The initialiser `K230_PLL`. -/
def K230_PLL (_onecell_idx : Nat) (_name : String) (_reg_offset : Nat) : k230_pll_clk_cfg :=
  { onecell_idx := _onecell_idx, name := _name, pll_reg_offset := _reg_offset }

/-- The initialiser `K230_FIXEDFACTOR`. -/
def K230_FIXEDFACTOR (_onecell_idx : Nat) (_name _parent_name : String) (_div : Nat) :
    k230_fixedfactor_clk_cfg :=
  { onecell_idx := _onecell_idx, name := _name, parent_name := _parent_name, clk_div := _div }

/-- The table `k230_osc_cfgs`. -/
def k230_osc_cfgs : List k230_internal_osc_cfg :=
  [ K230_INTERNAL_OSC K230_TIMERX_PULSE_IN "timerx_pulse_in" 50000000,
    K230_INTERNAL_OSC K230_SYSCTL_PCLK "sysctl_pclk" 100000000 ]

/-- The table `k230_pll_cfgs`. -/
def k230_pll_cfgs : List k230_pll_clk_cfg :=
  [ K230_PLL K230_PLL0_CLK "pll0" 0,
    K230_PLL K230_PLL1_CLK "pll1" 0x10,
    K230_PLL K230_PLL2_CLK "pll2" 0x20,
    K230_PLL K230_PLL3_CLK "pll3" 0x30 ]

/-- The table `k230_pll_child_cfgs`. -/
def k230_pll_child_cfgs : List k230_fixedfactor_clk_cfg :=
  [ K230_FIXEDFACTOR K230_PLL0_DIV2_CLK "pll0_div2" "pll0" 2,
    K230_FIXEDFACTOR K230_PLL0_DIV3_CLK "pll0_div3" "pll0" 3,
    K230_FIXEDFACTOR K230_PLL0_DIV4_CLK "pll0_div4" "pll0" 4,
    K230_FIXEDFACTOR K230_PLL0_DIV16_CLK "pll0_div16" "pll0" 16,
    K230_FIXEDFACTOR K230_PLL1_DIV2_CLK "pll1_div2" "pll1" 2,
    K230_FIXEDFACTOR K230_PLL1_DIV3_CLK "pll1_div3" "pll1" 3,
    K230_FIXEDFACTOR K230_PLL1_DIV4_CLK "pll1_div4" "pll1" 4,
    K230_FIXEDFACTOR K230_PLL2_DIV2_CLK "pll2_div2" "pll2" 2,
    K230_FIXEDFACTOR K230_PLL2_DIV3_CLK "pll2_div3" "pll2" 3,
    K230_FIXEDFACTOR K230_PLL2_DIV4_CLK "pll2_div4" "pll2" 4,
    K230_FIXEDFACTOR K230_PLL3_DIV2_CLK "pll3_div2" "pll3" 2,
    K230_FIXEDFACTOR K230_PLL3_DIV3_CLK "pll3_div3" "pll3" 3,
    K230_FIXEDFACTOR K230_PLL3_DIV4_CLK "pll3_div4" "pll3" 4,
    K230_FIXEDFACTOR K230_SHRM_DIV2 "shrm_div2" "shrm_src" 2 ]

/-! ## Registry and probe -/

/-- The registry `all_clks` (`struct clk_hw_onecell_data`, a kernel type): the
slot count `num` and the slots `hws`. A slot is `none` when it holds
`ERR_PTR(-ENOENT)` and `some name` when it holds the `clk_hw` of the node
registered under that name. -/
structure clk_hw_onecell_data where
  num : Nat
  hws : List (Option String)
  deriving DecidableEq, Repr

/-- Modelled from the spec: the errno constant `ENOMEM` of the kernel headers,
which is not part of the driver sources ("no memory for a node record"). -/
def ENOMEM : Int := 12

/-- What the kernel calls made during probe return; the driver sources do not
contain them. An address or a `PTR_ERR` for the two `ioremap` calls, whether an
allocation succeeded, and 0 or the error of each registration call, by table
position. -/
structure probe_env where
  sys_base : Except Int Nat
  pll_base : Except Int Nat
  all_clks_alloc : Bool
  osc_register : Nat → Int
  pll_alloc : Nat → Bool
  pll_register : Nat → Int
  fixedfactor_register : Nat → Int
  fracdiv_alloc : Nat → Bool
  gate_alloc : Nat → Bool
  mux_alloc : Nat → Bool
  composite_register : Nat → Int
  add_hw_provider : Int

/-- The store `all_clks->hws[idx] = hw`; a store past the end of the array is
a fault. -/
def hws_store (all_clks : clk_hw_onecell_data) (idx : Nat) (name : String) :
    Except Fault clk_hw_onecell_data :=
  if idx < all_clks.hws.length then
    .ok { all_clks with hws := all_clks.hws.set idx (some name) }
  else .error .hws_overrun

/-- The control flow of `k230_register_child_cclk` for the table entry at
position `cclk_idx`: the three allocations, `clk_hw_register_composite` and the
registry store. The result is the returned `int` and the registry. -/
def k230_register_child_cclk_flow (env : probe_env) (cclk_idx : Nat)
    (clk_cfg : k230_composite_clk_cfg) (all_clks : clk_hw_onecell_data) :
    Except Fault (Int × clk_hw_onecell_data) :=
  if clk_cfg.is_fracdiv = true ∧ env.fracdiv_alloc cclk_idx = false then .ok (-ENOMEM, all_clks)
  else if clk_cfg.is_gate = true ∧ env.gate_alloc cclk_idx = false then .ok (-ENOMEM, all_clks)
  else if clk_cfg.is_mux = true ∧ env.mux_alloc cclk_idx = false then .ok (-ENOMEM, all_clks)
  else
    let err := env.composite_register cclk_idx
    if err ≠ 0 then .ok (err, all_clks)
    else
      match hws_store all_clks clk_cfg.onecell_idx clk_cfg.name with
      | .error e => .error e
      | .ok all_clks => .ok (0, all_clks)

/-- The function `k230_register_pll_clk` for the table entry at position
`pll_idx`. -/
def k230_register_pll_clk (env : probe_env) (pll_idx : Nat) (clk_cfg : k230_pll_clk_cfg)
    (all_clks : clk_hw_onecell_data) : Except Fault (Int × clk_hw_onecell_data) :=
  if env.pll_alloc pll_idx = false then .ok (-ENOMEM, all_clks)
  else
    let err := env.pll_register pll_idx
    if err ≠ 0 then .ok (err, all_clks)
    else
      match hws_store all_clks clk_cfg.onecell_idx clk_cfg.name with
      | .error e => .error e
      | .ok all_clks => .ok (0, all_clks)

/-- One pass of the loop of `k230_register_all_internal_osc_clks`; the handle
is not stored. -/
def k230_register_internal_osc_clk (env : probe_env) (i : Nat) (_cfg : k230_internal_osc_cfg)
    (all_clks : clk_hw_onecell_data) : Except Fault (Int × clk_hw_onecell_data) :=
  .ok (env.osc_register i, all_clks)

/-- One pass of the loop of `k230_register_all_fixedfactor_clks`. -/
def k230_register_fixedfactor_clk (env : probe_env) (i : Nat) (clk_cfg : k230_fixedfactor_clk_cfg)
    (all_clks : clk_hw_onecell_data) : Except Fault (Int × clk_hw_onecell_data) :=
  let err := env.fixedfactor_register i
  if err ≠ 0 then .ok (err, all_clks)
  else
    match hws_store all_clks clk_cfg.onecell_idx clk_cfg.name with
    | .error e => .error e
    | .ok all_clks => .ok (0, all_clks)

/-- A loop `for (i = 0; i < ARRAY_SIZE(table); ++i)` whose body returns the
error of the first failing pass: the entries from position `i` on. -/
def register_all_from {α : Type}
    (step : Nat → α → clk_hw_onecell_data → Except Fault (Int × clk_hw_onecell_data)) :
    Nat → List α → clk_hw_onecell_data → Except Fault (Int × clk_hw_onecell_data)
  | _, [], all_clks => .ok (0, all_clks)
  | i, cfg :: rest, all_clks =>
    match step i cfg all_clks with
    | .error e => .error e
    | .ok (err, all_clks) =>
      if err ≠ 0 then .ok (err, all_clks)
      else register_all_from step (i + 1) rest all_clks

/-- The function `k230_register_all_internal_osc_clks`. -/
def k230_register_all_internal_osc_clks (env : probe_env) (all_clks : clk_hw_onecell_data) :
    Except Fault (Int × clk_hw_onecell_data) :=
  register_all_from (k230_register_internal_osc_clk env) 0 k230_osc_cfgs all_clks

/-- The function `k230_register_all_pll_clk`. -/
def k230_register_all_pll_clk (env : probe_env) (all_clks : clk_hw_onecell_data) :
    Except Fault (Int × clk_hw_onecell_data) :=
  register_all_from (k230_register_pll_clk env) 0 k230_pll_cfgs all_clks

/-- The function `k230_register_all_fixedfactor_clks`. -/
def k230_register_all_fixedfactor_clks (env : probe_env) (all_clks : clk_hw_onecell_data) :
    Except Fault (Int × clk_hw_onecell_data) :=
  register_all_from (k230_register_fixedfactor_clk env) 0 k230_pll_child_cfgs all_clks

/-- The loop of `k230_register_all_child_cclks` from position `i` on: a failing
entry is reported with `dev_warn` and the loop goes on. -/
def k230_register_all_child_cclks_from (env : probe_env) :
    Nat → List k230_composite_clk_cfg → clk_hw_onecell_data → Except Fault clk_hw_onecell_data
  | _, [], all_clks => .ok all_clks
  | i, clk_cfg :: rest, all_clks =>
    match k230_register_child_cclk_flow env i clk_cfg all_clks with
    | .error e => .error e
    | .ok (_, all_clks) => k230_register_all_child_cclks_from env (i + 1) rest all_clks

/-- The function `k230_register_all_child_cclks`. -/
def k230_register_all_child_cclks (env : probe_env) (all_clks : clk_hw_onecell_data) :
    Except Fault clk_hw_onecell_data :=
  k230_register_all_child_cclks_from env 0 k230_cclk_cfgs all_clks

/-- The function `k230_clk_probe`: the returned `int` and the registry
`all_clks` as the function leaves it (`none` when it was not allocated). -/
def k230_clk_probe (env : probe_env) : Except Fault (Int × Option clk_hw_onecell_data) :=
  let clk_count :=
    k230_osc_cfgs.length + k230_pll_cfgs.length + k230_pll_child_cfgs.length +
      k230_cclk_cfgs.length
  match env.sys_base with
  | .error e => .ok (e, none)
  | .ok _ =>
    match env.pll_base with
    | .error e => .ok (e, none)
    | .ok _ =>
      if env.all_clks_alloc = false then .ok (-ENOMEM, none)
      else
        let all_clks : clk_hw_onecell_data :=
          { num := clk_count, hws := List.replicate clk_count none }
        match k230_register_all_internal_osc_clks env all_clks with
        | .error e => .error e
        | .ok (err, all_clks) =>
          if err ≠ 0 then .ok (err, some all_clks)
          else
            match k230_register_all_pll_clk env all_clks with
            | .error e => .error e
            | .ok (err, all_clks) =>
              if err ≠ 0 then .ok (err, some all_clks)
              else
                match k230_register_all_fixedfactor_clks env all_clks with
                | .error e => .error e
                | .ok (err, all_clks) =>
                  if err ≠ 0 then .ok (err, some all_clks)
                  else
                    match k230_register_all_child_cclks env all_clks with
                    | .error e => .error e
                    | .ok all_clks =>
                      let err := env.add_hw_provider
                      if err ≠ 0 then .ok (err, some all_clks)
                      else .ok (0, some all_clks)

/-- Modelled from the spec: the registry lookup `node_by_index(ordinal) ->
NodeHandle or Absent` (the kernel's `of_clk_hw_onecell_get`, which is not part
of the driver sources); `none` is Absent. -/
def node_by_index (all_clks : clk_hw_onecell_data) (ordinal : Nat) : Option String :=
  if ordinal < all_clks.num then all_clks.hws.getD ordinal none else none

/-- The environment in which every kernel call of probe succeeds. -/
def probe_env_ok (sys_base pll_base : Nat) : probe_env :=
  { sys_base := .ok sys_base
    pll_base := .ok pll_base
    all_clks_alloc := true
    osc_register := fun _ => 0
    pll_alloc := fun _ => true
    pll_register := fun _ => 0
    fixedfactor_register := fun _ => 0
    fracdiv_alloc := fun _ => true
    gate_alloc := fun _ => true
    mux_alloc := fun _ => true
    composite_register := fun _ => 0
    add_hw_provider := 0 }

/-- The ordinals of the four configuration tables, in registration order. -/
def k230_all_onecell_idx : List Nat :=
  k230_osc_cfgs.map (fun c => c.onecell_idx) ++ k230_pll_cfgs.map (fun c => c.onecell_idx) ++
    k230_pll_child_cfgs.map (fun c => c.onecell_idx) ++
    k230_cclk_cfgs.map (fun c => c.onecell_idx)

/-- The ordinal and name of every PLL, fixed-factor and composite node. -/
def k230_pll_ff_cclk_nodes : List (Nat × String) :=
  k230_pll_cfgs.map (fun c => (c.onecell_idx, c.name)) ++
    k230_pll_child_cfgs.map (fun c => (c.onecell_idx, c.name)) ++
    k230_cclk_cfgs.map (fun c => (c.onecell_idx, c.name))

/-- The registry of 147 slots that holds each listed node at its ordinal and
`ERR_PTR(-ENOENT)` elsewhere. -/
def registry_of (nodes : List (Nat × String)) : clk_hw_onecell_data :=
  { num := 147
    hws := (List.range 147).map fun i => (nodes.find? (fun p => p.1 = i)).map (fun p => p.2) }

/-- The registry that holds, at its ordinal, every PLL, fixed-factor and
composite node and `ERR_PTR(-ENOENT)` elsewhere. -/
def registry_pll_ff_cclk : clk_hw_onecell_data :=
  registry_of k230_pll_ff_cclk_nodes

/-- The own registration of the composite at table position `i` succeeds:
no allocation it needs fails and `clk_hw_register_composite` returns a valid
handle. -/
def cclk_registration_succeeds (env : probe_env) (i : Nat) (clk_cfg : k230_composite_clk_cfg) :
    Prop :=
  ¬ (clk_cfg.is_fracdiv = true ∧ env.fracdiv_alloc i = false) ∧
  ¬ (clk_cfg.is_gate = true ∧ env.gate_alloc i = false) ∧
  ¬ (clk_cfg.is_mux = true ∧ env.mux_alloc i = false) ∧
  env.composite_register i = 0

instance (env : probe_env) (i : Nat) (clk_cfg : k230_composite_clk_cfg) :
    Decidable (cclk_registration_succeeds env i clk_cfg) := by
  unfold cclk_registration_succeeds
  infer_instance

/-! ## Lock and register events of the node operations -/

/-- The two spinlocks of the driver (`DEFINE_SPINLOCK`). -/
inductive spinlock where
  | k230_cclk_lock
  | k230_pll_lock
  deriving DecidableEq, Repr

/-- What a node operation does to a spinlock or to a register, address only. -/
inductive Event where
  | spin_lock_irqsave (l : spinlock)
  | spin_unlock_irqrestore (l : spinlock)
  | readl (addr : Nat)
  | writel (addr : Nat)
  deriving DecidableEq, Repr

/-- The events of `k230_pll_clk_is_enabled`, in program order; `pll_lock` is
the node field `k230_pll->pll_lock` (`&k230_pll_lock` for every registered
PLL; the `lock` field of a composite part is `&k230_cclk_lock`). -/
def k230_pll_clk_is_enabled_events (pll_lock : spinlock) (k230_pll : k230_pll_clk) :
    List Event :=
  [ .spin_lock_irqsave pll_lock,
    .readl (k230_pll.reg + K230_PLL_CLK_GATE_OFFSET),
    .spin_unlock_irqrestore pll_lock ]

/-- The events of `k230_pll_clk_enable`. -/
def k230_pll_clk_enable_events (pll_lock : spinlock) (k230_pll : k230_pll_clk) : List Event :=
  [ .spin_lock_irqsave pll_lock,
    .readl (k230_pll.reg + K230_PLL_CLK_GATE_OFFSET),
    .writel (k230_pll.reg + K230_PLL_CLK_GATE_OFFSET),
    .spin_unlock_irqrestore pll_lock ]

/-- The events of `k230_pll_clk_disable`. -/
def k230_pll_clk_disable_events (pll_lock : spinlock) (k230_pll : k230_pll_clk) : List Event :=
  [ .spin_lock_irqsave pll_lock,
    .readl (k230_pll.reg + K230_PLL_CLK_GATE_OFFSET),
    .writel (k230_pll.reg + K230_PLL_CLK_GATE_OFFSET),
    .spin_unlock_irqrestore pll_lock ]

/-- The events of `k230_pll_clk_recalc_rate` on each of its three exits
(bypass, locked, unlocked). -/
def k230_pll_clk_recalc_rate_events (pll_lock : spinlock) (k230_pll : k230_pll_clk)
    (regs : Regs) : List Event :=
  let pll_div_bypass_value := readl regs (k230_pll.reg + K230_PLL_CLK_DIVIDE_BYPASS_OFFSET)
  [ .spin_lock_irqsave pll_lock,
    .readl (k230_pll.reg + K230_PLL_CLK_DIVIDE_BYPASS_OFFSET) ] ++
  if (pll_div_bypass_value &&& BIT K230_PLL_DIVIDE_BYPASS_REG_ENABLE_BIT) ≠ 0 then
    [ .spin_unlock_irqrestore pll_lock ]
  else
    let pll_div_lock_value := readl regs (k230_pll.reg + K230_PLL_CLK_LOCK_OFFSET)
    [ .readl (k230_pll.reg + K230_PLL_CLK_LOCK_OFFSET) ] ++
    if (pll_div_lock_value &&& BIT K230_PLL_LOCK_REG_STATUS_BIT) ≠ 0 then
      [ .readl (k230_pll.reg + K230_PLL_CLK_DIVIDE_OFFSET),
        .spin_unlock_irqrestore pll_lock ]
    else
      [ .spin_unlock_irqrestore pll_lock ]

/-- The events of `k230_rate_clk_set_rate`: none on the early failures (no
register, rejected rates, failed or faulting approximation), then the locked
read-modify-write of one register or of two. -/
def k230_rate_clk_set_rate_events (lock : spinlock) (fracdiv_clk : k230_clk_fracdiv)
    (rate parent_rate : Nat) (mul div : Nat) : List Event :=
  match fracdiv_clk.reg with
  | none => []
  | some reg_addr =>
    if rate > parent_rate ∨ rate = 0 ∨ parent_rate = 0 then []
    else
      match k230_approximate_clock_rate fracdiv_clk rate parent_rate mul div with
      | .error _ => []
      | .ok (err, _, _) =>
        if err ≠ 0 then []
        else
          match fracdiv_clk.reg_1 with
          | none =>
            [ .spin_lock_irqsave lock, .readl reg_addr, .writel reg_addr,
              .spin_unlock_irqrestore lock ]
          | some reg_1_addr =>
            [ .spin_lock_irqsave lock, .readl reg_addr, .readl reg_1_addr,
              .writel reg_addr, .writel reg_1_addr, .spin_unlock_irqrestore lock ]

/-- The events of `k230_rate_clk_recalc_rate`, up to the final `mult_frac`. -/
def k230_rate_clk_recalc_rate_events (lock : spinlock) (fracdiv_clk : k230_clk_fracdiv) :
    List Event :=
  match fracdiv_clk.reg with
  | none => []
  | some reg_addr =>
    if fracdiv_clk.n_min = fracdiv_clk.n_max then
      [ .spin_lock_irqsave lock, .readl reg_addr, .spin_unlock_irqrestore lock ]
    else if fracdiv_clk.m_min = fracdiv_clk.m_max then
      [ .spin_lock_irqsave lock, .readl reg_addr, .spin_unlock_irqrestore lock ]
    else
      match fracdiv_clk.reg_1 with
      | none => [ .spin_lock_irqsave lock, .readl reg_addr, .spin_unlock_irqrestore lock ]
      | some reg_1_addr =>
        [ .spin_lock_irqsave lock, .readl reg_addr, .readl reg_1_addr,
          .spin_unlock_irqrestore lock ]

/-- The events of `k230_gate_clk_enable`. -/
def k230_gate_clk_enable_events (lock : spinlock) (gate : clk_gate) : List Event :=
  [ .spin_lock_irqsave lock, .readl gate.reg, .writel gate.reg, .spin_unlock_irqrestore lock ]

/-- The events of `k230_gate_clk_disable`. -/
def k230_gate_clk_disable_events (lock : spinlock) (gate : clk_gate) : List Event :=
  [ .spin_lock_irqsave lock, .readl gate.reg, .writel gate.reg, .spin_unlock_irqrestore lock ]

/-- The events of `k230_mux_clk_get_parent`. -/
def k230_mux_clk_get_parent_events (lock : spinlock) (mux : clk_mux) : List Event :=
  [ .spin_lock_irqsave lock, .readl mux.reg, .spin_unlock_irqrestore lock ]

/-- The events of `k230_mux_clk_set_parent`. -/
def k230_mux_clk_set_parent_events (lock : spinlock) (mux : clk_mux) : List Event :=
  [ .spin_lock_irqsave lock, .writel mux.reg, .spin_unlock_irqrestore lock ]

/-- Whether a run of events keeps the discipline of lock `l`, `held` telling
whether the lock is held before the first event: a register access only while
the lock is held, an acquire of `l` only while it is not held, a release of `l`
only while it is held, no event on another lock, and the lock not held after
the last event. -/
def lock_discipline_from (l : spinlock) : Bool → List Event → Bool
  | held, [] => !held
  | held, .spin_lock_irqsave l2 :: es =>
    decide (l2 = l) && !held && lock_discipline_from l true es
  | held, .spin_unlock_irqrestore l2 :: es =>
    decide (l2 = l) && held && lock_discipline_from l false es
  | held, .readl _ :: es => held && lock_discipline_from l held es
  | held, .writel _ :: es => held && lock_discipline_from l held es

/-- The discipline of lock `l` over the events of one operation, entered
without the lock. -/
def lock_discipline (l : spinlock) (es : List Event) : Bool :=
  lock_discipline_from l false es

/-- The number of acquires in a run of events. -/
def acquires (es : List Event) : Nat :=
  (es.filter fun e => match e with | .spin_lock_irqsave _ => true | _ => false).length

/-- The number of releases in a run of events. -/
def releases (es : List Event) : Nat :=
  (es.filter fun e => match e with | .spin_unlock_irqrestore _ => true | _ => false).length

/-! ## Register writes of set_rate in program order -/

/-- The `writel(value, address)` calls of `k230_rate_clk_set_rate` in program
order, with the returned `int`: none on the early failures; the primary
register alone on a node without a secondary register; else the primary
register and then the secondary one. -/
def k230_rate_clk_set_rate_writes (fracdiv_clk : k230_clk_fracdiv) (regs : Regs)
    (rate parent_rate : Nat) (mul div : Nat) : Except Fault (Int × List (Nat × Nat)) :=
  match fracdiv_clk.reg with
  | none => .ok (-EINVAL, [])
  | some reg_addr =>
    if rate > parent_rate ∨ rate = 0 ∨ parent_rate = 0 then .ok (-EINVAL, [])
    else
      match k230_approximate_clock_rate fracdiv_clk rate parent_rate mul div with
      | .error e => .error e
      | .ok (err, mul, div) =>
        if err ≠ 0 then .ok (-EINVAL, [])
        else
          match fracdiv_clk.reg_1 with
          | none =>
            let reg := readl regs reg_addr
            let reg := reg &&& not32 (u32 (fracdiv_clk.n_mask <<< fracdiv_clk.n_shift))
            let reg :=
              if fracdiv_clk.n_min ≠ fracdiv_clk.n_max ∧ fracdiv_clk.m_min ≠ fracdiv_clk.m_max then
                reg &&& not32 (u32 (fracdiv_clk.m_mask <<< fracdiv_clk.m_shift))
              else reg
            let reg := u32 (reg ||| BIT fracdiv_clk.bit_idx)
            let reg :=
              if fracdiv_clk.n_min = fracdiv_clk.n_max then
                reg ||| u32 ((u32 (mul + 2 ^ 32 - 1) &&& fracdiv_clk.n_mask) <<<
                  fracdiv_clk.n_shift)
              else if fracdiv_clk.m_min = fracdiv_clk.m_max then
                reg ||| u32 ((u32 (div + 2 ^ 32 - 1) &&& fracdiv_clk.n_mask) <<<
                  fracdiv_clk.n_shift)
              else
                let reg := reg ||| u32 ((mul &&& fracdiv_clk.m_mask) <<< fracdiv_clk.m_shift)
                reg ||| u32 ((div &&& fracdiv_clk.n_mask) <<< fracdiv_clk.n_shift)
            .ok (0, [(reg, reg_addr)])
          | some reg_1_addr =>
            let reg := readl regs reg_addr
            let reg_1 := readl regs reg_1_addr
            let reg := reg &&& not32 (u32 (fracdiv_clk.n_mask <<< fracdiv_clk.n_shift))
            let reg_1 := reg_1 &&& not32 (u32 (fracdiv_clk.m_mask <<< fracdiv_clk.m_shift))
            let reg_1 := u32 (reg_1 ||| BIT fracdiv_clk.bit_idx)
            let reg_1 := reg_1 ||| u32 ((mul &&& fracdiv_clk.m_mask) <<< fracdiv_clk.m_shift)
            let reg := reg ||| u32 ((div &&& fracdiv_clk.n_mask) <<< fracdiv_clk.n_shift)
            .ok (0, [(reg, reg_addr), (reg_1, reg_1_addr)])

/-- Performing a run of `writel(value, address)` calls in order. -/
def replay_writes (ws : List (Nat × Nat)) (regs : Regs) : Regs :=
  ws.foldl (fun r w => writel w.1 w.2 r) regs

/-! ## Register bits owned by a configuration record -/

/-- The register bits that the operations on a node write for it, write-enable
bits apart, as pairs of register offset and bit mask: the gate bit that
`k230_gate_clk_enable` and `k230_gate_clk_disable` set and clear, the field
`mask << shift` of `k230_mux_clk_set_parent`, and the field or fields that
`k230_rate_clk_set_rate` fills (the n-field; the m-field too in the
both-variable regime, in the second register when there is one). -/
def cclk_owned_bits (c : k230_composite_clk_cfg) : List (Nat × Nat) :=
  (if c.is_gate then [(c.gate_reg_offset, BIT c.gate_enable_bit)] else []) ++
  (if c.is_mux then [(c.mux_reg_offset, c.mux_mask <<< c.mux_shift)] else []) ++
  (if c.is_fracdiv then
    (c.fracdiv_reg_offset, c.fracdiv_n_mask <<< c.fracdiv_n_shift) ::
      (if c.is_fracdiv_1 then [(c.fracdiv_reg_1_offset, c.fracdiv_m_mask <<< c.fracdiv_m_shift)]
      else if c.fracdiv_n_min ≠ c.fracdiv_n_max ∧ c.fracdiv_m_min ≠ c.fracdiv_m_max then
        [(c.fracdiv_reg_offset, c.fracdiv_m_mask <<< c.fracdiv_m_shift)]
      else [])
  else [])

/-- Two configuration records own a common bit of a common register. -/
def cclk_bits_overlap (a b : k230_composite_clk_cfg) : Bool :=
  (cclk_owned_bits a).any fun p =>
    (cclk_owned_bits b).any fun q => decide (p.1 = q.1) && decide (p.2 &&& q.2 ≠ 0)

/-! ## Lemmas on machine arithmetic -/

theorem u32_of_lt {x : Nat} (h : x < 2 ^ 32) : u32 x = x := Nat.mod_eq_of_lt h

theorem u64_of_lt {x : Nat} (h : x < 2 ^ 64) : u64 x = x := Nat.mod_eq_of_lt h

theorem u32_lt (x : Nat) : u32 x < 2 ^ 32 := Nat.mod_lt _ (by norm_num)

theorem readl_lt (regs : Regs) (addr : Nat) : readl regs addr < 2 ^ 32 := u32_lt _

theorem and_BIT_ne_zero_iff (x k : Nat) : (x &&& BIT k) ≠ 0 ↔ x.testBit k = true := by
  unfold BIT
  rw [Nat.one_shiftLeft, Nat.and_two_pow]
  cases h : x.testBit k <;> simp

theorem and_BIT_eq_zero_iff (x k : Nat) : (x &&& BIT k) = 0 ↔ x.testBit k = false := by
  have := and_BIT_ne_zero_iff x k
  cases h : x.testBit k
  · simp only [iff_true]
    by_contra hne
    exact absurd (this.mp hne) (by simp [h])
  · simp only [iff_false, reduceCtorEq]
    exact this.mpr h

theorem and_mask_le (x m : Nat) : x &&& m ≤ m := Nat.and_le_right

/-- The split evaluation of `mult_frac` is the exact quotient. -/
theorem mult_frac_exact (x n d : Nat) (hd : 0 < d) :
    x / d * n + x % d * n / d = x * n / d := by
  have hx : x * n = x % d * n + (x / d * n) * d := by
    conv_lhs => rw [← Nat.div_add_mod x d]
    ring
  rw [hx, Nat.add_mul_div_right _ _ hd]
  ring

/-- Whenever the exact quotient fits 64 bits, `mult_frac` returns it. -/
theorem mult_frac_eq (x n d : Nat) (hd : 0 < d) (hn : n < 2 ^ 32) (hd32 : d ≤ 2 ^ 32)
    (hfit : x * n / d < 2 ^ 64) : mult_frac x n d = x * n / d := by
  have hex := mult_frac_exact x n d hd
  have hr : x % d * n < 2 ^ 64 := by
    have h1 : x % d < d := Nat.mod_lt _ hd
    calc x % d * n < 2 ^ 32 * 2 ^ 32 := by
          apply Nat.mul_lt_mul_of_le_of_lt (by omega) hn (by norm_num)
      _ = 2 ^ 64 := by norm_num
  have hq : x / d * n < 2 ^ 64 :=
    lt_of_le_of_lt (Nat.le_add_right _ _) (hex ▸ hfit)
  unfold mult_frac
  rw [u64_of_lt hq, u64_of_lt hr, u64_of_lt (by omega), hex]

/-! ## Claims on the PLL node -/

/-- C1: with the bypass bit clear and the lock bit set, the PLL rate is the
full-precision quotient `P * fb / (ref * out)` of the unity-based divide
fields, as long as `P * fb / ref` fits 64 bits. -/
theorem pll_recalc_rate_locked (k230_pll : k230_pll_clk) (regs : Regs) (P v : Nat)
    (hv : readl regs (k230_pll.reg + 0) = v)
    (hbypass : (readl regs (k230_pll.reg + 4)).testBit 19 = false)
    (hlock : (readl regs (k230_pll.reg + 0xC)).testBit 0 = true)
    (hfit : P * ((v &&& 0x1FFF) + 1) / (((v >>> 16) &&& 0x3F) + 1) < 2 ^ 64) :
    (k230_pll_clk_recalc_rate k230_pll regs P).ret =
      P * ((v &&& 0x1FFF) + 1) /
        ((((v >>> 16) &&& 0x3F) + 1) * (((v >>> 24) &&& 0xF) + 1)) := by
  have hb : (readl regs (k230_pll.reg + K230_PLL_CLK_DIVIDE_BYPASS_OFFSET) &&&
      BIT K230_PLL_DIVIDE_BYPASS_REG_ENABLE_BIT) = 0 :=
    (and_BIT_eq_zero_iff _ _).mpr hbypass
  have hl : (readl regs (k230_pll.reg + K230_PLL_CLK_LOCK_OFFSET) &&&
      BIT K230_PLL_LOCK_REG_STATUS_BIT) ≠ 0 :=
    (and_BIT_ne_zero_iff _ _).mpr hlock
  have hfb : (v &&& 0x1FFF) ≤ 0x1FFF := and_mask_le _ _
  have href : ((v >>> 16) &&& 0x3F) ≤ 0x3F := and_mask_le _ _
  have hout : ((v >>> 24) &&& 0xF) ≤ 0xF := and_mask_le _ _
  unfold k230_pll_clk_recalc_rate
  simp only [hb, hl, ne_eq, not_true_eq_false, not_false_eq_true, if_true, if_false]
  simp only [K230_PLL_CLK_DIVIDE_OFFSET, hv, K230_PLL_DIVIDE_FB_SHIFT, K230_PLL_DIVIDE_FB_MASK,
    K230_PLL_DIVIDE_REF_SHIFT, K230_PLL_DIVIDE_REF_MASK, K230_PLL_DIVIDE_OUT_SHIFT,
    K230_PLL_DIVIDE_OUT_MASK, GENMASK, Nat.shiftRight_zero]
  norm_num
  rw [u32_of_lt (by omega), u32_of_lt (by omega), u32_of_lt (by omega)]
  rw [mult_frac_eq _ _ _ (by omega) (by omega) (by omega) hfit, Nat.div_div_eq_div_mul]

theorem s64_of_range {x : Int} (h1 : -(2 ^ 63) ≤ x) (h2 : x < 2 ^ 63) : s64 x = x := by
  unfold s64
  omega

theorem abs_long_sub {pd c : Int} (h1 : 0 ≤ pd) (h2 : pd < 2 ^ 63) (h3 : 0 ≤ c)
    (h4 : c < 2 ^ 63) : abs_long (s64 (pd - c)) = |pd - c| := by
  rw [s64_of_range (by omega) (by omega)]
  unfold abs_long
  split
  · rename_i h
    rw [s64_of_range (by omega) (by omega), abs_of_neg h]
  · rename_i h
    rw [abs_of_nonneg (by omega)]

theorem approximate_loop_argmin (pd : Int) (cand : Nat → Except Fault Int) (c sc : Nat → Int)
    (lo hi : Nat)
    (hc : ∀ i, lo < i → i ≤ hi → cand i = .ok (c i))
    (hs : ∀ i, lo < i → i ≤ hi → abs_long (s64 (pd - c i)) = sc i) :
    ∀ (k i b out : Nat), i + k ≤ hi + 1 → lo ≤ b → b < i →
      (∀ j, lo ≤ j → j < i → sc b ≤ sc j) → (∀ j, lo ≤ j → j < b → sc b < sc j) →
      ∃ b', approximate_loop pd cand k i (sc b) out = .ok (sc b', if b' = b then out else b') ∧
        b ≤ b' ∧ b' < i + k ∧ (∀ j, lo ≤ j → j < i + k → sc b' ≤ sc j) ∧
        (∀ j, lo ≤ j → j < b' → sc b' < sc j) := by
  intro k
  induction k with
  | zero =>
    intro i b out _ hlb hbi hmin hfirst
    exact ⟨b, by simp [approximate_loop], le_refl _, by omega, hmin, hfirst⟩
  | succ k ih =>
    intro i b out hik hlb hbi hmin hfirst
    have hci := hc i (by omega) (by omega)
    have hsi := hs i (by omega) (by omega)
    simp only [approximate_loop, hci, hsi]
    by_cases hlt : sc b > sc i
    · simp only [hlt, if_true]
      obtain ⟨b', hres, hb1, hb2, hb3, hb4⟩ := ih (i + 1) i i (by omega) (by omega) (by omega)
        (by
          intro j hj1 hj2
          by_cases hji : j = i
          · subst hji; exact le_refl _
          · have := hmin j hj1 (by omega); omega)
        (by
          intro j hj1 hj2
          have := hmin j hj1 hj2; omega)
      refine ⟨b', ?_, by omega, by omega, ?_, hb4⟩
      · rw [hres]
        have hne : b' ≠ b := by omega
        have e1 : (if b' = i then i else b') = b' := by
          split_ifs with h
          · exact h.symm
          · rfl
        rw [e1, if_neg hne]
      · intro j hj1 hj2
        exact hb3 j hj1 (by omega)
    · simp only [hlt, if_false]
      obtain ⟨b', hres, hb1, hb2, hb3, hb4⟩ := ih (i + 1) b out (by omega) hlb (by omega)
        (by
          intro j hj1 hj2
          by_cases hji : j = i
          · subst hji; omega
          · exact hmin j hj1 (by omega))
        hfirst
      exact ⟨b', hres, hb1, by omega, fun j hj1 hj2 => hb3 j hj1 (by omega), hb4⟩


theorem s64_natCast {x : Nat} (h : x < 2 ^ 63) : s64 (x : Int) = (x : Int) :=
  s64_of_range (by have := Int.ofNat_nonneg x; omega) (by exact_mod_cast h)

theorem approximate_clock_rate_den_fixed (clk : k230_clk_fracdiv) (rate P mul div : Nat)
    (hm : clk.m_min = clk.m_max) (hm1 : 1 ≤ clk.m_min) (hn : clk.n_min < clk.n_max)
    (hbound : clk.n_max < 0xFFFFFFFF) (hr0 : 0 < rate) (_hrp : rate ≤ P)
    (hov : P * 1000 < 2 ^ 64) (hpd : P * 1000 / rate < 2 ^ 63) :
    ∃ d, k230_approximate_clock_rate clk rate P mul div = .ok (0, clk.m_min, d) ∧
      clk.n_min ≤ d ∧ d ≤ clk.n_max ∧
      (∀ i, clk.n_min ≤ i → i ≤ clk.n_max →
        |((P * 1000 / rate : Nat) : Int) - ((d * 1000 / clk.m_max : Nat) : Int)| ≤
          |((P * 1000 / rate : Nat) : Int) - ((i * 1000 / clk.m_max : Nat) : Int)|) ∧
      (∀ i, clk.n_min ≤ i → i < d →
        |((P * 1000 / rate : Nat) : Int) - ((d * 1000 / clk.m_max : Nat) : Int)| <
          |((P * 1000 / rate : Nat) : Int) - ((i * 1000 / clk.m_max : Nat) : Int)|) := by
  have hne : clk.n_min ≠ clk.n_max := by omega
  have hrate : rate ≠ 0 := by omega
  have hmax : clk.m_max ≠ 0 := by omega
  have hb : clk.n_max ≠ 0xFFFFFFFF := by omega
  have hcb : ∀ i, i ≤ clk.n_max → i * 1000 / clk.m_max < 2 ^ 63 := by
    intro i hi
    have : i * 1000 / clk.m_max ≤ i * 1000 := Nat.div_le_self _ _
    omega
  have hsc : ∀ i, i ≤ clk.n_max →
      abs_long (s64 (((P * 1000 / rate : Nat) : Int) - ((i * 1000 / clk.m_max : Nat) : Int))) =
        |((P * 1000 / rate : Nat) : Int) - ((i * 1000 / clk.m_max : Nat) : Int)| := by
    intro i hi
    have := hcb i hi
    exact abs_long_sub (Int.ofNat_nonneg _) (by exact_mod_cast hpd) (Int.ofNat_nonneg _)
      (by exact_mod_cast this)
  obtain ⟨d, hres, hd1, hd2, hd3, hd4⟩ :=
    approximate_loop_argmin ((P * 1000 / rate : Nat) : Int)
      (fun i => .ok ((i * 1000 / clk.m_max : Nat) : Int))
      (fun i => ((i * 1000 / clk.m_max : Nat) : Int))
      (fun i => |((P * 1000 / rate : Nat) : Int) - ((i * 1000 / clk.m_max : Nat) : Int)|)
      clk.n_min clk.n_max (fun _ _ _ => rfl) (fun i _ hi => hsc i hi)
      (clk.n_max + 1 - (clk.n_min + 1)) (clk.n_min + 1) clk.n_min clk.n_min
      (by omega) (le_refl _) (by omega)
      (by
        intro j hj1 hj2
        have : j = clk.n_min := by omega
        subst this; exact le_refl _)
      (by intro j hj1 hj2; omega)
  refine ⟨d, ?_, hd1, by omega, fun i h1 h2 => hd3 i h1 (by omega), hd4⟩
  have hd : (if d = clk.n_min then clk.n_min else d) = d := by
    split_ifs with h
    · exact h.symm
    · rfl
  rw [hd] at hres
  unfold k230_approximate_clock_rate
  simp only [hne, hm, if_true, if_false, hrate, hmax, hb]
  rw [u64_of_lt hov, s64_natCast hpd, hsc clk.n_min (by omega), u32_of_lt (by omega), hres]


theorem testBit_not32 (x i : Nat) : (not32 x).testBit i = (decide (i < 32) ^^ x.testBit i) := by
  unfold not32
  rw [Nat.testBit_xor]
  have : (0xFFFFFFFF : Nat) = 2 ^ 32 - 1 := by norm_num
  rw [this, Nat.testBit_two_pow_sub_one]

theorem testBit_u32 (x i : Nat) : (u32 x).testBit i = (decide (i < 32) && x.testBit i) := by
  unfold u32
  exact Nat.testBit_mod_two_pow x 32 i

theorem testBit_BIT (b i : Nat) : (BIT b).testBit i = decide (b = i) := by
  unfold BIT
  rw [Nat.one_shiftLeft, Nat.testBit_two_pow]

theorem and_low_mask_of_lt {x k : Nat} (h : x < 2 ^ k) : x &&& (2 ^ k - 1) = x := by
  rw [Nat.and_pow_two_sub_one_eq_mod, Nat.mod_eq_of_lt h]

/-- Reading back the field that the single-register fixed-regime write stores. -/
theorem field_readback (old b s k x : Nat) (hx : x < 2 ^ k) (hfield : k + s ≤ 32)
    (hwe : b < s ∨ s + k ≤ b) :
    ((u32 (u32 (old &&& not32 (u32 ((2 ^ k - 1) <<< s)) ||| BIT b) |||
        u32 ((x &&& (2 ^ k - 1)) <<< s))) >>> s) &&& (2 ^ k - 1) = x := by
  apply Nat.eq_of_testBit_eq
  intro i
  rw [and_low_mask_of_lt hx]
  simp only [Nat.testBit_and, Nat.testBit_shiftRight, testBit_u32, Nat.testBit_or, testBit_not32,
    Nat.testBit_shiftLeft, testBit_BIT, Nat.testBit_two_pow_sub_one]
  by_cases hik : i < k
  · have h1 : s + i < 32 := by omega
    have h2 : s + i ≥ s := by omega
    have h3 : s + i - s = i := by omega
    have h4 : ¬ (b = s + i) := by omega
    simp [h1, h3, h4, hik]
  · have : x.testBit i = false := by
      apply Nat.testBit_lt_two_pow
      calc x < 2 ^ k := hx
        _ ≤ 2 ^ i := Nat.pow_le_pow_right (by norm_num) (by omega)
    simp [hik, this]



/-- The numerator-fixed search: the loop result is the least minimiser of the
scaled-ratio score, but `*mul` is only assigned when the winner is not
`m_min`. -/
theorem approximate_clock_rate_num_fixed (clk : k230_clk_fracdiv) (rate P mul div : Nat)
    (hn : clk.n_min = clk.n_max) (hm1 : 1 ≤ clk.m_min) (hmm : clk.m_min ≤ clk.m_max)
    (hbound : clk.m_max < 0xFFFFFFFF) (hnmax : clk.n_max < 2 ^ 32)
    (hr0 : 0 < rate) (hrp : rate ≤ P)
    (hov : P * 1000 < 2 ^ 64) (hpd : P * 1000 / rate < 2 ^ 63) :
    ∃ i, k230_approximate_clock_rate clk rate P mul div =
        .ok (0, if i = clk.m_min then mul else i, clk.n_min) ∧
      clk.m_min ≤ i ∧ i ≤ clk.m_max ∧
      (∀ j, clk.m_min ≤ j → j ≤ clk.m_max →
        |((P * 1000 / rate : Nat) : Int) - ((clk.n_max * 1000 / i : Nat) : Int)| ≤
          |((P * 1000 / rate : Nat) : Int) - ((clk.n_max * 1000 / j : Nat) : Int)|) ∧
      (∀ j, clk.m_min ≤ j → j < i →
        |((P * 1000 / rate : Nat) : Int) - ((clk.n_max * 1000 / i : Nat) : Int)| <
          |((P * 1000 / rate : Nat) : Int) - ((clk.n_max * 1000 / j : Nat) : Int)|) := by
  have hrate : rate ≠ 0 := by omega
  have hP : P ≠ 0 := by omega
  have hmin : clk.m_min ≠ 0 := by omega
  have hb : clk.m_max ≠ 0xFFFFFFFF := by omega
  have hcb : ∀ i, clk.n_max * 1000 / i < 2 ^ 63 := by
    intro i
    have : clk.n_max * 1000 / i ≤ clk.n_max * 1000 := Nat.div_le_self _ _
    omega
  have hsc : ∀ i,
      abs_long (s64 (((P * 1000 / rate : Nat) : Int) - ((clk.n_max * 1000 / i : Nat) : Int))) =
        |((P * 1000 / rate : Nat) : Int) - ((clk.n_max * 1000 / i : Nat) : Int)| := by
    intro i
    have := hcb i
    exact abs_long_sub (Int.ofNat_nonneg _) (by exact_mod_cast hpd) (Int.ofNat_nonneg _)
      (by exact_mod_cast this)
  obtain ⟨d, hres, hd1, hd2, hd3, hd4⟩ :=
    approximate_loop_argmin ((P * 1000 / rate : Nat) : Int)
      (fun i => if i = 0 then .error .div_by_zero else .ok ((clk.n_max * 1000 / i : Nat) : Int))
      (fun i => ((clk.n_max * 1000 / i : Nat) : Int))
      (fun i => |((P * 1000 / rate : Nat) : Int) - ((clk.n_max * 1000 / i : Nat) : Int)|)
      clk.m_min clk.m_max
      (fun i h1 _ => by
        have : i ≠ 0 := by omega
        simp [this])
      (fun i _ _ => hsc i)
      (clk.m_max + 1 - (clk.m_min + 1)) (clk.m_min + 1) clk.m_min mul
      (by omega) (le_refl _) (by omega)
      (by
        intro j hj1 hj2
        have : j = clk.m_min := by omega
        subst this; exact le_refl _)
      (by intro j hj1 hj2; omega)
  refine ⟨d, ?_, hd1, by omega, fun i h1 h2 => hd3 i h1 (by omega), hd4⟩
  unfold k230_approximate_clock_rate
  simp only [hn, if_true, hrate, if_false, hmin, hb]
  rw [u64_of_lt hov, s64_natCast hpd, hsc clk.m_min, u32_of_lt (by omega), hres]
  simp only [hP, if_false]

/-- C8, as the code has it: on a numerator-fixed single-register node whose
multiplier fits its field, when some candidate above `m_min` beats `m_min`,
`set_rate` succeeds and the following `recalc_rate` returns
`parent_rate * i / n_max` for the least `i` in [`m_min`, `m_max`] that
minimises the scaled-ratio distance the search uses (not the distance between
rates). -/
theorem set_rate_recalc_num_fixed (clk : k230_clk_fracdiv) (regs : Regs)
    (rate P mul div addr k : Nat)
    (hreg : clk.reg = some addr) (hreg1 : clk.reg_1 = none)
    (hn : clk.n_min = clk.n_max) (hm1 : 1 ≤ clk.m_min) (hmm : clk.m_min ≤ clk.m_max)
    (hbound : clk.m_max < 0xFFFFFFFF) (hn1 : 1 ≤ clk.n_max) (hnmax : clk.n_max < 2 ^ 32)
    (hmask : clk.n_mask = 2 ^ k - 1) (hfit : clk.m_max ≤ 2 ^ k)
    (hfield : k + clk.n_shift ≤ 32)
    (hwe : clk.bit_idx < clk.n_shift ∨ clk.n_shift + k ≤ clk.bit_idx)
    (hr0 : 0 < rate) (hrp : rate ≤ P)
    (hov : P * 1000 < 2 ^ 64) (hpd : P * 1000 / rate < 2 ^ 63)
    (hres : P * clk.m_max / clk.n_max < 2 ^ 64)
    (hbetter : ∃ j, clk.m_min < j ∧ j ≤ clk.m_max ∧
      |((P * 1000 / rate : Nat) : Int) - ((clk.n_max * 1000 / j : Nat) : Int)| <
        |((P * 1000 / rate : Nat) : Int) - ((clk.n_max * 1000 / clk.m_min : Nat) : Int)|) :
    ∃ i regs1, k230_rate_clk_set_rate clk regs rate P mul div = .ok (0, regs1) ∧
      k230_rate_clk_recalc_rate clk regs1 P = .ok (P * i / clk.n_max) ∧
      clk.m_min ≤ i ∧ i ≤ clk.m_max ∧
      (∀ j, clk.m_min ≤ j → j ≤ clk.m_max →
        |((P * 1000 / rate : Nat) : Int) - ((clk.n_max * 1000 / i : Nat) : Int)| ≤
          |((P * 1000 / rate : Nat) : Int) - ((clk.n_max * 1000 / j : Nat) : Int)|) ∧
      (∀ j, clk.m_min ≤ j → j < i →
        |((P * 1000 / rate : Nat) : Int) - ((clk.n_max * 1000 / i : Nat) : Int)| <
          |((P * 1000 / rate : Nat) : Int) - ((clk.n_max * 1000 / j : Nat) : Int)|) := by
  obtain ⟨i, happ, hi1, hi2, hi3, hi4⟩ :=
    approximate_clock_rate_num_fixed clk rate P mul div hn hm1 hmm hbound hnmax hr0 hrp hov hpd
  obtain ⟨j, hj1, hj2, hj3⟩ := hbetter
  have hine : i ≠ clk.m_min := by
    intro h
    have := hi3 j (by omega) hj2
    rw [h] at this
    omega
  rw [if_neg hine] at happ
  have hcond : ¬ (rate > P ∨ rate = 0 ∨ P = 0) := by omega
  have hi32 : i - 1 < 2 ^ k := by omega
  have hdec : u32 (i + 2 ^ 32 - 1) = i - 1 := by
    unfold u32
    omega
  have hnz : clk.n_max ≠ 0 := by omega
  refine ⟨i, writel
    (u32 (readl regs addr &&& not32 (u32 (clk.n_mask <<< clk.n_shift)) ||| BIT clk.bit_idx) |||
      u32 ((u32 (i + 2 ^ 32 - 1) &&& clk.n_mask) <<< clk.n_shift)) addr regs,
    ?_, ?_, hi1, hi2, hi3, hi4⟩
  · unfold k230_rate_clk_set_rate
    simp only [hreg, hcond, if_false, happ, ne_eq, not_true_eq_false, hreg1, hn, false_and,
      not_false_eq_true, if_true]
  · unfold k230_rate_clk_recalc_rate
    simp only [hreg, hn, if_true, hnz, if_false]
    have hrd : readl (writel
        (u32 (readl regs addr &&& not32 (u32 (clk.n_mask <<< clk.n_shift)) |||
            BIT clk.bit_idx) |||
          u32 ((u32 (i + 2 ^ 32 - 1) &&& clk.n_mask) <<< clk.n_shift)) addr regs) addr =
        u32 (u32 (readl regs addr &&& not32 (u32 (clk.n_mask <<< clk.n_shift)) |||
            BIT clk.bit_idx) |||
          u32 ((u32 (i + 2 ^ 32 - 1) &&& clk.n_mask) <<< clk.n_shift)) := by
      simp [readl, writel]
    rw [hrd, hdec, hmask, field_readback _ _ _ _ _ hi32 hfield hwe]
    have hi1' : i - 1 + 1 = i := by omega
    rw [hi1', u32_of_lt (by omega)]
    have hle : P * i / clk.n_max ≤ P * clk.m_max / clk.n_max :=
      Nat.div_le_div_right (Nat.mul_le_mul_left _ hi2)
    rw [mult_frac_eq _ _ _ (by omega) (by omega) (by omega) (by omega)]

/-! ## Claims on the PLL node, continued -/

/-- Witness of C1: pll0-like contents, lock bit set, bypass clear, a 24 MHz parent. -/
theorem pll_recalc_rate_locked_witness :
    (k230_pll_clk_recalc_rate { reg := 0x91102000 }
        (fun a => if a = 0x9110200C then 1 else if a = 0x91102000 then 0x01010063 else 0)
        24000000).ret =
      24000000 * ((0x01010063 &&& 0x1FFF) + 1) /
        ((((0x01010063 >>> 16) &&& 0x3F) + 1) * (((0x01010063 >>> 24) &&& 0xF) + 1)) :=
  pll_recalc_rate_locked { reg := 0x91102000 }
    (fun a => if a = 0x9110200C then 1 else if a = 0x91102000 then 0x01010063 else 0)
    24000000 0x01010063 (by decide) (by decide) (by decide) (by decide)

/-- C2, as the code has it: with the lock bit and the bypass bit both clear,
`k230_pll_clk_recalc_rate` emits its `pr_err` line and returns the number 0. -/
theorem pll_recalc_rate_unlocked (k230_pll : k230_pll_clk) (regs : Regs) (P : Nat)
    (hbypass : (readl regs (k230_pll.reg + 4)).testBit 19 = false)
    (hlock : (readl regs (k230_pll.reg + 0xC)).testBit 0 = false) :
    k230_pll_clk_recalc_rate k230_pll regs P = { ret := 0, pr_err := true } := by
  have hb : (readl regs (k230_pll.reg + K230_PLL_CLK_DIVIDE_BYPASS_OFFSET) &&&
      BIT K230_PLL_DIVIDE_BYPASS_REG_ENABLE_BIT) = 0 :=
    (and_BIT_eq_zero_iff _ _).mpr hbypass
  have hl : (readl regs (k230_pll.reg + K230_PLL_CLK_LOCK_OFFSET) &&&
      BIT K230_PLL_LOCK_REG_STATUS_BIT) = 0 :=
    (and_BIT_eq_zero_iff _ _).mpr hlock
  unfold k230_pll_clk_recalc_rate
  simp only [hb, hl, ne_eq, not_true_eq_false, if_false]

/-- Witness of C2 as amended: an all-zero register block. -/
theorem pll_recalc_rate_unlocked_witness :
    k230_pll_clk_recalc_rate { reg := 0x91102000 } (fun _ => 0) 24000000 =
      { ret := 0, pr_err := true } :=
  pll_recalc_rate_unlocked { reg := 0x91102000 } (fun _ => 0) 24000000 (by decide) (by decide)

/-- Counterexample to C2: an unlocked, non-bypassed PLL with a 24 MHz parent
returns the number 0, the very value a locked PLL returns for a parent rate
of 0. -/
theorem pll_recalc_rate_unlocked_returns_zero :
    (readl (fun _ => 0) (0x91102000 + 4)).testBit 19 = false ∧
    (readl (fun _ => 0) (0x91102000 + 0xC)).testBit 0 = false ∧
    (k230_pll_clk_recalc_rate { reg := 0x91102000 } (fun _ => 0) 24000000).ret = 0 ∧
    (readl (fun a => if a = 0x9110200C then 1 else 0) (0x91102000 + 0xC)).testBit 0 = true ∧
    (k230_pll_clk_recalc_rate { reg := 0x91102000 }
      (fun a => if a = 0x9110200C then 1 else 0) 0).ret =
      (k230_pll_clk_recalc_rate { reg := 0x91102000 } (fun _ => 0) 24000000).ret := by
  decide

/-- C3: with the bypass bit set the PLL returns the parent rate unchanged,
whatever the lock and divide registers hold. -/
theorem pll_recalc_rate_bypass (k230_pll : k230_pll_clk) (regs : Regs) (P : Nat)
    (hbypass : (readl regs (k230_pll.reg + 4)).testBit 19 = true) :
    k230_pll_clk_recalc_rate k230_pll regs P = { ret := P, pr_err := false } := by
  have hb : (readl regs (k230_pll.reg + K230_PLL_CLK_DIVIDE_BYPASS_OFFSET) &&&
      BIT K230_PLL_DIVIDE_BYPASS_REG_ENABLE_BIT) ≠ 0 :=
    (and_BIT_ne_zero_iff _ _).mpr hbypass
  unfold k230_pll_clk_recalc_rate
  simp only [hb, ne_eq, not_false_eq_true, if_true]

/-- Witness of C3: bypass bit set, lock bit clear, arbitrary divide fields. -/
theorem pll_recalc_rate_bypass_witness :
    k230_pll_clk_recalc_rate { reg := 0x91102000 }
        (fun a => if a = 0x91102004 then 0x00080000 else if a = 0x91102000 then 0x0F3F1FFF else 0)
        24000000 =
      { ret := 24000000, pr_err := false } :=
  pll_recalc_rate_bypass { reg := 0x91102000 }
    (fun a => if a = 0x91102004 then 0x00080000 else if a = 0x91102000 then 0x0F3F1FFF else 0)
    24000000 (by decide)

/-! ## Claims on the fractional divider -/

/-- C4, the code at a failing input: on `codec_adc_mclk` a request for
1 MHz, which is the rate of no row of `codec_fracdiv_table`, makes
`k230_rate_clk_set_rate` return 0 and write the register with the write-enable
bit and whatever the uninitialised locals `mul` and `div` held. -/
theorem set_rate_unmatched_rate_writes (mul div : Nat) :
    (∀ e ∈ codec_fracdiv_table, e.rate ≠ 1000000) ∧
    (cclk_fracdiv 0x91100000 cfg_codec_adc_mclk).fracdiv_table = some codec_fracdiv_table ∧
    ∃ regs1, k230_rate_clk_set_rate (cclk_fracdiv 0x91100000 cfg_codec_adc_mclk) (fun _ => 0)
        1000000 400000000 mul div = .ok (0, regs1) ∧
      regs1 0x91100038 =
        0x80000000 ||| u32 ((mul &&& 0x1FFF) <<< 14) ||| u32 ((div &&& 0x3FFF) <<< 0) ∧
      (regs1 0x91100038).testBit 31 = true := by
  refine ⟨by decide, rfl, _, rfl, rfl, ?_⟩
  show (0x80000000 ||| u32 ((mul &&& 0x1FFF) <<< 14) ||| u32 ((div &&& 0x3FFF) <<< 0)).testBit 31
    = true
  rw [Nat.testBit_or, Nat.testBit_or, show (0x80000000 : Nat).testBit 31 = true by decide]
  rfl

/-- C5, the code at a failing input: on `cpu0_src` (m in [1,16], n = 16) with
rate = parent_rate / 16 the best candidate is `m_min` = 1; the loop then never
assigns `*mul`, and `k230_approximate_clock_rate` returns success with the
value the caller's variable held before the call. -/
theorem approximate_num_fixed_mul_unassigned (mul div : Nat) :
    (cclk_fracdiv 0x91100000 cfg_cpu0_src).n_min = (cclk_fracdiv 0x91100000 cfg_cpu0_src).n_max ∧
    (cclk_fracdiv 0x91100000 cfg_cpu0_src).m_min = 1 ∧
    (cclk_fracdiv 0x91100000 cfg_cpu0_src).m_max = 16 ∧
    (∀ i < 17, 1 ≤ i →
      |((800000000 * 1000 / 50000000 : Nat) : Int) - ((16 * 1000 / 1 : Nat) : Int)| ≤
        |((800000000 * 1000 / 50000000 : Nat) : Int) - ((16 * 1000 / i : Nat) : Int)|) ∧
    k230_approximate_clock_rate (cclk_fracdiv 0x91100000 cfg_cpu0_src) 50000000 800000000
      mul div = .ok (0, mul, 16) :=
  ⟨rfl, rfl, rfl, by decide, rfl⟩

/-- C6, as the code has it: in the denominator-fixed regime, when the loop
bound is below `0xFFFFFFFF`, `parent_rate * 1000` fits 64 bits and the scaled
target fits a `long`, the approximation succeeds with mul = `m_min` and div
the least minimiser of the scaled-ratio distance over [`n_min`, `n_max`]. -/
theorem approximate_den_fixed_least_minimiser (clk : k230_clk_fracdiv)
    (rate P mul div : Nat)
    (hm : clk.m_min = clk.m_max) (hm1 : 1 ≤ clk.m_min) (hn : clk.n_min < clk.n_max)
    (hbound : clk.n_max < 0xFFFFFFFF) (hr0 : 0 < rate) (hrp : rate ≤ P)
    (hov : P * 1000 < 2 ^ 64) (hpd : P * 1000 / rate < 2 ^ 63) :
    ∃ d, k230_approximate_clock_rate clk rate P mul div = .ok (0, clk.m_min, d) ∧
      clk.n_min ≤ d ∧ d ≤ clk.n_max ∧
      (∀ i, clk.n_min ≤ i → i ≤ clk.n_max →
        |((P * 1000 / rate : Nat) : Int) - ((d * 1000 / clk.m_max : Nat) : Int)| ≤
          |((P * 1000 / rate : Nat) : Int) - ((i * 1000 / clk.m_max : Nat) : Int)|) ∧
      (∀ i, clk.n_min ≤ i → i < d →
        |((P * 1000 / rate : Nat) : Int) - ((d * 1000 / clk.m_max : Nat) : Int)| <
          |((P * 1000 / rate : Nat) : Int) - ((i * 1000 / clk.m_max : Nat) : Int)|) :=
  approximate_clock_rate_den_fixed clk rate P mul div hm hm1 hn hbound hr0 hrp hov hpd

/-- Witness of C6 as amended: `sd_src_cclk` (m = 1, n in [2,8]) asked for
100 MHz from 400 MHz. -/
theorem approximate_den_fixed_least_minimiser_witness :
    ∃ d, k230_approximate_clock_rate (cclk_fracdiv 0x91100000 cfg_sd_src_cclk) 100000000
        400000000 0 0 = .ok (0, (cclk_fracdiv 0x91100000 cfg_sd_src_cclk).m_min, d) ∧
      (cclk_fracdiv 0x91100000 cfg_sd_src_cclk).n_min ≤ d ∧
      d ≤ (cclk_fracdiv 0x91100000 cfg_sd_src_cclk).n_max ∧
      (∀ i, (cclk_fracdiv 0x91100000 cfg_sd_src_cclk).n_min ≤ i →
        i ≤ (cclk_fracdiv 0x91100000 cfg_sd_src_cclk).n_max →
        |((400000000 * 1000 / 100000000 : Nat) : Int) -
            ((d * 1000 / (cclk_fracdiv 0x91100000 cfg_sd_src_cclk).m_max : Nat) : Int)| ≤
          |((400000000 * 1000 / 100000000 : Nat) : Int) -
            ((i * 1000 / (cclk_fracdiv 0x91100000 cfg_sd_src_cclk).m_max : Nat) : Int)|) ∧
      (∀ i, (cclk_fracdiv 0x91100000 cfg_sd_src_cclk).n_min ≤ i → i < d →
        |((400000000 * 1000 / 100000000 : Nat) : Int) -
            ((d * 1000 / (cclk_fracdiv 0x91100000 cfg_sd_src_cclk).m_max : Nat) : Int)| <
          |((400000000 * 1000 / 100000000 : Nat) : Int) -
            ((i * 1000 / (cclk_fracdiv 0x91100000 cfg_sd_src_cclk).m_max : Nat) : Int)|) :=
  approximate_den_fixed_least_minimiser (cclk_fracdiv 0x91100000 cfg_sd_src_cclk) 100000000
    400000000 0 0 (by decide) (by decide) (by decide) (by decide) (by decide) (by decide)
    (by decide) (by decide)

/-- Counterexample to C6 on `sd_src_cclk` (m = 1, n in [2,8]). First, with
parent_rate = 18446744073709552 the product `parent_rate * 1000` wraps in 64
bits: for rate = parent_rate / 4 the code returns div = 2 although div = 4
is strictly closer to the target. Second, with parent_rate = 18446744073709551
and rate = 1 the scaled target is negative as a `long`: the code returns
div = 2 although div = 8 is strictly closer. Third, the same node with
`n_max = 0xFFFFFFFF` never leaves the loop. -/
theorem approximate_den_fixed_not_least_minimiser :
    ((cclk_fracdiv 0x91100000 cfg_sd_src_cclk).m_min =
        (cclk_fracdiv 0x91100000 cfg_sd_src_cclk).m_max ∧
      (cclk_fracdiv 0x91100000 cfg_sd_src_cclk).m_min = 1 ∧
      (cclk_fracdiv 0x91100000 cfg_sd_src_cclk).n_min = 2 ∧
      (cclk_fracdiv 0x91100000 cfg_sd_src_cclk).n_max = 8) ∧
    ((0 : Nat) < 4611686018427388 ∧ 4611686018427388 ≤ 18446744073709552 ∧
      k230_approximate_clock_rate (cclk_fracdiv 0x91100000 cfg_sd_src_cclk) 4611686018427388
        18446744073709552 0 0 = .ok (0, 1, 2) ∧
      |((18446744073709552 * 1000 / 4611686018427388 : Nat) : Int) - ((4 * 1000 / 1 : Nat) : Int)| <
        |((18446744073709552 * 1000 / 4611686018427388 : Nat) : Int) -
          ((2 * 1000 / 1 : Nat) : Int)|) ∧
    ((0 : Nat) < 1 ∧ 1 ≤ 18446744073709551 ∧
      k230_approximate_clock_rate (cclk_fracdiv 0x91100000 cfg_sd_src_cclk) 1
        18446744073709551 0 0 = .ok (0, 1, 2) ∧
      |((18446744073709551 * 1000 / 1 : Nat) : Int) - ((8 * 1000 / 1 : Nat) : Int)| <
        |((18446744073709551 * 1000 / 1 : Nat) : Int) - ((2 * 1000 / 1 : Nat) : Int)|) ∧
    k230_approximate_clock_rate
        { cclk_fracdiv 0x91100000 cfg_sd_src_cclk with n_max := 0xFFFFFFFF } 100000000
        400000000 0 0 = .error .loop_diverges := by
  decide

/-- Witness of C8 as amended: `cpu0_src` asked for 69565217 Hz from 800 MHz. -/
theorem set_rate_recalc_num_fixed_witness :
    ∃ i regs1, k230_rate_clk_set_rate (cclk_fracdiv 0x91100000 cfg_cpu0_src) (fun _ => 0)
        69565217 800000000 0 0 = .ok (0, regs1) ∧
      k230_rate_clk_recalc_rate (cclk_fracdiv 0x91100000 cfg_cpu0_src) regs1 800000000 =
        .ok (800000000 * i / (cclk_fracdiv 0x91100000 cfg_cpu0_src).n_max) ∧
      (cclk_fracdiv 0x91100000 cfg_cpu0_src).m_min ≤ i ∧
      i ≤ (cclk_fracdiv 0x91100000 cfg_cpu0_src).m_max ∧
      (∀ j, (cclk_fracdiv 0x91100000 cfg_cpu0_src).m_min ≤ j →
        j ≤ (cclk_fracdiv 0x91100000 cfg_cpu0_src).m_max →
        |((800000000 * 1000 / 69565217 : Nat) : Int) -
            (((cclk_fracdiv 0x91100000 cfg_cpu0_src).n_max * 1000 / i : Nat) : Int)| ≤
          |((800000000 * 1000 / 69565217 : Nat) : Int) -
            (((cclk_fracdiv 0x91100000 cfg_cpu0_src).n_max * 1000 / j : Nat) : Int)|) ∧
      (∀ j, (cclk_fracdiv 0x91100000 cfg_cpu0_src).m_min ≤ j → j < i →
        |((800000000 * 1000 / 69565217 : Nat) : Int) -
            (((cclk_fracdiv 0x91100000 cfg_cpu0_src).n_max * 1000 / i : Nat) : Int)| <
          |((800000000 * 1000 / 69565217 : Nat) : Int) -
            (((cclk_fracdiv 0x91100000 cfg_cpu0_src).n_max * 1000 / j : Nat) : Int)|) :=
  set_rate_recalc_num_fixed (cclk_fracdiv 0x91100000 cfg_cpu0_src) (fun _ => 0) 69565217
    800000000 0 0 0x91100000 4 rfl rfl (by decide) (by decide) (by decide) (by decide)
    (by decide) (by decide) (by decide) (by decide) (by decide) (by decide) (by decide)
    (by decide) (by decide) (by decide) (by decide) ⟨2, by decide, by decide, by decide⟩

/-- Counterexample to C8: `cpu0_src` (m in [1,16], n = 16, field shift 1,
mask 0xF, write-enable bit 31) asked for 69565217 Hz from 800 MHz stores
multiplier 2 and reads back 100 MHz, although the legal multiplier 1 gives
50 MHz, which is strictly closer to the request. -/
theorem set_rate_recalc_num_fixed_not_closest :
    ((0 : Nat) < 69565217 ∧ 69565217 ≤ 800000000) ∧
    (∃ regs1, k230_rate_clk_set_rate (cclk_fracdiv 0x91100000 cfg_cpu0_src) (fun _ => 0)
        69565217 800000000 0 0 = .ok (0, regs1) ∧
      k230_rate_clk_recalc_rate (cclk_fracdiv 0x91100000 cfg_cpu0_src) regs1 800000000 =
        .ok 100000000) ∧
    (cclk_fracdiv 0x91100000 cfg_cpu0_src).m_min ≤ 1 ∧
    1 ≤ (cclk_fracdiv 0x91100000 cfg_cpu0_src).m_max ∧
    |((800000000 * 1 / (cclk_fracdiv 0x91100000 cfg_cpu0_src).n_max : Nat) : Int) - 69565217| <
      |((100000000 : Nat) : Int) - 69565217| :=
  ⟨by decide, ⟨_, rfl, by decide⟩, by decide, by decide, by decide⟩

/-- C7, the code at a failing input: on `audio_dev_clk`, which is given
`pdm_fracdiv_table` but has a 16-bit divisor field, the row
(1441200, 441, 125000) has its divisor truncated to 59464 by the field mask;
from 400 MHz `set_rate` succeeds and `recalc_rate` then returns 2966500, not
400000000 * 441 / 125000 = 1411200. -/
theorem set_rate_recalc_audio_dev_clk_truncates :
    (cclk_fracdiv 0x91100000 cfg_audio_dev_clk).fracdiv_table = some pdm_fracdiv_table ∧
    ({ rate := 1441200, mul := 441, div := 125000 } : k230_fracdiv_table) ∈ pdm_fracdiv_table ∧
    (cclk_fracdiv 0x91100000 cfg_audio_dev_clk).n_max = 62500 ∧
    (cclk_fracdiv 0x91100000 cfg_audio_dev_clk).n_mask = 0xFFFF ∧
    (∃ regs1, k230_rate_clk_set_rate (cclk_fracdiv 0x91100000 cfg_audio_dev_clk) (fun _ => 0)
        1441200 400000000 0 0 = .ok (0, regs1) ∧
      regs1 0x91100034 = 0x80000000 ||| (441 <<< 16) ||| 59464 ∧
      k230_rate_clk_recalc_rate (cclk_fracdiv 0x91100000 cfg_audio_dev_clk) regs1 400000000 =
        .ok 2966500) ∧
    400000000 * 441 / 125000 = 1411200 :=
  ⟨rfl, by decide, rfl, rfl, ⟨_, rfl, by decide, by decide⟩, by decide⟩

/-- C9: when rate is zero, parent_rate is zero or rate exceeds parent_rate,
`k230_rate_clk_set_rate` returns `-EINVAL` and the register file is the one
it was given. -/
theorem set_rate_precondition_violation (clk : k230_clk_fracdiv) (regs : Regs)
    (rate P mul div : Nat) (h : rate = 0 ∨ P = 0 ∨ rate > P) :
    k230_rate_clk_set_rate clk regs rate P mul div = .ok (-EINVAL, regs) := by
  have hc : rate > P ∨ rate = 0 ∨ P = 0 := by omega
  unfold k230_rate_clk_set_rate
  cases clk.reg with
  | none => rfl
  | some a => simp only [hc, if_true]

/-- Witness of C9: `cpu0_src` asked for a rate above its parent rate. -/
theorem set_rate_precondition_violation_witness :
    k230_rate_clk_set_rate (cclk_fracdiv 0x91100000 cfg_cpu0_src) (fun _ => 0) 800000001
      800000000 0 0 = .ok (-EINVAL, fun _ => 0) :=
  set_rate_precondition_violation (cclk_fracdiv 0x91100000 cfg_cpu0_src) (fun _ => 0) 800000001
    800000000 0 0 (by decide)

/-! ## Claims on the mux -/

/-- C10, the code at a failing input: `usb0_ref_clk` has its mux field (bit
23) and its gate (bit 21) in register 0x18; with the gate bit set,
`k230_mux_clk_set_parent` to index 1 writes the word 0x00800000, so the gate
bit, which lies outside the field, is cleared. The written word never
depends on the old register content. -/
theorem mux_set_parent_clears_other_bits :
    cfg_usb0_ref_clk.gate_reg_offset = cfg_usb0_ref_clk.mux_reg_offset ∧
    cfg_usb0_ref_clk.gate_enable_bit = 21 ∧
    ((cclk_mux 0x91100000 cfg_usb0_ref_clk).mask <<<
      (cclk_mux 0x91100000 cfg_usb0_ref_clk).shift).testBit 21 = false ∧
    (readl (fun _ => 0x00200000) (cclk_mux 0x91100000 cfg_usb0_ref_clk).reg).testBit 21 = true ∧
    (k230_mux_clk_set_parent (cclk_mux 0x91100000 cfg_usb0_ref_clk) (fun _ => 0x00200000) 1).2
      (cclk_mux 0x91100000 cfg_usb0_ref_clk).reg = 0x00800000 ∧
    (readl (k230_mux_clk_set_parent (cclk_mux 0x91100000 cfg_usb0_ref_clk)
      (fun _ => 0x00200000) 1).2 (cclk_mux 0x91100000 cfg_usb0_ref_clk).reg).testBit 21 = false ∧
    (∀ (mux : clk_mux) (regs : Regs) (index : Nat),
      (k230_mux_clk_set_parent mux regs index).2 mux.reg =
        u32 ((index &&& mux.mask) <<< mux.shift)) :=
  ⟨rfl, rfl, by decide, by decide, by decide, by decide, fun mux regs index => by
    simp [k230_mux_clk_set_parent, writel]⟩

/-! ## Gate control, mux round trip, register writes and read-back -/

theorem testBit_not64 (x i : Nat) : (not64 x).testBit i = (decide (i < 64) ^^ x.testBit i) := by
  unfold not64
  rw [Nat.testBit_xor]
  have : (0xFFFFFFFFFFFFFFFF : Nat) = 2 ^ 64 - 1 := by norm_num
  rw [this, Nat.testBit_two_pow_sub_one]

theorem testBit_readl (regs : Regs) (addr i : Nat) :
    (readl regs addr).testBit i = (decide (i < 32) && (regs addr).testBit i) :=
  testBit_u32 _ _

theorem readl_writel_same (v addr : Nat) (regs : Regs) : readl (writel v addr regs) addr = u32 v := by
  simp [readl, writel]

/-- Setting a bit of a word. -/
theorem u32_or_BIT (x b : Nat) (hx : x < 2 ^ 32) (hb : b < 32) : u32 (x ||| BIT b) = x ||| BIT b := by
  apply u32_of_lt
  apply Nat.or_lt_two_pow hx
  unfold BIT
  rw [Nat.one_shiftLeft]
  exact Nat.pow_lt_pow_right (by norm_num) hb

/-- Clearing a bit of a word with the 64-bit complement. -/
theorem u32_and_not64_BIT (x b : Nat) (hx : x < 2 ^ 32) :
    u32 (x &&& not64 (BIT b)) = x &&& not32 (BIT b) := by
  apply Nat.eq_of_testBit_eq
  intro j
  simp only [testBit_u32, Nat.testBit_and, testBit_not64, testBit_not32, testBit_BIT]
  by_cases hj : j < 32
  · have : j < 64 := by omega
    simp [hj, this]
  · have : x.testBit j = false := by
      apply Nat.testBit_lt_two_pow
      calc x < 2 ^ 32 := hx
        _ ≤ 2 ^ j := Nat.pow_le_pow_right (by norm_num) (by omega)
    simp [hj, this]

theorem testBit_or_BIT (x b j : Nat) : (x ||| BIT b).testBit j = (x.testBit j || decide (b = j)) := by
  rw [Nat.testBit_or, testBit_BIT]

theorem testBit_and_not32_BIT (x b j : Nat) (hx : x < 2 ^ 32) :
    (x &&& not32 (BIT b)).testBit j = (x.testBit j && !decide (b = j)) := by
  rw [Nat.testBit_and, testBit_not32, testBit_BIT]
  by_cases hj : j < 32
  · simp [hj]
  · have : x.testBit j = false := by
      apply Nat.testBit_lt_two_pow
      calc x < 2 ^ 32 := hx
        _ ≤ 2 ^ j := Nat.pow_le_pow_right (by norm_num) (by omega)
    simp [this]

theorem and_not32_lt (x y : Nat) (hx : x < 2 ^ 32) : x &&& not32 y < 2 ^ 32 :=
  lt_of_le_of_lt Nat.and_le_left hx

theorem BIT_lt (b : Nat) (hb : b < 32) : BIT b < 2 ^ 32 := by
  unfold BIT
  rw [Nat.one_shiftLeft]
  exact Nat.pow_lt_pow_right (by norm_num) hb

/-- C16: `k230_pll_clk_enable` writes old | BIT(2) | BIT(18) to the gate
register and returns 0, `k230_pll_clk_disable` writes (old & ~BIT(2)) | BIT(18),
`k230_pll_clk_is_enabled` returns 1 exactly when bit 2 is set and leaves the
register file alone; so is_enabled is 1 right after enable and 0 right after
disable, and only bits 2 and 18 of the gate register can change. -/
theorem pll_gate_control (k230_pll : k230_pll_clk) (regs : Regs) :
    k230_pll_clk_enable k230_pll regs =
      (0, writel (readl regs (k230_pll.reg + 8) ||| BIT 2 ||| BIT 18) (k230_pll.reg + 8) regs) ∧
    k230_pll_clk_disable k230_pll regs =
      writel ((readl regs (k230_pll.reg + 8) &&& not32 (BIT 2)) ||| BIT 18)
        (k230_pll.reg + 8) regs ∧
    k230_pll_clk_is_enabled k230_pll regs =
      (if (readl regs (k230_pll.reg + 8)).testBit 2 = true then 1 else 0, regs) ∧
    (k230_pll_clk_is_enabled k230_pll (k230_pll_clk_enable k230_pll regs).2).1 = 1 ∧
    (k230_pll_clk_is_enabled k230_pll (k230_pll_clk_disable k230_pll regs)).1 = 0 ∧
    (∀ j, j ≠ 2 → j ≠ 18 →
      (readl (k230_pll_clk_enable k230_pll regs).2 (k230_pll.reg + 8)).testBit j =
        (readl regs (k230_pll.reg + 8)).testBit j ∧
      (readl (k230_pll_clk_disable k230_pll regs) (k230_pll.reg + 8)).testBit j =
        (readl regs (k230_pll.reg + 8)).testBit j) := by
  have hold := readl_lt regs (k230_pll.reg + 8)
  have hen : k230_pll_clk_enable k230_pll regs =
      (0, writel (readl regs (k230_pll.reg + 8) ||| BIT 2 ||| BIT 18) (k230_pll.reg + 8) regs) := by
    simp only [k230_pll_clk_enable, K230_PLL_CLK_GATE_OFFSET, K230_PLL_GATE_REG_ENABLE_BIT,
      K230_PLL_GATE_REG_WRITE_ENABLE_BIT]
    rw [← Nat.lor_assoc, u32_of_lt]
    exact Nat.or_lt_two_pow (Nat.or_lt_two_pow hold (BIT_lt 2 (by norm_num)))
      (BIT_lt 18 (by norm_num))
  have hdis : k230_pll_clk_disable k230_pll regs =
      writel ((readl regs (k230_pll.reg + 8) &&& not32 (BIT 2)) ||| BIT 18)
        (k230_pll.reg + 8) regs := by
    simp only [k230_pll_clk_disable, K230_PLL_CLK_GATE_OFFSET, K230_PLL_GATE_REG_ENABLE_BIT,
      K230_PLL_GATE_REG_WRITE_ENABLE_BIT]
    rw [u32_and_not64_BIT _ _ hold, u32_or_BIT _ _ (and_not32_lt _ _ hold) (by norm_num)]
  have hise : ∀ r : Regs, k230_pll_clk_is_enabled k230_pll r =
      (if (readl r (k230_pll.reg + 8)).testBit 2 = true then 1 else 0, r) := by
    intro r
    simp only [k230_pll_clk_is_enabled, K230_PLL_CLK_GATE_OFFSET, K230_PLL_GATE_REG_ENABLE_BIT]
    by_cases h : (readl r (k230_pll.reg + 8)).testBit 2 = true
    · have := (and_BIT_ne_zero_iff _ _).mpr h
      rw [if_pos (Nat.pos_of_ne_zero this), if_pos h]
    · have h2 : (readl r (k230_pll.reg + 8)).testBit 2 = false := by simpa using h
      have := (and_BIT_eq_zero_iff _ _).mpr h2
      rw [if_neg (by omega), if_neg h]
  have hb_en : ∀ j, (readl (k230_pll_clk_enable k230_pll regs).2 (k230_pll.reg + 8)).testBit j =
      ((readl regs (k230_pll.reg + 8)).testBit j || decide (2 = j) || decide (18 = j)) := by
    intro j
    rw [hen, readl_writel_same, u32_of_lt (Nat.or_lt_two_pow (Nat.or_lt_two_pow hold
      (BIT_lt 2 (by norm_num))) (BIT_lt 18 (by norm_num))), testBit_or_BIT, testBit_or_BIT]
  have hb_dis : ∀ j, (readl (k230_pll_clk_disable k230_pll regs) (k230_pll.reg + 8)).testBit j =
      (((readl regs (k230_pll.reg + 8)).testBit j && !decide (2 = j)) || decide (18 = j)) := by
    intro j
    rw [hdis, readl_writel_same, u32_of_lt (Nat.or_lt_two_pow (and_not32_lt _ _ hold)
      (BIT_lt 18 (by norm_num))), testBit_or_BIT, testBit_and_not32_BIT _ _ _ hold]
  refine ⟨hen, hdis, hise regs, ?_, ?_, ?_⟩
  · rw [hise, hb_en 2]
    simp
  · rw [hise, hb_dis 2]
    simp
  · intro j h2 h18
    rw [hb_en j, hb_dis j]
    have e2 : decide (2 = j) = false := by simpa using fun h => h2 h.symm
    have e18 : decide (18 = j) = false := by simpa using fun h => h18 h.symm
    simp [e2, e18]


theorem writel_writel_same (v w addr : Nat) (regs : Regs) :
    writel w addr (writel v addr regs) = writel w addr regs := by
  funext a
  simp only [writel]
  split_ifs <;> rfl

theorem or_BIT_lt (x b : Nat) (hx : x < 2 ^ 32) (hb : b < 32) : x ||| BIT b < 2 ^ 32 :=
  Nat.or_lt_two_pow hx (BIT_lt b hb)

/-- The word a gate operation writes when it sets the gate bit. -/
theorem gate_set_word (regs : Regs) (addr b : Nat) (hb : b < 32) :
    u32 (readl regs addr ||| BIT b) = readl regs addr ||| BIT b :=
  u32_or_BIT _ _ (readl_lt _ _) hb

/-- The word a gate operation writes when it clears the gate bit. -/
theorem gate_clear_word (regs : Regs) (addr b : Nat) :
    u32 (readl regs addr &&& not64 (BIT b)) = readl regs addr &&& not32 (BIT b) :=
  u32_and_not64_BIT _ _ (readl_lt _ _)

theorem readl_set_bit (regs : Regs) (addr b j : Nat) (hb : b < 32) :
    (readl (writel (readl regs addr ||| BIT b) addr regs) addr).testBit j =
      ((readl regs addr).testBit j || decide (b = j)) := by
  rw [readl_writel_same, u32_of_lt (or_BIT_lt _ _ (readl_lt _ _) hb), testBit_or_BIT]

theorem readl_clear_bit (regs : Regs) (addr b j : Nat) :
    (readl (writel (readl regs addr &&& not32 (BIT b)) addr regs) addr).testBit j =
      ((readl regs addr).testBit j && !decide (b = j)) := by
  rw [readl_writel_same, u32_of_lt (and_not32_lt _ _ (readl_lt _ _)),
    testBit_and_not32_BIT _ _ _ (readl_lt _ _)]

theorem gate_enable_normal (gate : clk_gate) (regs : Regs) (hb : gate.bit_idx < 32)
    (hf : (gate.flags &&& CLK_GATE_SET_TO_DISABLE) = 0) :
    k230_gate_clk_enable gate regs =
      (0, writel (readl regs gate.reg ||| BIT gate.bit_idx) gate.reg regs) := by
  simp only [k230_gate_clk_enable, hf, if_true, gate_set_word _ _ _ hb]

theorem gate_enable_inverse (gate : clk_gate) (regs : Regs)
    (hf : (gate.flags &&& CLK_GATE_SET_TO_DISABLE) ≠ 0) :
    k230_gate_clk_enable gate regs =
      (0, writel (readl regs gate.reg &&& not32 (BIT gate.bit_idx)) gate.reg regs) := by
  simp only [k230_gate_clk_enable, hf, if_false, gate_clear_word]

theorem gate_disable_normal (gate : clk_gate) (regs : Regs)
    (hf : (gate.flags &&& CLK_GATE_SET_TO_DISABLE) = 0) :
    k230_gate_clk_disable gate regs =
      writel (readl regs gate.reg &&& not32 (BIT gate.bit_idx)) gate.reg regs := by
  simp only [k230_gate_clk_disable, hf, ne_eq, not_true_eq_false, if_false, gate_clear_word]

theorem gate_disable_inverse (gate : clk_gate) (regs : Regs) (hb : gate.bit_idx < 32)
    (hf : (gate.flags &&& CLK_GATE_SET_TO_DISABLE) ≠ 0) :
    k230_gate_clk_disable gate regs =
      writel (readl regs gate.reg ||| BIT gate.bit_idx) gate.reg regs := by
  simp only [k230_gate_clk_disable, hf, ne_eq, not_false_eq_true, if_true, gate_set_word _ _ _ hb]

/-- Writing the set-bit word twice is writing it once. -/
theorem set_bit_twice (regs : Regs) (addr b : Nat) (hb : b < 32) :
    writel (readl (writel (readl regs addr ||| BIT b) addr regs) addr ||| BIT b) addr
        (writel (readl regs addr ||| BIT b) addr regs) =
      writel (readl regs addr ||| BIT b) addr regs := by
  have hw : readl (writel (readl regs addr ||| BIT b) addr regs) addr ||| BIT b =
      readl regs addr ||| BIT b := by
    apply Nat.eq_of_testBit_eq
    intro j
    rw [testBit_or_BIT, readl_set_bit _ _ _ _ hb, testBit_or_BIT]
    cases (readl regs addr).testBit j <;> cases decide (b = j) <;> rfl
  rw [writel_writel_same, hw]

/-- Writing the cleared-bit word twice is writing it once. -/
theorem clear_bit_twice (regs : Regs) (addr b : Nat) :
    writel (readl (writel (readl regs addr &&& not32 (BIT b)) addr regs) addr &&& not32 (BIT b))
        addr (writel (readl regs addr &&& not32 (BIT b)) addr regs) =
      writel (readl regs addr &&& not32 (BIT b)) addr regs := by
  have hw : readl (writel (readl regs addr &&& not32 (BIT b)) addr regs) addr &&&
      not32 (BIT b) = readl regs addr &&& not32 (BIT b) := by
    apply Nat.eq_of_testBit_eq
    intro j
    rw [testBit_and_not32_BIT _ _ _ (readl_lt _ _), readl_clear_bit,
      testBit_and_not32_BIT _ _ _ (readl_lt _ _)]
    cases (readl regs addr).testBit j <;> cases decide (b = j) <;> rfl
  rw [writel_writel_same, hw]

/-- C18: for a gate of either polarity with bit index below 32, enable and
disable each write one word to the gate register that agrees with the old
word in every bit but the gate bit; with normal polarity enable sets the bit
and disable clears it; doing either twice is doing it once; enable returns
0. -/
theorem gate_single_bit_rmw (gate : clk_gate) (regs : Regs) (hb : gate.bit_idx < 32) :
    (k230_gate_clk_enable gate regs).1 = 0 ∧
    (∃ w, (k230_gate_clk_enable gate regs).2 = writel w gate.reg regs ∧
      ∀ j, j ≠ gate.bit_idx → w.testBit j = (readl regs gate.reg).testBit j) ∧
    (∃ w, k230_gate_clk_disable gate regs = writel w gate.reg regs ∧
      ∀ j, j ≠ gate.bit_idx → w.testBit j = (readl regs gate.reg).testBit j) ∧
    ((gate.flags &&& CLK_GATE_SET_TO_DISABLE) = 0 →
      (readl (k230_gate_clk_enable gate regs).2 gate.reg).testBit gate.bit_idx = true ∧
      (readl (k230_gate_clk_disable gate regs) gate.reg).testBit gate.bit_idx = false) ∧
    (k230_gate_clk_enable gate (k230_gate_clk_enable gate regs).2).2 =
      (k230_gate_clk_enable gate regs).2 ∧
    k230_gate_clk_disable gate (k230_gate_clk_disable gate regs) =
      k230_gate_clk_disable gate regs := by
  have hset : ∀ j, j ≠ gate.bit_idx →
      (readl regs gate.reg ||| BIT gate.bit_idx).testBit j = (readl regs gate.reg).testBit j := by
    intro j hj
    rw [testBit_or_BIT]
    have : decide (gate.bit_idx = j) = false := by simpa using fun h => hj h.symm
    simp [this]
  have hclr : ∀ j, j ≠ gate.bit_idx →
      (readl regs gate.reg &&& not32 (BIT gate.bit_idx)).testBit j =
        (readl regs gate.reg).testBit j := by
    intro j hj
    rw [testBit_and_not32_BIT _ _ _ (readl_lt _ _)]
    have : decide (gate.bit_idx = j) = false := by simpa using fun h => hj h.symm
    simp [this]
  by_cases hf : (gate.flags &&& CLK_GATE_SET_TO_DISABLE) = 0
  · have hen := fun r => gate_enable_normal gate r hb hf
    have hdis := fun r => gate_disable_normal gate r hf
    refine ⟨by rw [hen], ⟨_, by rw [hen], hset⟩, ⟨_, hdis regs, hclr⟩, fun _ => ⟨?_, ?_⟩, ?_, ?_⟩
    · rw [hen, readl_set_bit _ _ _ _ hb]
      simp
    · rw [hdis, readl_clear_bit]
      simp
    · rw [hen, hen]
      exact set_bit_twice regs gate.reg gate.bit_idx hb
    · rw [hdis, hdis]
      exact clear_bit_twice regs gate.reg gate.bit_idx
  · have hen := fun r => gate_enable_inverse gate r hf
    have hdis := fun r => gate_disable_inverse gate r hb hf
    refine ⟨by rw [hen], ⟨_, by rw [hen], hclr⟩, ⟨_, hdis regs, hset⟩,
      fun h => absurd h hf, ?_, ?_⟩
    · rw [hen, hen]
      exact clear_bit_twice regs gate.reg gate.bit_idx
    · rw [hdis, hdis]
      exact set_bit_twice regs gate.reg gate.bit_idx hb

theorem cclk_mux_of_is_mux (sys_base : Nat) (cfg : k230_composite_clk_cfg) (h : cfg.is_mux = true) :
    cclk_mux sys_base cfg =
      { reg := sys_base + cfg.mux_reg_offset, shift := cfg.mux_shift, mask := cfg.mux_mask } := by
  simp [cclk_mux, k230_register_child_cclk, h]

set_option maxRecDepth 100000 in
theorem configured_mux_fields :
    ∀ cfg ∈ k230_cclk_cfgs, cfg.is_mux = true →
      cfg.mux_mask <<< cfg.mux_shift < 2 ^ 32 ∧
      ∀ i < cfg.num_parents, i < 2 ^ 8 ∧ i &&& cfg.mux_mask = i := by
  decide

theorem mux_set_get (mux : clk_mux) (regs : Regs) (i : Nat) (hi8 : i < 2 ^ 8)
    (hfield : mux.mask <<< mux.shift < 2 ^ 32) (hi : i &&& mux.mask = i) :
    k230_mux_clk_get_parent mux (k230_mux_clk_set_parent mux regs i).2 = i := by
  have hle : i ≤ mux.mask := by
    rw [← hi]
    exact Nat.and_le_right
  have hlt : i <<< mux.shift < 2 ^ 32 := by
    rw [Nat.shiftLeft_eq] at hfield ⊢
    exact lt_of_le_of_lt (Nat.mul_le_mul_right _ hle) hfield
  simp only [k230_mux_clk_get_parent, k230_mux_clk_set_parent, hi]
  rw [show readl (writel (u32 (i <<< mux.shift)) mux.reg regs) mux.reg = u32 (u32 (i <<< mux.shift))
    by simp [readl, writel]]
  rw [u32_of_lt hlt, u32_of_lt hlt, Nat.shiftLeft_shiftRight, hi]
  exact Nat.mod_eq_of_lt hi8

/-- C11: on every mux entry of `k230_cclk_cfgs` and every index below its
number of parents, and more generally for every (shift, mask) with
mask << shift below 2^32 and every `u8` index with (index & mask) = index,
`k230_mux_clk_set_parent` followed by `k230_mux_clk_get_parent` returns the
index, whatever the register held before. -/
theorem mux_round_trip :
    (∀ cfg ∈ k230_cclk_cfgs, cfg.is_mux = true → ∀ i, i < cfg.num_parents →
      ∀ (sys_base : Nat) (regs : Regs),
        k230_mux_clk_get_parent (cclk_mux sys_base cfg)
          (k230_mux_clk_set_parent (cclk_mux sys_base cfg) regs i).2 = i) ∧
    (∀ (mux : clk_mux) (regs : Regs) (i : Nat), i < 2 ^ 8 → mux.mask <<< mux.shift < 2 ^ 32 →
      i &&& mux.mask = i →
        k230_mux_clk_get_parent mux (k230_mux_clk_set_parent mux regs i).2 = i) := by
  refine ⟨?_, fun mux regs i h1 h2 h3 => mux_set_get mux regs i h1 h2 h3⟩
  intro cfg hcfg hmux i hi sys_base regs
  obtain ⟨hf, hall⟩ := configured_mux_fields cfg hcfg hmux
  obtain ⟨h8, hm⟩ := hall i hi
  rw [cclk_mux_of_is_mux sys_base cfg hmux]
  exact mux_set_get _ regs i h8 hf hm

/-- C19: `k230_rate_clk_round_rate` returns min(rate, 2^63 - 1): never
negative, equal to rate whenever rate is at most 2^63 - 1, the same for every
node, register file and parent rate, and it leaves `*parent_rate` and the
register file as they were. -/
theorem round_rate_clamp (hw : k230_clk_fracdiv) (regs : Regs) (rate parent_rate : Nat) :
    k230_rate_clk_round_rate hw regs rate parent_rate =
      (((min rate (2 ^ 63 - 1) : Nat) : Int), parent_rate, regs) ∧
    0 ≤ (k230_rate_clk_round_rate hw regs rate parent_rate).1 ∧
    (rate ≤ 2 ^ 63 - 1 → (k230_rate_clk_round_rate hw regs rate parent_rate).1 = (rate : Int)) ∧
    (∀ (hw2 : k230_clk_fracdiv) (regs2 : Regs) (parent_rate2 : Nat),
      (k230_rate_clk_round_rate hw2 regs2 rate parent_rate2).1 =
        (k230_rate_clk_round_rate hw regs rate parent_rate).1) := by
  have h : ∀ (hw : k230_clk_fracdiv) (regs : Regs) (parent_rate : Nat),
      k230_rate_clk_round_rate hw regs rate parent_rate =
        (((min rate (2 ^ 63 - 1) : Nat) : Int), parent_rate, regs) := by
    intro hw regs parent_rate
    have hlt : min rate (2 ^ 63 - 1) < 2 ^ 63 :=
      lt_of_le_of_lt (Nat.min_le_right _ _) (by norm_num)
    simp only [k230_rate_clk_round_rate, LONG_MAX]
    rw [s64_natCast hlt]
  refine ⟨h hw regs parent_rate, ?_, ?_, ?_⟩
  · rw [h]
    exact Int.ofNat_nonneg _
  · intro hle
    rw [h]
    simp only
    rw [Nat.min_eq_left hle]
  · intro hw2 regs2 parent_rate2
    rw [h, h]

/-- C20: on a both-variable node without a rate table, for 0 < rate <=
parent_rate, `k230_approximate_clock_rate` returns `-EINVAL` and
`k230_rate_clk_set_rate` returns `-EINVAL` with the register file it was
given. -/
theorem missing_table_einval (clk : k230_clk_fracdiv) (regs : Regs) (rate P mul div : Nat)
    (hn : clk.n_min ≠ clk.n_max) (hm : clk.m_min ≠ clk.m_max)
    (htab : clk.fracdiv_table = none) (hr0 : 0 < rate) (hrp : rate ≤ P) :
    k230_approximate_clock_rate clk rate P mul div = .ok (-EINVAL, mul, div) ∧
    k230_rate_clk_set_rate clk regs rate P mul div = .ok (-EINVAL, regs) := by
  have happ : k230_approximate_clock_rate clk rate P mul div = .ok (-EINVAL, mul, div) := by
    simp only [k230_approximate_clock_rate, hn, hm, if_false, htab]
  refine ⟨happ, ?_⟩
  have hc : ¬ (rate > P ∨ rate = 0 ∨ P = 0) := by omega
  unfold k230_rate_clk_set_rate
  cases clk.reg with
  | none => rfl
  | some a =>
    have hne : (-EINVAL : Int) ≠ 0 := by decide
    simp only [hc, if_false, happ, hne, ne_eq, not_false_eq_true, if_true]

theorem missing_table_einval_witness :
    k230_approximate_clock_rate
        { cclk_fracdiv 0x91100000 cfg_codec_adc_mclk with fracdiv_table := none }
        2048000 400000000 0 0 = .ok (-EINVAL, 0, 0) ∧
    k230_rate_clk_set_rate
        { cclk_fracdiv 0x91100000 cfg_codec_adc_mclk with fracdiv_table := none }
        (fun _ => 0) 2048000 400000000 0 0 = .ok (-EINVAL, fun _ => 0) :=
  missing_table_einval { cclk_fracdiv 0x91100000 cfg_codec_adc_mclk with fracdiv_table := none }
    (fun _ => 0) 2048000 400000000 0 0 (by decide) (by decide) rfl (by decide) (by decide)

theorem u32_or (x y : Nat) : u32 (x ||| y) = u32 x ||| u32 y := by
  apply Nat.eq_of_testBit_eq
  intro j
  simp only [testBit_u32, Nat.testBit_or]
  cases decide (j < 32) <;> simp

theorem u32_or_of_lt (x y : Nat) (hx : x < 2 ^ 32) : u32 (x ||| y) = x ||| u32 y := by
  rw [u32_or, u32_of_lt hx]

theorem testBit_of_lt_32 {x j : Nat} (hx : x < 2 ^ 32) (hj : ¬ j < 32) : x.testBit j = false := by
  apply Nat.testBit_lt_two_pow
  calc x < 2 ^ 32 := hx
    _ ≤ 2 ^ j := Nat.pow_le_pow_right (by norm_num) (by omega)

/-- A successful `set_rate` has a register, passed the argument check and got
0 from the approximation. -/
theorem set_rate_ok_inv (clk : k230_clk_fracdiv) (regs regs1 : Regs) (rate P mul div : Nat)
    (h : k230_rate_clk_set_rate clk regs rate P mul div = .ok (0, regs1)) :
    ∃ a mul1 div1, clk.reg = some a ∧ ¬ (rate > P ∨ rate = 0 ∨ P = 0) ∧
      k230_approximate_clock_rate clk rate P mul div = .ok (0, mul1, div1) := by
  have hne : (-EINVAL : Int) ≠ 0 := by decide
  unfold k230_rate_clk_set_rate at h
  cases hreg : clk.reg with
  | none =>
    rw [hreg] at h
    simp only [Except.ok.injEq, Prod.mk.injEq] at h
    exact absurd h.1 hne
  | some a =>
    rw [hreg] at h
    simp only at h
    by_cases hc : rate > P ∨ rate = 0 ∨ P = 0
    · rw [if_pos hc] at h
      simp only [Except.ok.injEq, Prod.mk.injEq] at h
      exact absurd h.1 hne
    · rw [if_neg hc] at h
      cases happ : k230_approximate_clock_rate clk rate P mul div with
      | error e =>
        rw [happ] at h
        simp at h
      | ok r =>
        obtain ⟨err, mul1, div1⟩ := r
        rw [happ] at h
        simp only at h
        by_cases he : err = 0
        · subst he
          exact ⟨a, mul1, div1, rfl, hc, rfl⟩
        · rw [if_pos he] at h
          simp only [Except.ok.injEq, Prod.mk.injEq] at h
          exact absurd h.1 hne


/-- Bits of a word after a field has been cleared and a bit and a field value
have been set: outside the field and the bit the word is the old one. -/
theorem rmw_frame (old b s M v j : Nat) (hold : old < 2 ^ 32)
    (hF : (u32 (M <<< s)).testBit j = false) (hb : j ≠ b) :
    ((old &&& not32 (u32 (M <<< s))) ||| u32 (BIT b) ||| u32 ((v &&& M) <<< s)).testBit j =
      old.testBit j := by
  simp only [testBit_u32, Nat.testBit_shiftLeft] at hF
  simp only [Nat.testBit_or, Nat.testBit_and, testBit_not32, testBit_u32, testBit_BIT,
    Nat.testBit_shiftLeft]
  have hbj : decide (b = j) = false := by simpa using fun h => hb h.symm
  by_cases hj : j < 32
  · simp only [hj, decide_True, Bool.true_and] at hF ⊢
    rw [hbj]
    by_cases hs : j ≥ s
    · simp only [hs, decide_True, Bool.true_and] at hF ⊢
      simp [hF]
    · simp [hs]
  · simp [hj, testBit_of_lt_32 hold hj]

/-- C12: a successful `k230_rate_clk_set_rate` on a single-register node in
the numerator-fixed or denominator-fixed regime writes the one word
(old & ~(n_mask << n_shift)) | BIT(bit_idx) | (((x - 1) & n_mask) << n_shift),
in 32-bit arithmetic, where x is the approximated mul (numerator-fixed) or
div (denominator-fixed); bits outside the n-field and the write-enable bit
keep their old value. -/
theorem set_rate_fixed_regime_write (clk : k230_clk_fracdiv) (regs regs1 : Regs)
    (rate P mul div a : Nat) (hreg : clk.reg = some a) (hreg1 : clk.reg_1 = none)
    (hfixed : clk.n_min = clk.n_max ∨ clk.m_min = clk.m_max)
    (hset : k230_rate_clk_set_rate clk regs rate P mul div = .ok (0, regs1)) :
    ∃ mul1 div1 w, k230_approximate_clock_rate clk rate P mul div = .ok (0, mul1, div1) ∧
      regs1 = writel w a regs ∧
      w = (readl regs a &&& not32 (u32 (clk.n_mask <<< clk.n_shift))) ||| u32 (BIT clk.bit_idx) |||
        u32 ((u32 ((if clk.n_min = clk.n_max then mul1 else div1) + 2 ^ 32 - 1) &&& clk.n_mask) <<<
          clk.n_shift) ∧
      ∀ j, (u32 (clk.n_mask <<< clk.n_shift)).testBit j = false → j ≠ clk.bit_idx →
        w.testBit j = (readl regs a).testBit j := by
  obtain ⟨a1, mul1, div1, hreg2, hc, happ⟩ := set_rate_ok_inv clk regs regs1 rate P mul div hset
  have hold := readl_lt regs a
  have hlt := and_not32_lt (readl regs a) (u32 (clk.n_mask <<< clk.n_shift)) hold
  refine ⟨mul1, div1, _, happ, ?_, rfl, fun j hF hb => rmw_frame _ _ _ _ _ j hold hF hb⟩
  unfold k230_rate_clk_set_rate at hset
  simp only [hreg, hc, if_false, happ, ne_eq, not_true_eq_false, hreg1] at hset
  by_cases hn : clk.n_min = clk.n_max
  · simp only [hn, not_true_eq_false, false_and, if_false, if_true, Except.ok.injEq,
      Prod.mk.injEq, true_and] at hset
    rw [← hset, if_pos hn, u32_or_of_lt _ _ hlt]
  · have hm : clk.m_min = clk.m_max := hfixed.resolve_left hn
    simp only [hn, hm, not_false_eq_true, not_true_eq_false, and_false, if_false, if_true,
      Except.ok.injEq, Prod.mk.injEq, true_and] at hset
    rw [← hset, if_neg hn, u32_or_of_lt _ _ hlt]


theorem testBit_and_not32_field (x F j : Nat) (hx : x < 2 ^ 32) (hF : F.testBit j = false) :
    (x &&& not32 F).testBit j = x.testBit j := by
  rw [Nat.testBit_and, testBit_not32, hF]
  by_cases hj : j < 32
  · simp [hj]
  · simp [testBit_of_lt_32 hx hj]

theorem testBit_or_u32_BIT (x b j : Nat) (hb : j ≠ b) :
    (x ||| u32 (BIT b)).testBit j = x.testBit j := by
  rw [Nat.testBit_or, testBit_u32, testBit_BIT]
  have hbj : decide (b = j) = false := by simpa using fun h => hb h.symm
  simp [hbj]

theorem testBit_or_field (x M s v j : Nat) (hF : (u32 (M <<< s)).testBit j = false) :
    (x ||| u32 ((v &&& M) <<< s)).testBit j = x.testBit j := by
  simp only [testBit_u32, Nat.testBit_shiftLeft] at hF
  simp only [Nat.testBit_or, Nat.testBit_and, testBit_u32, Nat.testBit_shiftLeft]
  by_cases hj : j < 32
  · simp only [hj, decide_True, Bool.true_and] at hF ⊢
    by_cases hs : j ≥ s
    · simp only [hs, decide_True, Bool.true_and] at hF ⊢
      simp [hF]
    · simp [hs]
  · simp [hj]

/-- C14: a successful `k230_rate_clk_set_rate` on a both-variable
single-register node writes the one word
(old & ~(n_mask << n_shift) & ~(m_mask << m_shift)) | BIT(bit_idx) |
((mul & m_mask) << m_shift) | ((div & n_mask) << n_shift), in 32-bit
arithmetic; bits outside the two fields and the write-enable bit keep their
old value. -/
theorem set_rate_both_variable_write (clk : k230_clk_fracdiv) (regs regs1 : Regs)
    (rate P mul div a : Nat) (hreg : clk.reg = some a) (hreg1 : clk.reg_1 = none)
    (hn : clk.n_min ≠ clk.n_max) (hm : clk.m_min ≠ clk.m_max)
    (hset : k230_rate_clk_set_rate clk regs rate P mul div = .ok (0, regs1)) :
    ∃ mul1 div1 w, k230_approximate_clock_rate clk rate P mul div = .ok (0, mul1, div1) ∧
      regs1 = writel w a regs ∧
      w = (readl regs a &&& not32 (u32 (clk.n_mask <<< clk.n_shift)) &&&
            not32 (u32 (clk.m_mask <<< clk.m_shift))) |||
          u32 (BIT clk.bit_idx) ||| u32 ((mul1 &&& clk.m_mask) <<< clk.m_shift) |||
          u32 ((div1 &&& clk.n_mask) <<< clk.n_shift) ∧
      ∀ j, (u32 (clk.n_mask <<< clk.n_shift)).testBit j = false →
        (u32 (clk.m_mask <<< clk.m_shift)).testBit j = false → j ≠ clk.bit_idx →
        w.testBit j = (readl regs a).testBit j := by
  obtain ⟨a1, mul1, div1, hreg2, hc, happ⟩ := set_rate_ok_inv clk regs regs1 rate P mul div hset
  have hold := readl_lt regs a
  have hlt1 := and_not32_lt (readl regs a) (u32 (clk.n_mask <<< clk.n_shift)) hold
  have hlt2 := and_not32_lt _ (u32 (clk.m_mask <<< clk.m_shift)) hlt1
  refine ⟨mul1, div1, _, happ, ?_, rfl, fun j hFn hFm hb => ?_⟩
  · unfold k230_rate_clk_set_rate at hset
    simp only [hreg, hc, if_false, happ, ne_eq, not_true_eq_false, hreg1, hn, hm,
      not_false_eq_true, and_self, if_true, Except.ok.injEq, Prod.mk.injEq, true_and] at hset
    rw [← hset, u32_or_of_lt _ _ hlt2]
  · rw [testBit_or_field _ _ _ _ _ hFn, testBit_or_field _ _ _ _ _ hFm,
      testBit_or_u32_BIT _ _ _ hb, testBit_and_not32_field _ _ _ hlt1 hFm,
      testBit_and_not32_field _ _ _ hold hFn]

/-- The register file that `k230_rate_clk_set_rate` returns is its run of
`writel` calls performed in order on the register file it was given. -/
theorem set_rate_eq_replay_writes (clk : k230_clk_fracdiv) (regs : Regs)
    (rate P mul div : Nat) :
    k230_rate_clk_set_rate clk regs rate P mul div =
      (k230_rate_clk_set_rate_writes clk regs rate P mul div).map
        (fun r => (r.1, replay_writes r.2 regs)) := by
  unfold k230_rate_clk_set_rate k230_rate_clk_set_rate_writes
  cases clk.reg with
  | none => rfl
  | some a =>
    dsimp only
    by_cases hc : rate > P ∨ rate = 0 ∨ P = 0
    · rw [if_pos hc, if_pos hc]; rfl
    · rw [if_neg hc, if_neg hc]
      cases k230_approximate_clock_rate clk rate P mul div with
      | error e => rfl
      | ok r =>
        obtain ⟨e, m, d⟩ := r
        dsimp only
        by_cases he : e ≠ 0
        · rw [if_pos he, if_pos he]; rfl
        · rw [if_neg he, if_neg he]
          cases clk.reg_1 with
          | none => rfl
          | some a1 => rfl

/-- C13: a successful `k230_rate_clk_set_rate` on a node with a secondary
register writes (old0 & ~(n_mask << n_shift)) | ((div & n_mask) << n_shift) to
the primary register and then
(old1 & ~(m_mask << m_shift)) | BIT(bit_idx) | ((mul & m_mask) << m_shift) to
the secondary one, both old words read before either write; the write-enable
bit is set in the secondary word and left as it was in the primary word. The
`writel` calls are, in program order, the primary word to the primary register
and then the secondary word to the secondary register, and the events of the
call are lock, read primary, read secondary, write primary, write secondary,
unlock. -/
theorem set_rate_two_register_write (clk : k230_clk_fracdiv) (regs regs1 : Regs)
    (rate P mul div a0 a1 : Nat) (hreg : clk.reg = some a0) (hreg1 : clk.reg_1 = some a1)
    (hset : k230_rate_clk_set_rate clk regs rate P mul div = .ok (0, regs1)) :
    ∃ mul1 div1 w0 w1, k230_approximate_clock_rate clk rate P mul div = .ok (0, mul1, div1) ∧
      regs1 = writel w1 a1 (writel w0 a0 regs) ∧
      w0 = (readl regs a0 &&& not32 (u32 (clk.n_mask <<< clk.n_shift))) |||
          u32 ((div1 &&& clk.n_mask) <<< clk.n_shift) ∧
      w1 = (readl regs a1 &&& not32 (u32 (clk.m_mask <<< clk.m_shift))) |||
          u32 (BIT clk.bit_idx) ||| u32 ((mul1 &&& clk.m_mask) <<< clk.m_shift) ∧
      (clk.bit_idx < 32 → w1.testBit clk.bit_idx = true) ∧
      ((u32 (clk.n_mask <<< clk.n_shift)).testBit clk.bit_idx = false →
        w0.testBit clk.bit_idx = (readl regs a0).testBit clk.bit_idx) ∧
      k230_rate_clk_set_rate_writes clk regs rate P mul div = .ok (0, [(w0, a0), (w1, a1)]) ∧
      regs1 = replay_writes [(w0, a0), (w1, a1)] regs ∧
      (∀ l, k230_rate_clk_set_rate_events l clk rate P mul div =
        [.spin_lock_irqsave l, .readl a0, .readl a1, .writel a0, .writel a1,
          .spin_unlock_irqrestore l]) := by
  obtain ⟨a2, mul1, div1, hreg2, hc, happ⟩ := set_rate_ok_inv clk regs regs1 rate P mul div hset
  have hold0 := readl_lt regs a0
  have hold1 := readl_lt regs a1
  have hlt1 := and_not32_lt (readl regs a1) (u32 (clk.m_mask <<< clk.m_shift)) hold1
  refine ⟨mul1, div1, _, _, happ, ?_, rfl, rfl, fun hb => ?_, fun hF => ?_, ?_, ?_, fun l => ?_⟩
  · unfold k230_rate_clk_set_rate at hset
    simp only [hreg, hc, if_false, happ, ne_eq, not_true_eq_false, hreg1, Except.ok.injEq,
      Prod.mk.injEq, true_and] at hset
    rw [← hset, u32_or_of_lt _ _ hlt1]
  · simp only [Nat.testBit_or, testBit_u32, testBit_BIT, hb, decide_True, Bool.true_and,
      Bool.or_true, Bool.true_or]
  · rw [testBit_or_field _ _ _ _ _ hF, testBit_and_not32_field _ _ _ hold0 hF]
  · unfold k230_rate_clk_set_rate_writes
    simp only [hreg, hc, if_false, happ, ne_eq, not_true_eq_false, hreg1]
    rw [u32_or_of_lt _ _ hlt1]
  · unfold k230_rate_clk_set_rate at hset
    simp only [hreg, hc, if_false, happ, ne_eq, not_true_eq_false, hreg1, Except.ok.injEq,
      Prod.mk.injEq, true_and] at hset
    rw [← hset, u32_or_of_lt _ _ hlt1]
    rfl
  · unfold k230_rate_clk_set_rate_events
    simp only [hreg, hc, if_false, happ, ne_eq, not_true_eq_false, hreg1]

/-- C15, as the code has it: whenever the multiplier and divisor that the
reference definition reads back are below 2^32, the divisor is non-zero and
the quotient fits 64 bits, `k230_rate_clk_recalc_rate` returns the reference
rate: the parent rate without a register, else floor(P * mul / div). -/
theorem recalc_rate_eq_reference (clk : k230_clk_fracdiv) (regs : Regs) (P : Nat)
    (h : ∀ mul div, recalc_rate_reference_mul_div clk regs = some (mul, div) →
      div ≠ 0 ∧ mul < 2 ^ 32 ∧ div < 2 ^ 32 ∧ P * mul / div < 2 ^ 64) :
    k230_rate_clk_recalc_rate clk regs P = .ok (recalc_rate_reference clk regs P) := by
  unfold recalc_rate_reference
  unfold recalc_rate_reference_mul_div at h ⊢
  unfold k230_rate_clk_recalc_rate
  cases hreg : clk.reg with
  | none => rfl
  | some a =>
    rw [hreg] at h
    simp only at h ⊢
    by_cases hn : clk.n_min = clk.n_max
    · simp only [hn, if_true] at h ⊢
      obtain ⟨h1, h2, h3, h4⟩ := h _ _ rfl
      rw [if_neg h1, u32_of_lt h2, mult_frac_eq _ _ _ (by omega) h2 (by omega) h4]
    · by_cases hm : clk.m_min = clk.m_max
      · simp only [hn, hm, if_true, if_false] at h ⊢
        obtain ⟨h1, h2, h3, h4⟩ := h _ _ rfl
        rw [u32_of_lt h3, if_neg h1, mult_frac_eq _ _ _ (by omega) h2 (by omega) h4]
      · simp only [hn, hm, if_false] at h ⊢
        cases hreg1 : clk.reg_1 with
        | none =>
          rw [hreg1] at h
          simp only at h ⊢
          obtain ⟨h1, h2, h3, h4⟩ := h _ _ rfl
          rw [if_neg h1, mult_frac_eq _ _ _ (by omega) h2 (by omega) h4]
        | some a1 =>
          rw [hreg1] at h
          simp only at h ⊢
          obtain ⟨h1, h2, h3, h4⟩ := h _ _ rfl
          rw [if_neg h1, mult_frac_eq _ _ _ (by omega) h2 (by omega) h4]

/-! ## Witnesses and counterexamples for the register-write claims -/

/-- Witness of C12: `cpu0_src` asked for 69565217 Hz from 800 MHz on a zero
register stores multiplier 2 as the field value 1 beside the write-enable
bit. -/
theorem set_rate_fixed_regime_write_witness :
    ∃ mul1 div1 w,
      k230_approximate_clock_rate (cclk_fracdiv 0x91100000 cfg_cpu0_src) 69565217 800000000 0 0 =
        .ok (0, mul1, div1) ∧
      writel 0x80000002 0x91100000 (fun _ => 0) = writel w 0x91100000 (fun _ => 0) ∧
      w = (readl (fun _ => 0) 0x91100000 &&&
            not32 (u32 ((cclk_fracdiv 0x91100000 cfg_cpu0_src).n_mask <<<
              (cclk_fracdiv 0x91100000 cfg_cpu0_src).n_shift))) |||
          u32 (BIT (cclk_fracdiv 0x91100000 cfg_cpu0_src).bit_idx) |||
          u32 ((u32 ((if (cclk_fracdiv 0x91100000 cfg_cpu0_src).n_min =
                  (cclk_fracdiv 0x91100000 cfg_cpu0_src).n_max then mul1 else div1) +
                2 ^ 32 - 1) &&& (cclk_fracdiv 0x91100000 cfg_cpu0_src).n_mask) <<<
            (cclk_fracdiv 0x91100000 cfg_cpu0_src).n_shift) ∧
      ∀ j, (u32 ((cclk_fracdiv 0x91100000 cfg_cpu0_src).n_mask <<<
            (cclk_fracdiv 0x91100000 cfg_cpu0_src).n_shift)).testBit j = false →
        j ≠ (cclk_fracdiv 0x91100000 cfg_cpu0_src).bit_idx →
        w.testBit j = (readl (fun _ => 0) 0x91100000).testBit j :=
  set_rate_fixed_regime_write (cclk_fracdiv 0x91100000 cfg_cpu0_src) (fun _ => 0)
    (writel 0x80000002 0x91100000 (fun _ => 0)) 69565217 800000000 0 0 0x91100000 rfl rfl
    (Or.inl rfl) rfl

/-- Witness of C13: `pdm_clk` asked for 2048000 Hz (table row 16/3125) from
400 MHz on zero registers writes 3125 to 0x40 and then 0x80000010 to 0x44. -/
theorem set_rate_two_register_write_witness :
    ∃ mul1 div1 w0 w1,
      k230_approximate_clock_rate (cclk_fracdiv 0x91100000 cfg_pdm_clk) 2048000 400000000 0 0 =
        .ok (0, mul1, div1) ∧
      writel 0x80000010 0x91100044 (writel 3125 0x91100040 (fun _ => 0)) =
        writel w1 0x91100044 (writel w0 0x91100040 (fun _ => 0)) ∧
      w0 = (readl (fun _ => 0) 0x91100040 &&&
            not32 (u32 ((cclk_fracdiv 0x91100000 cfg_pdm_clk).n_mask <<<
              (cclk_fracdiv 0x91100000 cfg_pdm_clk).n_shift))) |||
          u32 ((div1 &&& (cclk_fracdiv 0x91100000 cfg_pdm_clk).n_mask) <<<
            (cclk_fracdiv 0x91100000 cfg_pdm_clk).n_shift) ∧
      w1 = (readl (fun _ => 0) 0x91100044 &&&
            not32 (u32 ((cclk_fracdiv 0x91100000 cfg_pdm_clk).m_mask <<<
              (cclk_fracdiv 0x91100000 cfg_pdm_clk).m_shift))) |||
          u32 (BIT (cclk_fracdiv 0x91100000 cfg_pdm_clk).bit_idx) |||
          u32 ((mul1 &&& (cclk_fracdiv 0x91100000 cfg_pdm_clk).m_mask) <<<
            (cclk_fracdiv 0x91100000 cfg_pdm_clk).m_shift) ∧
      ((cclk_fracdiv 0x91100000 cfg_pdm_clk).bit_idx < 32 →
        w1.testBit (cclk_fracdiv 0x91100000 cfg_pdm_clk).bit_idx = true) ∧
      ((u32 ((cclk_fracdiv 0x91100000 cfg_pdm_clk).n_mask <<<
            (cclk_fracdiv 0x91100000 cfg_pdm_clk).n_shift)).testBit
          (cclk_fracdiv 0x91100000 cfg_pdm_clk).bit_idx = false →
        w0.testBit (cclk_fracdiv 0x91100000 cfg_pdm_clk).bit_idx =
          (readl (fun _ => 0) 0x91100040).testBit (cclk_fracdiv 0x91100000 cfg_pdm_clk).bit_idx) ∧
      k230_rate_clk_set_rate_writes (cclk_fracdiv 0x91100000 cfg_pdm_clk) (fun _ => 0) 2048000
        400000000 0 0 = .ok (0, [(w0, 0x91100040), (w1, 0x91100044)]) ∧
      writel 0x80000010 0x91100044 (writel 3125 0x91100040 (fun _ => 0)) =
        replay_writes [(w0, 0x91100040), (w1, 0x91100044)] (fun _ => 0) ∧
      (∀ l, k230_rate_clk_set_rate_events l (cclk_fracdiv 0x91100000 cfg_pdm_clk) 2048000
          400000000 0 0 =
        [.spin_lock_irqsave l, .readl 0x91100040, .readl 0x91100044, .writel 0x91100040,
          .writel 0x91100044, .spin_unlock_irqrestore l]) :=
  set_rate_two_register_write (cclk_fracdiv 0x91100000 cfg_pdm_clk) (fun _ => 0)
    (writel 0x80000010 0x91100044 (writel 3125 0x91100040 (fun _ => 0))) 2048000 400000000 0 0
    0x91100040 0x91100044 rfl rfl rfl

/-- Witness of C14: `codec_adc_mclk` asked for 2048000 Hz (table row 16/3125)
from 400 MHz on a zero register writes 0x80040C35. -/
theorem set_rate_both_variable_write_witness :
    ∃ mul1 div1 w,
      k230_approximate_clock_rate (cclk_fracdiv 0x91100000 cfg_codec_adc_mclk) 2048000
        400000000 0 0 = .ok (0, mul1, div1) ∧
      writel 0x80040C35 0x91100038 (fun _ => 0) = writel w 0x91100038 (fun _ => 0) ∧
      w = (readl (fun _ => 0) 0x91100038 &&&
            not32 (u32 ((cclk_fracdiv 0x91100000 cfg_codec_adc_mclk).n_mask <<<
              (cclk_fracdiv 0x91100000 cfg_codec_adc_mclk).n_shift)) &&&
            not32 (u32 ((cclk_fracdiv 0x91100000 cfg_codec_adc_mclk).m_mask <<<
              (cclk_fracdiv 0x91100000 cfg_codec_adc_mclk).m_shift))) |||
          u32 (BIT (cclk_fracdiv 0x91100000 cfg_codec_adc_mclk).bit_idx) |||
          u32 ((mul1 &&& (cclk_fracdiv 0x91100000 cfg_codec_adc_mclk).m_mask) <<<
            (cclk_fracdiv 0x91100000 cfg_codec_adc_mclk).m_shift) |||
          u32 ((div1 &&& (cclk_fracdiv 0x91100000 cfg_codec_adc_mclk).n_mask) <<<
            (cclk_fracdiv 0x91100000 cfg_codec_adc_mclk).n_shift) ∧
      ∀ j, (u32 ((cclk_fracdiv 0x91100000 cfg_codec_adc_mclk).n_mask <<<
            (cclk_fracdiv 0x91100000 cfg_codec_adc_mclk).n_shift)).testBit j = false →
        (u32 ((cclk_fracdiv 0x91100000 cfg_codec_adc_mclk).m_mask <<<
            (cclk_fracdiv 0x91100000 cfg_codec_adc_mclk).m_shift)).testBit j = false →
        j ≠ (cclk_fracdiv 0x91100000 cfg_codec_adc_mclk).bit_idx →
        w.testBit j = (readl (fun _ => 0) 0x91100038).testBit j :=
  set_rate_both_variable_write (cclk_fracdiv 0x91100000 cfg_codec_adc_mclk) (fun _ => 0)
    (writel 0x80040C35 0x91100038 (fun _ => 0)) 2048000 400000000 0 0 0x91100038 rfl rfl
    (by decide) (by decide) rfl

/-- Witness of C15 as amended: `cpu0_src` with the field value 1 stored reads
back 800 MHz * 2 / 16. -/
theorem recalc_rate_eq_reference_witness :
    k230_rate_clk_recalc_rate (cclk_fracdiv 0x91100000 cfg_cpu0_src) (fun _ => 0x80000002)
        800000000 =
      .ok (recalc_rate_reference (cclk_fracdiv 0x91100000 cfg_cpu0_src) (fun _ => 0x80000002)
        800000000) ∧
    recalc_rate_reference (cclk_fracdiv 0x91100000 cfg_cpu0_src) (fun _ => 0x80000002)
      800000000 = 100000000 :=
  ⟨recalc_rate_eq_reference (cclk_fracdiv 0x91100000 cfg_cpu0_src) (fun _ => 0x80000002)
      800000000 (fun mul div h => by
        have h2 : recalc_rate_reference_mul_div (cclk_fracdiv 0x91100000 cfg_cpu0_src)
            (fun _ => 0x80000002) = some (2, 16) := by decide
        rw [h2] at h
        obtain ⟨rfl, rfl⟩ := Prod.mk.inj (Option.some.inj h)
        decide),
    by decide⟩

/-- Counterexample to C15: a field mask of 0xFFFFFFFF with the register at
0xFFFFFFFF. On a numerator-fixed node (n = 16) the reference reads back the
multiplier 2^32 and gives 16 * 2^32 / 16 = 2^32 for a parent rate of 16, but
the stored value plus one wraps to 0 in `u32` and the code returns 0. On a
denominator-fixed node (m = 1) the reference divisor is 2^32, not zero, and
the rate 0, but the code divides by the wrapped divisor 0. -/
theorem recalc_rate_not_reference :
    (recalc_rate_reference_mul_div
        { fracdiv_table := none, reg := some 0x91100000, reg_1 := none, m_shift := 0,
          m_mask := 0, m_min := 1, m_max := 16, n_shift := 0, n_mask := 0xFFFFFFFF, n_min := 16,
          n_max := 16, bit_idx := 31 } (fun _ => 0xFFFFFFFF) = some (2 ^ 32, 16) ∧
      16 * 2 ^ 32 / 16 < 2 ^ 64 ∧
      recalc_rate_reference
        { fracdiv_table := none, reg := some 0x91100000, reg_1 := none, m_shift := 0,
          m_mask := 0, m_min := 1, m_max := 16, n_shift := 0, n_mask := 0xFFFFFFFF, n_min := 16,
          n_max := 16, bit_idx := 31 } (fun _ => 0xFFFFFFFF) 16 = 2 ^ 32 ∧
      k230_rate_clk_recalc_rate
        { fracdiv_table := none, reg := some 0x91100000, reg_1 := none, m_shift := 0,
          m_mask := 0, m_min := 1, m_max := 16, n_shift := 0, n_mask := 0xFFFFFFFF, n_min := 16,
          n_max := 16, bit_idx := 31 } (fun _ => 0xFFFFFFFF) 16 = .ok 0) ∧
    (recalc_rate_reference_mul_div
        { fracdiv_table := none, reg := some 0x91100000, reg_1 := none, m_shift := 0,
          m_mask := 0, m_min := 1, m_max := 1, n_shift := 0, n_mask := 0xFFFFFFFF, n_min := 1,
          n_max := 8, bit_idx := 31 } (fun _ => 0xFFFFFFFF) = some (1, 2 ^ 32) ∧
      16 * 1 / 2 ^ 32 < 2 ^ 64 ∧
      recalc_rate_reference
        { fracdiv_table := none, reg := some 0x91100000, reg_1 := none, m_shift := 0,
          m_mask := 0, m_min := 1, m_max := 1, n_shift := 0, n_mask := 0xFFFFFFFF, n_min := 1,
          n_max := 8, bit_idx := 31 } (fun _ => 0xFFFFFFFF) 16 = 0 ∧
      k230_rate_clk_recalc_rate
        { fracdiv_table := none, reg := some 0x91100000, reg_1 := none, m_shift := 0,
          m_mask := 0, m_min := 1, m_max := 1, n_shift := 0, n_mask := 0xFFFFFFFF, n_min := 1,
          n_max := 8, bit_idx := 31 } (fun _ => 0xFFFFFFFF) 16 = .error .div_by_zero) := by
  decide

/-- Witness of C18: the gate of `sd0_gate_cclk` (register 0x18, bit 15,
normal polarity) on a register holding 0x00200000. -/
theorem gate_single_bit_rmw_witness :
    (k230_gate_clk_enable (cclk_gate 0x91100000 cfg_sd0_gate_cclk) (fun _ => 0x00200000)).1 = 0 ∧
    (readl (k230_gate_clk_enable (cclk_gate 0x91100000 cfg_sd0_gate_cclk)
      (fun _ => 0x00200000)).2 0x91100018).testBit 15 = true ∧
    (readl (k230_gate_clk_disable (cclk_gate 0x91100000 cfg_sd0_gate_cclk)
      (fun _ => 0x00200000)) 0x91100018).testBit 15 = false :=
  have h := gate_single_bit_rmw (cclk_gate 0x91100000 cfg_sd0_gate_cclk) (fun _ => 0x00200000)
    (by decide)
  ⟨h.1, (h.2.2.2.1 (by decide)).1, (h.2.2.2.1 (by decide)).2⟩

/-! ## Composite, rate tables, exact round trip and registration loops -/

/-- C21: the composite built for `sd0_gate_cclk` has only a gate (register
0x18, bit 15, normal polarity); for every prior register content enable
returns 0 and is_enabled is 1 right after it, and recalc_rate(400000000)
returns 400000000. -/
theorem pure_gate_composite (sys_base : Nat) (regs : Regs) :
    k230_register_child_cclk sys_base cfg_sd0_gate_cclk =
      { rate_hw := none
        gate_hw := some { reg := sys_base + 0x18, bit_idx := 15, flags := 0 }
        mux_hw := none } ∧
    (composite_enable (k230_register_child_cclk sys_base cfg_sd0_gate_cclk) regs).1 = 0 ∧
    composite_is_enabled (k230_register_child_cclk sys_base cfg_sd0_gate_cclk)
      (composite_enable (k230_register_child_cclk sys_base cfg_sd0_gate_cclk) regs).2 = 1 ∧
    composite_recalc_rate (k230_register_child_cclk sys_base cfg_sd0_gate_cclk) regs 400000000 =
      .ok 400000000 := by
  have hparts : k230_register_child_cclk sys_base cfg_sd0_gate_cclk =
      { rate_hw := none
        gate_hw := some { reg := sys_base + 0x18, bit_idx := 15, flags := 0 }
        mux_hw := none } := rfl
  rw [hparts]
  refine ⟨rfl, ?_, ?_, rfl⟩
  · simp only [composite_enable]
    rw [gate_enable_normal _ _ (show (15 : Nat) < 32 by decide)
      (show ((0 : Nat) &&& CLK_GATE_SET_TO_DISABLE) = 0 by decide)]
  · simp only [composite_enable, composite_is_enabled]
    rw [gate_enable_normal _ _ (show (15 : Nat) < 32 by decide)
      (show ((0 : Nat) &&& CLK_GATE_SET_TO_DISABLE) = 0 by decide)]
    have hf : ¬ ((0 : Nat) &&& CLK_GATE_SET_TO_DISABLE ≠ 0) := by decide
    simp only [clk_gate_is_enabled, hf, if_false]
    rw [readl_set_bit _ _ _ _ (show (15 : Nat) < 32 by decide)]
    simp

/-- The table scan finds the first row with the requested rate. -/
theorem fracdiv_table_scan_hit (rate : Nat) (real rest : List k230_fracdiv_table)
    (e : k230_fracdiv_table) (mul div : Nat) (hreal : ∀ x ∈ real, x.div ≠ 0)
    (hfind : real.find? (fun x => decide (x.rate = rate)) = some e) :
    fracdiv_table_scan rate (real ++ rest) mul div = .ok (e.mul, e.div) := by
  induction real with
  | nil => simp at hfind
  | cons x xs ih =>
    have hx : x.div ≠ 0 := hreal x (List.mem_cons_self _ _)
    simp only [List.cons_append, fracdiv_table_scan, hx, if_false]
    by_cases hr : x.rate = rate
    · simp only [List.find?, hr, decide_True] at hfind
      cases hfind
      simp [hr]
    · have hr2 : ¬ rate = x.rate := fun h => hr h.symm
      simp only [List.find?, hr, decide_False] at hfind
      simp only [hr2, if_false]
      exact ih (fun y hy => hreal y (List.mem_cons_of_mem _ hy)) hfind

/-- The table scan stops at a sentinel row and leaves the outputs alone when
no row has the requested rate. -/
theorem fracdiv_table_scan_miss (rate : Nat) (real rest : List k230_fracdiv_table)
    (s : k230_fracdiv_table) (mul div : Nat) (hs : s.div = 0)
    (hmiss : ∀ x ∈ real, x.rate ≠ rate) :
    fracdiv_table_scan rate (real ++ s :: rest) mul div = .ok (mul, div) := by
  induction real with
  | nil => simp [fracdiv_table_scan, hs]
  | cons x xs ih =>
    simp only [List.cons_append, fracdiv_table_scan]
    by_cases hx : x.div = 0
    · simp [hx]
    · have hr2 : ¬ rate = x.rate := fun h => hmiss x (List.mem_cons_self _ _) h.symm
      simp only [hx, hr2, if_false]
      exact ih (fun y hy => hmiss y (List.mem_cons_of_mem _ hy))

/-- A table with a sentinel row is never read past its end. -/
theorem fracdiv_table_scan_ok (rate : Nat) (tbl : List k230_fracdiv_table) (mul div : Nat)
    (hs : ∃ s ∈ tbl, s.div = 0) : ∃ r, fracdiv_table_scan rate tbl mul div = .ok r := by
  induction tbl with
  | nil => simp at hs
  | cons x xs ih =>
    simp only [fracdiv_table_scan]
    by_cases hx : x.div = 0
    · exact ⟨(mul, div), by simp [hx]⟩
    · by_cases hr : rate = x.rate
      · exact ⟨(x.mul, x.div), by simp [hx, hr]⟩
      · simp only [hx, hr, if_false]
        obtain ⟨s, hsm, hs0⟩ := hs
        rcases List.mem_cons.mp hsm with h | h
        · exact absurd (h ▸ hs0) hx
        · exact ih ⟨s, h, hs0⟩

/-- C29: on a both-variable node whose table is a run of rows with a non-zero
divisor closed by a sentinel, a rate that some row carries makes
`k230_approximate_clock_rate` return 0 with the mul and div of the first row
with that rate, whatever the parent rate and the ranges are. -/
theorem both_variable_lookup_exact (clk : k230_clk_fracdiv) (real : List k230_fracdiv_table)
    (s e : k230_fracdiv_table) (rate P mul div : Nat)
    (hn : clk.n_min ≠ clk.n_max) (hm : clk.m_min ≠ clk.m_max)
    (htab : clk.fracdiv_table = some (real ++ [s])) (hreal : ∀ x ∈ real, x.div ≠ 0)
    (_hs : s.div = 0) (hfind : real.find? (fun x => decide (x.rate = rate)) = some e) :
    k230_approximate_clock_rate clk rate P mul div = .ok (0, e.mul, e.div) := by
  simp only [k230_approximate_clock_rate, hn, hm, if_false, htab,
    fracdiv_table_scan_hit rate real [s] e mul div hreal hfind]

/-- C25: `codec_fracdiv_table` and `pdm_fracdiv_table` each end with one
sentinel row (div = 0); the rows before it have div and mul non-zero and
strictly ascending rates; the table scan never reads past the end of either
table and finds every real row by its rate. -/
theorem rate_tables_well_formed :
    (∃ s, codec_fracdiv_table.getLast? = some s ∧ s.div = 0) ∧
    (∀ e ∈ codec_fracdiv_table.dropLast, e.div ≠ 0 ∧ e.mul ≠ 0) ∧
    (codec_fracdiv_table.dropLast.map (fun e => e.rate)).Pairwise (fun a b => a < b) ∧
    (∃ s, pdm_fracdiv_table.getLast? = some s ∧ s.div = 0) ∧
    (∀ e ∈ pdm_fracdiv_table.dropLast, e.div ≠ 0 ∧ e.mul ≠ 0) ∧
    (pdm_fracdiv_table.dropLast.map (fun e => e.rate)).Pairwise (fun a b => a < b) ∧
    (∀ rate mul div, ∃ r, fracdiv_table_scan rate codec_fracdiv_table mul div = .ok r) ∧
    (∀ rate mul div, ∃ r, fracdiv_table_scan rate pdm_fracdiv_table mul div = .ok r) ∧
    (∀ e ∈ codec_fracdiv_table.dropLast, ∀ mul div,
      fracdiv_table_scan e.rate codec_fracdiv_table mul div = .ok (e.mul, e.div)) ∧
    (∀ e ∈ pdm_fracdiv_table.dropLast, ∀ mul div,
      fracdiv_table_scan e.rate pdm_fracdiv_table mul div = .ok (e.mul, e.div)) := by
  refine ⟨⟨_, rfl, rfl⟩, by decide, by decide, ⟨_, rfl, rfl⟩, by decide, by decide, ?_, ?_, ?_, ?_⟩
  · intro rate mul div
    exact fracdiv_table_scan_ok rate _ mul div ⟨⟨0, 0, 0⟩, by decide, rfl⟩
  · intro rate mul div
    exact fracdiv_table_scan_ok rate _ mul div ⟨⟨0, 0, 0⟩, by decide, rfl⟩
  · intro e he mul div
    have hsplit : codec_fracdiv_table = codec_fracdiv_table.dropLast ++ [⟨0, 0, 0⟩] := by decide
    have hfind : ∀ x ∈ codec_fracdiv_table.dropLast,
        codec_fracdiv_table.dropLast.find? (fun y => decide (y.rate = x.rate)) = some x := by
      decide
    have h := fracdiv_table_scan_hit e.rate codec_fracdiv_table.dropLast [⟨0, 0, 0⟩] e mul div
      (by decide) (hfind e he)
    rw [← hsplit] at h
    exact h
  · intro e he mul div
    have hsplit : pdm_fracdiv_table = pdm_fracdiv_table.dropLast ++ [⟨0, 0, 0⟩] := by decide
    have hfind : ∀ x ∈ pdm_fracdiv_table.dropLast,
        pdm_fracdiv_table.dropLast.find? (fun y => decide (y.rate = x.rate)) = some x := by
      decide
    have h := fracdiv_table_scan_hit e.rate pdm_fracdiv_table.dropLast [⟨0, 0, 0⟩] e mul div
      (by decide) (hfind e he)
    rw [← hsplit] at h
    exact h

theorem cclk_fracdiv_table_base (sys_base : Nat) (cfg : k230_composite_clk_cfg) :
    (cclk_fracdiv sys_base cfg).fracdiv_table = (cclk_fracdiv 0 cfg).fracdiv_table := by
  unfold cclk_fracdiv k230_register_child_cclk
  cases cfg.is_fracdiv <;> rfl

theorem cclk_fracdiv_ranges (sys_base : Nat) (cfg : k230_composite_clk_cfg)
    (h : cfg.is_fracdiv = true) :
    (cclk_fracdiv sys_base cfg).m_min = cfg.fracdiv_m_min ∧
    (cclk_fracdiv sys_base cfg).m_max = cfg.fracdiv_m_max ∧
    (cclk_fracdiv sys_base cfg).n_min = cfg.fracdiv_n_min ∧
    (cclk_fracdiv sys_base cfg).n_max = cfg.fracdiv_n_max := by
  unfold cclk_fracdiv k230_register_child_cclk
  simp [h]

set_option maxRecDepth 100000 in
theorem configured_tables_at_zero :
    ∀ cfg ∈ k230_cclk_cfgs, cfg.is_fracdiv = true →
      ((cclk_fracdiv 0 cfg).fracdiv_table ≠ none ↔
        (cfg.fracdiv_m_min ≠ cfg.fracdiv_m_max ∧ cfg.fracdiv_n_min ≠ cfg.fracdiv_n_max)) := by
  decide

/-- The approximation returns 0 unless it is the both-variable branch without
a table. -/
theorem approximate_ret (clk : k230_clk_fracdiv) (rate P mul div : Nat) (r : Int × Nat × Nat)
    (h : k230_approximate_clock_rate clk rate P mul div = .ok r) :
    r.1 = 0 ∨ (clk.n_min ≠ clk.n_max ∧ clk.m_min ≠ clk.m_max ∧ clk.fracdiv_table = none) := by
  unfold k230_approximate_clock_rate at h
  by_cases hn : clk.n_min = clk.n_max
  · left
    simp only [hn, if_true] at h
    split_ifs at h
    all_goals first
      | cases h
      | (split at h <;> first | (cases h; rfl) | cases h)
  · by_cases hm : clk.m_min = clk.m_max
    · left
      simp only [hn, hm, if_true, if_false] at h
      split_ifs at h
      all_goals first
        | cases h
        | (split at h <;> first | (cases h; rfl) | cases h)
    · simp only [hn, hm, if_false] at h
      cases htab : clk.fracdiv_table with
      | none => exact Or.inr ⟨hn, hm, rfl⟩
      | some t =>
        left
        rw [htab] at h
        simp only at h
        split at h
        · cases h
        · cases h
          rfl

/-- Reading back a field value that the mask keeps, from a field that lies
within the word and does not hold the write-enable bit. -/
theorem field_readback_mask (old b s M x : Nat) (hx : x &&& M = x) (hword : M <<< s < 2 ^ 32)
    (hwe : (M <<< s).testBit b = false) :
    ((u32 (u32 (old &&& not32 (u32 (M <<< s)) ||| BIT b) ||| u32 ((x &&& M) <<< s))) >>> s) &&&
      M = x := by
  apply Nat.eq_of_testBit_eq
  intro i
  have hxi : x.testBit i = (x.testBit i && M.testBit i) := by
    conv_lhs => rw [← hx]
    rw [Nat.testBit_and]
  rw [hx]
  simp only [Nat.testBit_and, Nat.testBit_shiftRight, testBit_u32, Nat.testBit_or, testBit_not32,
    Nat.testBit_shiftLeft, testBit_BIT]
  by_cases hM : M.testBit i = true
  · have hfield : (M <<< s).testBit (s + i) = true := by
      rw [Nat.testBit_shiftLeft]
      simp [hM]
    have h1 : s + i < 32 := by
      by_contra hge
      have := testBit_of_lt_32 hword hge
      rw [this] at hfield
      exact absurd hfield (by simp)
    have h4 : ¬ (b = s + i) := by
      intro hb
      rw [hb, hfield] at hwe
      exact absurd hwe (by simp)
    have h3 : s + i - s = i := by omega
    simp [h1, h3, h4, hM]
  · have hM' : M.testBit i = false := by simpa using hM
    rw [hxi, hM']
    simp

/-- C28, as the code has it: on a single-register denominator-fixed node
with m_min = m_max = 1, n_min < n_max < 0xFFFFFFFF, a field mask that keeps
every value below n_max, the field within the 32-bit word and the write-enable
bit outside it, for n_min <= k <= n_max with k >= 1, R > 0 and
parent_rate = k * R with parent_rate * 1000 below 2^64: `set_rate` succeeds,
the n-field then holds k - 1, and `recalc_rate` returns R. -/
theorem den_fixed_exact_round_trip (clk : k230_clk_fracdiv) (regs : Regs)
    (R k mul div addr : Nat) (hreg : clk.reg = some addr) (hreg1 : clk.reg_1 = none)
    (hm : clk.m_min = 1) (hm2 : clk.m_max = 1) (hn : clk.n_min < clk.n_max)
    (hbound : clk.n_max < 0xFFFFFFFF)
    (hfit : ∀ x, x < clk.n_max → x &&& clk.n_mask = x)
    (hword : clk.n_mask <<< clk.n_shift < 2 ^ 32)
    (hwe : (clk.n_mask <<< clk.n_shift).testBit clk.bit_idx = false)
    (hk1 : clk.n_min ≤ k) (hk2 : k ≤ clk.n_max) (hkpos : 0 < k) (hR : 0 < R)
    (hov : k * R * 1000 < 2 ^ 64) :
    ∃ regs1, k230_rate_clk_set_rate clk regs R (k * R) mul div = .ok (0, regs1) ∧
      (readl regs1 addr >>> clk.n_shift) &&& clk.n_mask = k - 1 ∧
      k230_rate_clk_recalc_rate clk regs1 (k * R) = .ok R := by
  have hT : k * R * 1000 / R = k * 1000 := by
    rw [show k * R * 1000 = k * 1000 * R by ring]
    exact Nat.mul_div_cancel _ hR
  have hRle : R ≤ k * R := Nat.le_mul_of_pos_left R hkpos
  obtain ⟨d, happ, hd1, hd2, hd3, _⟩ :=
    approximate_clock_rate_den_fixed clk R (k * R) mul div (by rw [hm, hm2]) (by omega) hn hbound
      hR hRle hov (by rw [hT]; omega)
  have hdk : d = k := by
    have h := hd3 k hk1 hk2
    rw [hT, hm2, Nat.div_one, Nat.div_one] at h
    simp only [sub_self, abs_zero] at h
    have h0 : ((k * 1000 : Nat) : Int) - ((d * 1000 : Nat) : Int) = 0 :=
      abs_eq_zero.mp (le_antisymm h (abs_nonneg _))
    have h1 : ((k * 1000 : Nat) : Int) = ((d * 1000 : Nat) : Int) := by omega
    have h2 : k * 1000 = d * 1000 := by exact_mod_cast h1
    omega
  subst hdk
  rw [hm] at happ
  have hcond : ¬ (R > d * R ∨ R = 0 ∨ d * R = 0) := by
    have : 0 < d * R := Nat.mul_pos hkpos hR
    omega
  have hne : clk.n_min ≠ clk.n_max := by omega
  have hmm : clk.m_min = clk.m_max := by rw [hm, hm2]
  have hdec : u32 (d + 2 ^ 32 - 1) = d - 1 := by
    unfold u32
    omega
  have hx : (d - 1) &&& clk.n_mask = d - 1 := hfit (d - 1) (by omega)
  have hback : (readl (writel
        (u32 (readl regs addr &&& not32 (u32 (clk.n_mask <<< clk.n_shift)) |||
            BIT clk.bit_idx) |||
          u32 ((u32 (d + 2 ^ 32 - 1) &&& clk.n_mask) <<< clk.n_shift)) addr regs) addr >>>
        clk.n_shift) &&& clk.n_mask = d - 1 := by
    rw [readl_writel_same, hdec]
    exact field_readback_mask _ _ _ _ _ hx hword hwe
  refine ⟨writel
    (u32 (readl regs addr &&& not32 (u32 (clk.n_mask <<< clk.n_shift)) ||| BIT clk.bit_idx) |||
      u32 ((u32 (d + 2 ^ 32 - 1) &&& clk.n_mask) <<< clk.n_shift)) addr regs, ?_, hback, ?_⟩
  · unfold k230_rate_clk_set_rate
    simp only [hreg, hcond, if_false, happ, ne_eq, not_true_eq_false, hreg1, hne, hmm,
      not_false_eq_true, and_false, if_true]
  · unfold k230_rate_clk_recalc_rate
    simp only [hreg, hne, hmm, if_true, if_false]
    rw [hback]
    have hd1' : d - 1 + 1 = d := by omega
    rw [hd1', u32_of_lt (by omega), if_neg (by omega), ← hmm, hm]
    rw [mult_frac_eq _ _ _ hkpos (by norm_num) (by omega)
      (by rw [Nat.mul_one, Nat.mul_div_cancel_left _ hkpos]; omega)]
    rw [Nat.mul_one, Nat.mul_div_cancel_left _ hkpos]

theorem hws_store_ok (a : clk_hw_onecell_data) (idx : Nat) (name : String)
    (h : idx < a.hws.length) :
    hws_store a idx name = .ok { a with hws := a.hws.set idx (some name) } := by
  simp [hws_store, h]

theorem cclk_flow_succeeds (env : probe_env) (i : Nat) (cfg : k230_composite_clk_cfg)
    (a : clk_hw_onecell_data) (hs : cclk_registration_succeeds env i cfg)
    (h : cfg.onecell_idx < a.hws.length) :
    k230_register_child_cclk_flow env i cfg a =
      .ok (0, { a with hws := a.hws.set cfg.onecell_idx (some cfg.name) }) := by
  obtain ⟨h1, h2, h3, h4⟩ := hs
  simp only [k230_register_child_cclk_flow, h1, h2, h3, h4, if_false, ne_eq, not_true_eq_false,
    hws_store_ok a _ _ h]

theorem cclk_flow_fails (env : probe_env) (i : Nat) (cfg : k230_composite_clk_cfg)
    (a : clk_hw_onecell_data) (hs : ¬ cclk_registration_succeeds env i cfg) :
    ∃ err, k230_register_child_cclk_flow env i cfg a = .ok (err, a) := by
  unfold k230_register_child_cclk_flow
  by_cases h1 : cfg.is_fracdiv = true ∧ env.fracdiv_alloc i = false
  · exact ⟨_, by rw [if_pos h1]⟩
  · by_cases h2 : cfg.is_gate = true ∧ env.gate_alloc i = false
    · exact ⟨_, by rw [if_neg h1, if_pos h2]⟩
    · by_cases h3 : cfg.is_mux = true ∧ env.mux_alloc i = false
      · exact ⟨_, by rw [if_neg h1, if_neg h2, if_pos h3]⟩
      · have h4 : env.composite_register i ≠ 0 := fun h => hs ⟨h1, h2, h3, h⟩
        exact ⟨env.composite_register i, by simp only [if_neg h1, if_neg h2, if_neg h3, h4,
          ne_eq, not_false_eq_true, if_true]⟩

/-- The composite loop stores exactly the entries whose own registration
succeeds and touches no other slot. -/
theorem cclk_loop_spec (env : probe_env) :
    ∀ (cs : List k230_composite_clk_cfg) (i : Nat) (a : clk_hw_onecell_data),
      (∀ c ∈ cs, c.onecell_idx < a.hws.length) → (cs.map (fun c => c.onecell_idx)).Nodup →
      ∃ a1, k230_register_all_child_cclks_from env i cs a = .ok a1 ∧ a1.num = a.num ∧
        a1.hws.length = a.hws.length ∧
        (∀ j, j ∉ cs.map (fun c => c.onecell_idx) → a1.hws[j]? = a.hws[j]?) ∧
        (∀ p c, cs[p]? = some c →
          a1.hws[c.onecell_idx]? =
            if cclk_registration_succeeds env (i + p) c then some (some c.name)
            else a.hws[c.onecell_idx]?) := by
  intro cs
  induction cs with
  | nil =>
    intro i a _ _
    exact ⟨a, rfl, rfl, rfl, fun _ _ => rfl, fun p c h => by simp at h⟩
  | cons c cs ih =>
    intro i a hb hnd
    have hc : c.onecell_idx < a.hws.length := hb c (List.mem_cons_self _ _)
    rw [List.map_cons, List.nodup_cons] at hnd
    obtain ⟨hcn, hnd2⟩ := hnd
    -- the registry after the first pass
    have hstep : ∃ err a0, k230_register_child_cclk_flow env i c a = .ok (err, a0) ∧
        a0.num = a.num ∧ a0.hws.length = a.hws.length ∧
        (∀ j, j ≠ c.onecell_idx → a0.hws[j]? = a.hws[j]?) ∧
        a0.hws[c.onecell_idx]? =
          if cclk_registration_succeeds env i c then some (some c.name)
          else a.hws[c.onecell_idx]? := by
      by_cases hs : cclk_registration_succeeds env i c
      · refine ⟨0, _, cclk_flow_succeeds env i c a hs hc, rfl, by simp, ?_, ?_⟩
        · intro j hj
          simp only
          rw [List.getElem?_set_ne (fun h => hj h.symm)]
        · simp only [hs, if_true]
          rw [List.getElem?_set_self hc]
      · obtain ⟨err, he⟩ := cclk_flow_fails env i c a hs
        exact ⟨err, a, he, rfl, rfl, fun _ _ => rfl, by simp [hs]⟩
    obtain ⟨err, a0, hflow, hnum0, hlen0, hother0, hself0⟩ := hstep
    obtain ⟨a1, hloop, hnum1, hlen1, hother1, hpos1⟩ :=
      ih (i + 1) a0 (fun x hx => by rw [hlen0]; exact hb x (List.mem_cons_of_mem _ hx)) hnd2
    refine ⟨a1, ?_, by rw [hnum1, hnum0], by rw [hlen1, hlen0], ?_, ?_⟩
    · simp only [k230_register_all_child_cclks_from, hflow, hloop]
    · intro j hj
      rw [List.map_cons, List.mem_cons, not_or] at hj
      rw [hother1 j hj.2, hother0 j hj.1]
    · intro p x hx
      cases p with
      | zero =>
        simp only [List.getElem?_cons_zero, Option.some.injEq] at hx
        subst hx
        rw [hother1 _ hcn, hself0]
        rfl
      | succ p =>
        simp only [List.getElem?_cons_succ] at hx
        have hxm : x ∈ cs := List.getElem?_mem hx
        have hne : x.onecell_idx ≠ c.onecell_idx := by
          intro h
          exact hcn (h ▸ List.mem_map_of_mem (fun c => c.onecell_idx) hxm)
        rw [hpos1 p x hx, hother0 _ hne]
        have : i + 1 + p = i + (p + 1) := by omega
        rw [this]

/-- A loop that stops at the first error returns a result when each pass does
and keeps the registry size. -/
theorem register_all_from_ok {α : Type}
    (step : Nat → α → clk_hw_onecell_data → Except Fault (Int × clk_hw_onecell_data)) (n : Nat) :
    ∀ (cs : List α),
      (∀ i c a, c ∈ cs → a.hws.length = n →
        ∃ err a1, step i c a = .ok (err, a1) ∧ a1.hws.length = n) →
      ∀ i a, a.hws.length = n →
        ∃ err a1, register_all_from step i cs a = .ok (err, a1) ∧ a1.hws.length = n := by
  intro cs
  induction cs with
  | nil =>
    intro _ i a ha
    exact ⟨0, a, rfl, ha⟩
  | cons c cs ih =>
    intro hstep i a ha
    obtain ⟨err, a1, h1, hl1⟩ := hstep i c a (List.mem_cons_self _ _) ha
    by_cases he : err = 0
    · obtain ⟨err2, a2, h2, hl2⟩ :=
        ih (fun i c a hc ha => hstep i c a (List.mem_cons_of_mem _ hc) ha) (i + 1) a1 hl1
      exact ⟨err2, a2, by simp only [register_all_from, h1, he, ne_eq, not_true_eq_false,
        if_false, h2], hl2⟩
    · exact ⟨err, a1, by simp only [register_all_from, h1, he, ne_eq, not_false_eq_true,
        if_true], hl1⟩

set_option maxRecDepth 1000000 in
/-- With every kernel call succeeding, probe returns 0 and leaves the registry
holding the PLL, fixed-factor and composite nodes. -/
theorem probe_ok_registry (sys_base pll_base : Nat) :
    k230_clk_probe (probe_env_ok sys_base pll_base) = .ok (0, some registry_pll_ff_cclk) := by
  rfl

set_option maxRecDepth 1000000 in
theorem registry_pll_ff_cclk_slots :
    node_by_index registry_pll_ff_cclk K230_TIMERX_PULSE_IN = none ∧
    node_by_index registry_pll_ff_cclk K230_SYSCTL_PCLK = none ∧
    (∀ i < 147, 2 ≤ i → node_by_index registry_pll_ff_cclk i ≠ none) := by
  decide

/-- C22: after a probe in which every kernel call succeeds, probe returns 0
and the registry holds a handle at every ordinal from 2 to 146, but the slots
of the two oscillators (ordinals 0 and 1) are Absent: the oscillator loop
registers them and never stores their handles. -/
theorem registry_oscillator_slots_absent (sys_base pll_base : Nat) :
    ∃ R, k230_clk_probe (probe_env_ok sys_base pll_base) = .ok (0, some R) ∧
      node_by_index R K230_TIMERX_PULSE_IN = none ∧
      node_by_index R K230_SYSCTL_PCLK = none ∧
      (∀ i < 147, 2 ≤ i → node_by_index R i ≠ none) :=
  ⟨registry_pll_ff_cclk, probe_ok_registry sys_base pll_base, registry_pll_ff_cclk_slots⟩

set_option maxRecDepth 1000000 in
theorem onecell_idx_facts :
    k230_all_onecell_idx.Nodup ∧ (∀ i < 147, i ∈ k230_all_onecell_idx) ∧
    (∀ i ∈ k230_all_onecell_idx, i < 147) ∧
    k230_osc_cfgs.length = 2 ∧ k230_pll_cfgs.length = 4 ∧ k230_pll_child_cfgs.length = 14 ∧
    k230_cclk_cfgs.length = 127 ∧
    (∀ c ∈ k230_pll_cfgs, c.onecell_idx < 147) ∧
    (∀ c ∈ k230_pll_child_cfgs, c.onecell_idx < 147) ∧
    (∀ c ∈ k230_cclk_cfgs, c.onecell_idx < 147) ∧
    (k230_cclk_cfgs.map (fun c => c.onecell_idx)).Nodup := by
  decide

theorem osc_loop_ok (env : probe_env) (a : clk_hw_onecell_data) (ha : a.hws.length = 147) :
    ∃ err a1, k230_register_all_internal_osc_clks env a = .ok (err, a1) ∧
      a1.hws.length = 147 := by
  apply register_all_from_ok _ 147 _ _ 0 a ha
  intro i c a _ ha
  exact ⟨_, _, rfl, ha⟩

theorem pll_loop_ok (env : probe_env) (a : clk_hw_onecell_data) (ha : a.hws.length = 147) :
    ∃ err a1, k230_register_all_pll_clk env a = .ok (err, a1) ∧ a1.hws.length = 147 := by
  apply register_all_from_ok _ 147 _ _ 0 a ha
  intro i c a hc ha
  have hb : c.onecell_idx < a.hws.length := by
    rw [ha]; exact onecell_idx_facts.2.2.2.2.2.2.2.1 c hc
  unfold k230_register_pll_clk
  by_cases h1 : env.pll_alloc i = false
  · exact ⟨-ENOMEM, a, by rw [if_pos h1], ha⟩
  · by_cases h2 : env.pll_register i ≠ 0
    · exact ⟨env.pll_register i, a, by simp only [if_neg h1, if_pos h2], ha⟩
    · exact ⟨0, { a with hws := a.hws.set c.onecell_idx (some c.name) },
        by simp only [if_neg h1, if_neg h2, hws_store_ok a _ _ hb],
        by rw [List.length_set]; exact ha⟩

theorem fixedfactor_loop_ok (env : probe_env) (a : clk_hw_onecell_data)
    (ha : a.hws.length = 147) :
    ∃ err a1, k230_register_all_fixedfactor_clks env a = .ok (err, a1) ∧
      a1.hws.length = 147 := by
  apply register_all_from_ok _ 147 _ _ 0 a ha
  intro i c a hc ha
  have hb : c.onecell_idx < a.hws.length := by
    rw [ha]; exact onecell_idx_facts.2.2.2.2.2.2.2.2.1 c hc
  unfold k230_register_fixedfactor_clk
  by_cases h2 : env.fixedfactor_register i ≠ 0
  · exact ⟨env.fixedfactor_register i, a, by simp only [if_pos h2], ha⟩
  · exact ⟨0, { a with hws := a.hws.set c.onecell_idx (some c.name) },
      by simp only [if_neg h2, hws_store_ok a _ _ hb], by rw [List.length_set]; exact ha⟩

theorem cclk_loop_ok (env : probe_env) (a : clk_hw_onecell_data) (ha : a.hws.length = 147) :
    ∃ a1, k230_register_all_child_cclks env a = .ok a1 := by
  obtain ⟨a1, h, _⟩ := cclk_loop_spec env k230_cclk_cfgs 0 a
    (fun c hc => by rw [ha]; exact onecell_idx_facts.2.2.2.2.2.2.2.2.2.1 c hc)
    onecell_idx_facts.2.2.2.2.2.2.2.2.2.2
  exact ⟨a1, h⟩

theorem k230_clk_count :
    k230_osc_cfgs.length + k230_pll_cfgs.length + k230_pll_child_cfgs.length +
      k230_cclk_cfgs.length = 147 := by
  obtain ⟨_, _, _, h4, h5, h6, h7, _⟩ := onecell_idx_facts
  rw [h4, h5, h6, h7]

theorem probe_never_faults (env : probe_env) : ∃ r, k230_clk_probe env = .ok r := by
  unfold k230_clk_probe
  simp only [k230_clk_count]
  split
  · exact ⟨_, rfl⟩
  · split
    · exact ⟨_, rfl⟩
    · split
      · exact ⟨_, rfl⟩
      · obtain ⟨e1, a1, h1, l1⟩ := osc_loop_ok env { num := 147, hws := List.replicate 147 none }
          (by simp)
        rw [h1]
        dsimp only
        split
        · exact ⟨_, rfl⟩
        · obtain ⟨e2, a2, h2, l2⟩ := pll_loop_ok env a1 l1
          rw [h2]
          dsimp only
          split
          · exact ⟨_, rfl⟩
          · obtain ⟨e3, a3, h3, l3⟩ := fixedfactor_loop_ok env a2 l2
            rw [h3]
            dsimp only
            split
            · exact ⟨_, rfl⟩
            · obtain ⟨a4, h4⟩ := cclk_loop_ok env a3 l3
              rw [h4]
              dsimp only
              split
              · exact ⟨_, rfl⟩
              · exact ⟨_, rfl⟩

/-- C23: the onecell indices of the four configuration tables are pairwise
distinct and are exactly the numbers below 147 = 2 + 4 + 14 + 127, the sum of
the table lengths that sizes the registry; and probe, whatever its kernel
calls return, never stores outside the registry array. -/
theorem registry_ordinals_dense :
    k230_all_onecell_idx.Nodup ∧
    (∀ i, i ∈ k230_all_onecell_idx ↔ i < 147) ∧
    k230_osc_cfgs.length + k230_pll_cfgs.length + k230_pll_child_cfgs.length +
      k230_cclk_cfgs.length = 147 ∧
    k230_osc_cfgs.length = 2 ∧ k230_pll_cfgs.length = 4 ∧ k230_pll_child_cfgs.length = 14 ∧
    k230_cclk_cfgs.length = 127 ∧
    (∀ env, ∃ r, k230_clk_probe env = .ok r) := by
  obtain ⟨h1, h2, h3, h4, h5, h6, h7, _⟩ := onecell_idx_facts
  exact ⟨h1, fun i => ⟨h3 i, h2 i⟩, k230_clk_count, h4, h5, h6, h7, probe_never_faults⟩

/-- Under the discipline, the releases make up for the acquires and for the
lock held at the start. -/
theorem lock_discipline_from_balanced (l : spinlock) :
    ∀ (es : List Event) (held : Bool), lock_discipline_from l held es = true →
      releases es = acquires es + (if held then 1 else 0) := by
  intro es
  induction es with
  | nil =>
    intro held h
    cases held
    · rfl
    · simp [lock_discipline_from] at h
  | cons e es ih =>
    intro held h
    cases e with
    | spin_lock_irqsave l2 =>
      simp only [lock_discipline_from, Bool.and_eq_true, decide_eq_true_eq,
        Bool.not_eq_true_eq_eq_false] at h
      obtain ⟨⟨_, hh⟩, h3⟩ := h
      have := ih true h3
      simp only [releases, acquires, List.filter_cons, if_true] at this ⊢
      subst hh
      simp only [List.length_cons, Bool.false_eq_true, if_false] at this ⊢
      omega
    | spin_unlock_irqrestore l2 =>
      simp only [lock_discipline_from, Bool.and_eq_true, decide_eq_true_eq] at h
      obtain ⟨⟨_, hh⟩, h3⟩ := h
      have := ih false h3
      simp only [releases, acquires, List.filter_cons, if_true] at this ⊢
      subst hh
      simp only [List.length_cons, Bool.false_eq_true, if_false, if_true] at this ⊢
      omega
    | readl a =>
      simp only [lock_discipline_from, Bool.and_eq_true] at h
      have := ih held h.2
      simp only [releases, acquires, List.filter_cons] at this ⊢
      simpa using this
    | writel a =>
      simp only [lock_discipline_from, Bool.and_eq_true] at h
      have := ih held h.2
      simp only [releases, acquires, List.filter_cons] at this ⊢
      simpa using this

theorem lock_discipline_balanced (l : spinlock) (es : List Event)
    (h : lock_discipline l es = true) : acquires es = releases es := by
  have := lock_discipline_from_balanced l es false h
  simpa using this.symm

theorem lock_discipline_rmw (l : spinlock) (a b : Nat) :
    lock_discipline l [.spin_lock_irqsave l, .readl a, .writel b, .spin_unlock_irqrestore l]
      = true := by
  simp [lock_discipline, lock_discipline_from]

theorem lock_discipline_read (l : spinlock) (a : Nat) :
    lock_discipline l [.spin_lock_irqsave l, .readl a, .spin_unlock_irqrestore l] = true := by
  simp [lock_discipline, lock_discipline_from]

theorem lock_discipline_write (l : spinlock) (a : Nat) :
    lock_discipline l [.spin_lock_irqsave l, .writel a, .spin_unlock_irqrestore l] = true := by
  simp [lock_discipline, lock_discipline_from]

theorem lock_discipline_read2 (l : spinlock) (a b : Nat) :
    lock_discipline l [.spin_lock_irqsave l, .readl a, .readl b, .spin_unlock_irqrestore l]
      = true := by
  simp [lock_discipline, lock_discipline_from]

theorem lock_discipline_rmw2 (l : spinlock) (a b : Nat) :
    lock_discipline l [.spin_lock_irqsave l, .readl a, .readl b, .writel a, .writel b,
      .spin_unlock_irqrestore l] = true := by
  simp [lock_discipline, lock_discipline_from]

theorem pll_recalc_rate_events_discipline (l : spinlock) (pll : k230_pll_clk) (regs : Regs) :
    lock_discipline l (k230_pll_clk_recalc_rate_events l pll regs) = true := by
  unfold k230_pll_clk_recalc_rate_events
  dsimp only
  split
  · simp [lock_discipline, lock_discipline_from]
  · split <;> simp [lock_discipline, lock_discipline_from]

theorem set_rate_events_discipline (l : spinlock) (clk : k230_clk_fracdiv)
    (rate parent_rate mul div : Nat) :
    lock_discipline l (k230_rate_clk_set_rate_events l clk rate parent_rate mul div) = true := by
  unfold k230_rate_clk_set_rate_events
  split
  · rfl
  · split
    · rfl
    · split
      · rfl
      · split
        · rfl
        · split
          · exact lock_discipline_rmw l _ _
          · exact lock_discipline_rmw2 l _ _

theorem recalc_rate_events_discipline (l : spinlock) (clk : k230_clk_fracdiv) :
    lock_discipline l (k230_rate_clk_recalc_rate_events l clk) = true := by
  unfold k230_rate_clk_recalc_rate_events
  split
  · rfl
  · split
    · exact lock_discipline_read l _
    · split
      · exact lock_discipline_read l _
      · split
        · exact lock_discipline_read l _
        · exact lock_discipline_read2 l _ _

/-- An early failure of `set_rate` leaves no event. -/
theorem set_rate_failure_no_event (l : spinlock) (clk : k230_clk_fracdiv) (regs regs1 : Regs)
    (rate parent_rate mul div : Nat) (err : Int) (herr : err ≠ 0)
    (h : k230_rate_clk_set_rate clk regs rate parent_rate mul div = .ok (err, regs1)) :
    k230_rate_clk_set_rate_events l clk rate parent_rate mul div = [] := by
  unfold k230_rate_clk_set_rate at h
  unfold k230_rate_clk_set_rate_events
  cases hr : clk.reg with
  | none => rfl
  | some addr =>
    rw [hr] at h
    dsimp only at h ⊢
    by_cases hc : rate > parent_rate ∨ rate = 0 ∨ parent_rate = 0
    · rw [if_pos hc]
    · rw [if_neg hc] at h ⊢
      cases ha : k230_approximate_clock_rate clk rate parent_rate mul div with
      | error e => rfl
      | ok r =>
        obtain ⟨e, m, d⟩ := r
        rw [ha] at h
        dsimp only at h ⊢
        by_cases he : e ≠ 0
        · rw [if_pos he]
        · rw [if_neg he] at h
          exfalso
          cases h1 : clk.reg_1 with
          | none =>
            rw [h1] at h
            simp only [Except.ok.injEq, Prod.mk.injEq] at h
            exact herr h.1.symm
          | some a1 =>
            rw [h1] at h
            simp only [Except.ok.injEq, Prod.mk.injEq] at h
            exact herr h.1.symm

/-- C27: the events of every node operation (PLL is_enabled, enable, disable
and recalc_rate on each of its three exits; divider set_rate and recalc_rate;
gate enable and disable; mux get_parent and set_parent) keep the discipline of
the node lock `l`: every register read and write lies between an acquire and
the following release, the lock is never acquired while held, never released
while free, and is free at the end; an early failure of set_rate has no event
at all; and a disciplined run has as many acquires as releases. -/
theorem node_operations_lock_discipline (l : spinlock) :
    (∀ pll, lock_discipline l (k230_pll_clk_is_enabled_events l pll) = true) ∧
    (∀ pll, lock_discipline l (k230_pll_clk_enable_events l pll) = true) ∧
    (∀ pll, lock_discipline l (k230_pll_clk_disable_events l pll) = true) ∧
    (∀ pll regs, lock_discipline l (k230_pll_clk_recalc_rate_events l pll regs) = true) ∧
    (∀ clk rate parent_rate mul div,
      lock_discipline l (k230_rate_clk_set_rate_events l clk rate parent_rate mul div) = true) ∧
    (∀ clk regs regs1 rate parent_rate mul div err, err ≠ 0 →
      k230_rate_clk_set_rate clk regs rate parent_rate mul div = .ok (err, regs1) →
      k230_rate_clk_set_rate_events l clk rate parent_rate mul div = []) ∧
    (∀ clk, lock_discipline l (k230_rate_clk_recalc_rate_events l clk) = true) ∧
    (∀ gate, lock_discipline l (k230_gate_clk_enable_events l gate) = true) ∧
    (∀ gate, lock_discipline l (k230_gate_clk_disable_events l gate) = true) ∧
    (∀ mux, lock_discipline l (k230_mux_clk_get_parent_events l mux) = true) ∧
    (∀ mux, lock_discipline l (k230_mux_clk_set_parent_events l mux) = true) ∧
    (∀ es, lock_discipline l es = true → acquires es = releases es) :=
  ⟨fun _ => lock_discipline_read l _, fun _ => lock_discipline_rmw l _ _,
    fun _ => lock_discipline_rmw l _ _, pll_recalc_rate_events_discipline l,
    set_rate_events_discipline l,
    fun clk regs regs1 rate parent_rate mul div err herr h =>
      set_rate_failure_no_event l clk regs regs1 rate parent_rate mul div err herr h,
    recalc_rate_events_discipline l,
    fun _ => lock_discipline_rmw l _ _, fun _ => lock_discipline_rmw l _ _,
    fun _ => lock_discipline_read l _, fun _ => lock_discipline_write l _,
    lock_discipline_balanced l⟩

/-- C28 does not hold as worded. Each node below is denominator-fixed with
m_min = m_max = 1, n_min < n_max, n_max - 1 <= n_mask and the write-enable
bit outside the n-field, parent_rate = k * R with n_min <= k <= n_max, R > 0:
with n_min = 0 and k = 0 `set_rate` returns -EINVAL (parent_rate is 0); with
n_mask = 8 and k = 4 the field is left 0 and `recalc_rate` returns 4 * R; with
the 3-bit field at shift 30 and k = 8 the field reads back 3 and `recalc_rate`
returns 2 * R; with a second register the field holds k, not k - 1, and
`recalc_rate` returns 80 for R = 100; without a register `set_rate` returns
-EINVAL; with n_max = 0xFFFFFFFF the search loop has no exit. -/
theorem den_fixed_round_trip_fails :
    -- k = 0 on a node with n_min = 0
    (k230_rate_clk_set_rate
        { fracdiv_table := none, reg := some 0, reg_1 := none, m_shift := 0, m_mask := 0,
          m_min := 1, m_max := 1, n_shift := 0, n_mask := 7, n_min := 0, n_max := 8,
          bit_idx := 31 } (fun _ => 0) 5 (0 * 5) 0 0).map (fun r => (r.1, r.2 0)) =
      .ok (-EINVAL, 0) ∧
    -- a mask with a hole: n_max - 1 = 7 ≤ n_mask = 8
    (∃ regs1, k230_rate_clk_set_rate
        { fracdiv_table := none, reg := some 0, reg_1 := none, m_shift := 0, m_mask := 0,
          m_min := 1, m_max := 1, n_shift := 0, n_mask := 8, n_min := 1, n_max := 8,
          bit_idx := 31 } (fun _ => 0) 100 (4 * 100) 0 0 = .ok (0, regs1) ∧
      (readl regs1 0 >>> 0) &&& 8 = 0 ∧
      k230_rate_clk_recalc_rate
        { fracdiv_table := none, reg := some 0, reg_1 := none, m_shift := 0, m_mask := 0,
          m_min := 1, m_max := 1, n_shift := 0, n_mask := 8, n_min := 1, n_max := 8,
          bit_idx := 31 } regs1 (4 * 100) = .ok 400) ∧
    -- a field that leaves the 32-bit word
    (∃ regs1, k230_rate_clk_set_rate
        { fracdiv_table := none, reg := some 0, reg_1 := none, m_shift := 0, m_mask := 0,
          m_min := 1, m_max := 1, n_shift := 30, n_mask := 7, n_min := 1, n_max := 8,
          bit_idx := 0 } (fun _ => 0) 100 (8 * 100) 0 0 = .ok (0, regs1) ∧
      (readl regs1 0 >>> 30) &&& 7 = 3 ∧
      k230_rate_clk_recalc_rate
        { fracdiv_table := none, reg := some 0, reg_1 := none, m_shift := 0, m_mask := 0,
          m_min := 1, m_max := 1, n_shift := 30, n_mask := 7, n_min := 1, n_max := 8,
          bit_idx := 0 } regs1 (8 * 100) = .ok 200) ∧
    -- a second register
    (∃ regs1, k230_rate_clk_set_rate
        { fracdiv_table := none, reg := some 0, reg_1 := some 4, m_shift := 0, m_mask := 0,
          m_min := 1, m_max := 1, n_shift := 0, n_mask := 7, n_min := 1, n_max := 8,
          bit_idx := 31 } (fun _ => 0) 100 (4 * 100) 0 0 = .ok (0, regs1) ∧
      (readl regs1 0 >>> 0) &&& 7 = 4 ∧
      k230_rate_clk_recalc_rate
        { fracdiv_table := none, reg := some 0, reg_1 := some 4, m_shift := 0, m_mask := 0,
          m_min := 1, m_max := 1, n_shift := 0, n_mask := 7, n_min := 1, n_max := 8,
          bit_idx := 31 } regs1 (4 * 100) = .ok 80) ∧
    -- no register
    (k230_rate_clk_set_rate
        { fracdiv_table := none, reg := none, reg_1 := none, m_shift := 0, m_mask := 0,
          m_min := 1, m_max := 1, n_shift := 0, n_mask := 7, n_min := 1, n_max := 8,
          bit_idx := 31 } (fun _ => 0) 100 (4 * 100) 0 0).map (fun r => (r.1, r.2 0)) =
      .ok (-EINVAL, 0) ∧
    -- the loop bound 0xFFFFFFFF
    (k230_rate_clk_set_rate
        { fracdiv_table := none, reg := some 0, reg_1 := none, m_shift := 0, m_mask := 0,
          m_min := 1, m_max := 1, n_shift := 0, n_mask := 0xFFFFFFFF, n_min := 1,
          n_max := 0xFFFFFFFF, bit_idx := 40 } (fun _ => 0) 100 (4 * 100) 0 0).map
        (fun r => (r.1, r.2 0)) = .error .loop_diverges :=
  ⟨by decide, ⟨_, rfl, by decide, by decide⟩, ⟨_, rfl, by decide, by decide⟩,
    ⟨_, rfl, by decide, by decide⟩, by decide, by decide⟩

/-- Instance of the exact round trip: sd_src_cclk (n in [2, 8], field 0x7 at
bit 12 of register 0x1C) with k = 4 and R = 100 MHz. -/
theorem den_fixed_exact_round_trip_witness :
    ∃ regs1, k230_rate_clk_set_rate (cclk_fracdiv 0x91100000 cfg_sd_src_cclk) (fun _ => 0)
        100000000 (4 * 100000000) 0 0 = .ok (0, regs1) ∧
      (readl regs1 0x9110001C >>> 12) &&& 0x7 = 4 - 1 ∧
      k230_rate_clk_recalc_rate (cclk_fracdiv 0x91100000 cfg_sd_src_cclk) regs1
        (4 * 100000000) = .ok 100000000 :=
  den_fixed_exact_round_trip (cclk_fracdiv 0x91100000 cfg_sd_src_cclk) (fun _ => 0)
    100000000 4 0 0 0x9110001C rfl rfl rfl rfl (by decide) (by decide) (by decide) (by decide)
    (by decide) (by decide) (by decide) (by decide) (by decide) (by decide)

/-- Instance of the table lookup: codec_adc_mclk at 2048000 Hz gets mul 16
and div 3125, the first row of `codec_fracdiv_table`. -/
theorem both_variable_lookup_exact_witness :
    k230_approximate_clock_rate (cclk_fracdiv 0x91100000 cfg_codec_adc_mclk) 2048000 400000000
      0 0 = .ok (0, 16, 3125) :=
  both_variable_lookup_exact (cclk_fracdiv 0x91100000 cfg_codec_adc_mclk)
    codec_fracdiv_table.dropLast { rate := 0, mul := 0, div := 0 }
    { rate := 2048000, mul := 16, div := 3125 } 2048000 400000000 0 0
    (by decide) (by decide) rfl (by decide) rfl rfl

/-! ## Configuration table against the divider operations -/

/-- C35, the code at a failing input: the row (1441200, 441, 125000) of
`pdm_fracdiv_table` does not satisfy rate * div = 400000000 * mul; its mul and
div give 1411200, a rate no row has, and the cross-multiplied equality fails
against the first row. On pdm_clk `set_rate(1441200)` from 400 MHz succeeds and
`recalc_rate` then returns 1411200. Every other row of the two tables
satisfies rate * div = 400000000 * mul. -/
theorem pdm_table_row_rate_mismatch :
    ({ rate := 1441200, mul := 441, div := 125000 } : k230_fracdiv_table) ∈ pdm_fracdiv_table ∧
    1441200 * 125000 ≠ 400000000 * 441 ∧
    400000000 * 441 / 125000 = 1411200 ∧
    (∀ e ∈ pdm_fracdiv_table, e.rate ≠ 1411200) ∧
    (∃ a ∈ pdm_fracdiv_table.dropLast, ∃ b ∈ pdm_fracdiv_table.dropLast,
      a.rate * a.div * b.mul ≠ b.rate * b.div * a.mul) ∧
    (∃ regs1, k230_rate_clk_set_rate (cclk_fracdiv 0x91100000 cfg_pdm_clk) (fun _ => 0)
        1441200 400000000 0 0 = .ok (0, regs1) ∧
      k230_rate_clk_recalc_rate (cclk_fracdiv 0x91100000 cfg_pdm_clk) regs1 400000000 =
        .ok 1411200) ∧
    (∀ e ∈ pdm_fracdiv_table.dropLast, e.rate ≠ 1441200 → e.rate * e.div = 400000000 * e.mul) ∧
    (∀ e ∈ codec_fracdiv_table.dropLast, e.rate * e.div = 400000000 * e.mul) :=
  ⟨by decide, by decide, by decide, by decide,
    ⟨⟨128000, 1, 3125⟩, by decide, ⟨1441200, 441, 125000⟩, by decide, by decide⟩,
    ⟨_, rfl, by decide⟩, by decide, by decide⟩

set_option maxRecDepth 100000 in
/-- C31, the code at a failing input: pdm_clk has m_min = 2 and is given
`pdm_fracdiv_table`, whose row (128000, 1, 3125) has mul = 1; `set_rate(128000)`
from 400 MHz succeeds and stores mul 1 and div 3125. audio_dev_clk
(m_min = 4, n_max = 62500) is given the same table and five rows are outside
its ranges. The rows of `codec_fracdiv_table` are within the ranges of
codec_adc_mclk and codec_dac_mclk. -/
theorem table_rows_outside_node_ranges :
    (cclk_fracdiv 0x91100000 cfg_pdm_clk).fracdiv_table = some pdm_fracdiv_table ∧
    (cclk_fracdiv 0x91100000 cfg_pdm_clk).m_min = 2 ∧
    ({ rate := 128000, mul := 1, div := 3125 } : k230_fracdiv_table) ∈ pdm_fracdiv_table ∧
    (∃ regs1, k230_rate_clk_set_rate (cclk_fracdiv 0x91100000 cfg_pdm_clk) (fun _ => 0)
        128000 400000000 0 0 = .ok (0, regs1) ∧
      (readl regs1 0x91100044 >>> 0) &&& 0xFFFF = 1 ∧
      (readl regs1 0x91100040 >>> 0) &&& 0x1FFFF = 3125) ∧
    (cclk_fracdiv 0x91100000 cfg_audio_dev_clk).fracdiv_table = some pdm_fracdiv_table ∧
    (cclk_fracdiv 0x91100000 cfg_audio_dev_clk).m_min = 4 ∧
    (cclk_fracdiv 0x91100000 cfg_audio_dev_clk).n_max = 62500 ∧
    (pdm_fracdiv_table.dropLast.filter fun e =>
        ¬ ((cclk_fracdiv 0x91100000 cfg_audio_dev_clk).m_min ≤ e.mul ∧
          e.mul ≤ (cclk_fracdiv 0x91100000 cfg_audio_dev_clk).m_max ∧
          (cclk_fracdiv 0x91100000 cfg_audio_dev_clk).n_min ≤ e.div ∧
          e.div ≤ (cclk_fracdiv 0x91100000 cfg_audio_dev_clk).n_max)) =
      [⟨128000, 1, 3125⟩, ⟨192000, 3, 6250⟩, ⟨256000, 2, 3125⟩, ⟨384000, 3, 3125⟩,
        ⟨1441200, 441, 125000⟩] ∧
    (pdm_fracdiv_table.dropLast.filter fun e =>
        ¬ ((cclk_fracdiv 0x91100000 cfg_pdm_clk).m_min ≤ e.mul ∧
          e.mul ≤ (cclk_fracdiv 0x91100000 cfg_pdm_clk).m_max ∧
          (cclk_fracdiv 0x91100000 cfg_pdm_clk).n_min ≤ e.div ∧
          e.div ≤ (cclk_fracdiv 0x91100000 cfg_pdm_clk).n_max)) = [⟨128000, 1, 3125⟩] ∧
    (∀ cfg ∈ [cfg_codec_adc_mclk, cfg_codec_dac_mclk],
      (cclk_fracdiv 0x91100000 cfg).fracdiv_table = some codec_fracdiv_table ∧
      ∀ e ∈ codec_fracdiv_table.dropLast,
        (cclk_fracdiv 0x91100000 cfg).m_min ≤ e.mul ∧ e.mul ≤ (cclk_fracdiv 0x91100000 cfg).m_max ∧
        (cclk_fracdiv 0x91100000 cfg).n_min ≤ e.div ∧
        e.div ≤ (cclk_fracdiv 0x91100000 cfg).n_max) :=
  ⟨rfl, rfl, by decide, ⟨_, rfl, by decide, by decide⟩, rfl, rfl, rfl, by decide, by decide,
    by decide⟩

theorem u64_le (x : Nat) : u64 x ≤ x := Nat.mod_le _ _

/-- With a multiplier that does not exceed the divisor, `mult_frac` does not
exceed its first argument. -/
theorem mult_frac_le (x n d : Nat) (hd : 0 < d) (hn : n ≤ d) : mult_frac x n d ≤ x := by
  unfold mult_frac
  have h1 : u64 (x / d * n) ≤ x / d * d :=
    le_trans (u64_le _) (Nat.mul_le_mul_left _ hn)
  have h2 : u64 (x % d * n) / d ≤ x % d := by
    have : u64 (x % d * n) ≤ x % d * d := le_trans (u64_le _) (Nat.mul_le_mul_left _ hn)
    calc u64 (x % d * n) / d ≤ x % d * d / d := Nat.div_le_div_right this
      _ = x % d := Nat.mul_div_cancel _ hd
  have h3 : x / d * d + x % d = x := Nat.div_add_mod' x d
  exact le_trans (u64_le _) (by omega)

/-- The fields of the divider that registration builds are those of the
configuration record. -/
theorem cclk_fracdiv_fields (sys_base : Nat) (cfg : k230_composite_clk_cfg)
    (h : cfg.is_fracdiv = true) :
    (cclk_fracdiv sys_base cfg).reg = some (sys_base + cfg.fracdiv_reg_offset) ∧
    (cclk_fracdiv sys_base cfg).n_shift = cfg.fracdiv_n_shift ∧
    (cclk_fracdiv sys_base cfg).n_mask = cfg.fracdiv_n_mask ∧
    (cclk_fracdiv sys_base cfg).m_shift = cfg.fracdiv_m_shift ∧
    (cclk_fracdiv sys_base cfg).m_mask = cfg.fracdiv_m_mask := by
  unfold cclk_fracdiv k230_register_child_cclk
  simp [h]

/-- In a fixed regime whose multiplier cannot exceed its divisor,
`k230_rate_clk_recalc_rate` returns, and returns at most the parent rate. -/
theorem recalc_rate_fixed_le (clk : k230_clk_fracdiv) (regs : Regs) (P addr : Nat)
    (hreg : clk.reg = some addr) (hmask : clk.n_mask + 1 < 2 ^ 32)
    (hnum : clk.n_min = clk.n_max → clk.n_mask + 1 ≤ clk.n_max)
    (hden : clk.n_min ≠ clk.n_max → clk.m_min = clk.m_max ∧ clk.m_max ≤ 1) :
    ∃ r, k230_rate_clk_recalc_rate clk regs P = .ok r ∧ r ≤ P := by
  have hf : (readl regs addr >>> clk.n_shift) &&& clk.n_mask ≤ clk.n_mask := Nat.and_le_right
  have hu : u32 (((readl regs addr >>> clk.n_shift) &&& clk.n_mask) + 1) =
      ((readl regs addr >>> clk.n_shift) &&& clk.n_mask) + 1 := u32_of_lt (by omega)
  unfold k230_rate_clk_recalc_rate
  rw [hreg]
  dsimp only
  by_cases hn : clk.n_min = clk.n_max
  · have hle := hnum hn
    rw [if_pos hn]
    dsimp only
    rw [if_neg (by omega), hu]
    exact ⟨_, rfl, mult_frac_le _ _ _ (by omega) (by omega)⟩
  · obtain ⟨hm, hm1⟩ := hden hn
    rw [if_neg hn, if_pos hm]
    dsimp only
    rw [hu, if_neg (by omega)]
    exact ⟨_, rfl, mult_frac_le _ _ _ (by omega) (by omega)⟩

set_option maxRecDepth 100000 in
theorem configured_fixed_regime_facts :
    ∀ cfg ∈ k230_cclk_cfgs, cfg.is_fracdiv = true →
      cfg.fracdiv_n_mask + 1 < 2 ^ 32 ∧
      (cfg.fracdiv_n_min = cfg.fracdiv_n_max → cfg.fracdiv_n_mask + 1 ≤ cfg.fracdiv_n_max) ∧
      (cfg.fracdiv_n_min ≠ cfg.fracdiv_n_max → cfg.fracdiv_m_min = cfg.fracdiv_m_max →
        cfg.fracdiv_m_max ≤ 1) := by
  decide

/-- Every configured fixed-regime divider recalculates a rate, and one that
is at most the parent rate. -/
theorem configured_fixed_recalc (sys_base : Nat) (cfg : k230_composite_clk_cfg)
    (hcfg : cfg ∈ k230_cclk_cfgs) (hf : cfg.is_fracdiv = true)
    (hfix : (cclk_fracdiv sys_base cfg).n_min = (cclk_fracdiv sys_base cfg).n_max ∨
      (cclk_fracdiv sys_base cfg).m_min = (cclk_fracdiv sys_base cfg).m_max)
    (regs : Regs) (P : Nat) :
    ∃ r, k230_rate_clk_recalc_rate (cclk_fracdiv sys_base cfg) regs P = .ok r ∧ r ≤ P := by
  obtain ⟨e1, e2, e3, e4⟩ := cclk_fracdiv_ranges sys_base cfg hf
  obtain ⟨f1, _, f3, _, _⟩ := cclk_fracdiv_fields sys_base cfg hf
  obtain ⟨c1, c2, c3⟩ := configured_fixed_regime_facts cfg hcfg hf
  rw [e1, e2, e3, e4] at hfix
  apply recalc_rate_fixed_le _ regs P _ f1
  · rw [f3]; exact c1
  · rw [e3, e4, f3]; exact c2
  · rw [e1, e2, e3, e4]
    intro hn
    rcases hfix with h | h
    · exact absurd h hn
    · exact ⟨h, c3 hn h⟩

/-- C36: for every numerator-fixed or denominator-fixed entry of
`k230_cclk_cfgs`, every register content and every parent rate P,
`k230_rate_clk_recalc_rate` returns a rate, and the rate is at most P. -/
theorem fixed_regime_never_multiplies (sys_base : Nat) :
    ∀ cfg ∈ k230_cclk_cfgs, cfg.is_fracdiv = true →
      ((cclk_fracdiv sys_base cfg).n_min = (cclk_fracdiv sys_base cfg).n_max ∨
        (cclk_fracdiv sys_base cfg).m_min = (cclk_fracdiv sys_base cfg).m_max) →
      ∀ (regs : Regs) (P : Nat),
        ∃ r, k230_rate_clk_recalc_rate (cclk_fracdiv sys_base cfg) regs P = .ok r ∧ r ≤ P :=
  fun cfg hcfg hf hfix regs P => configured_fixed_recalc sys_base cfg hcfg hf hfix regs P

/-- On a both-variable divider whose registers are all zero the divisor read
back is 0. -/
theorem recalc_rate_both_variable_zero (clk : k230_clk_fracdiv) (P addr : Nat)
    (hreg : clk.reg = some addr) (hn : clk.n_min ≠ clk.n_max) (hm : clk.m_min ≠ clk.m_max) :
    k230_rate_clk_recalc_rate clk (fun _ => 0) P = .error .div_by_zero := by
  have h0 : ∀ a, readl (fun _ => 0) a = 0 := fun a => rfl
  unfold k230_rate_clk_recalc_rate
  rw [hreg]
  dsimp only
  rw [if_neg hn, if_neg hm]
  cases clk.reg_1 with
  | none =>
    dsimp only
    rw [h0]
    simp
  | some a1 =>
    dsimp only
    rw [h0]
    simp

set_option maxRecDepth 100000 in
theorem configured_both_variable_names :
    (k230_cclk_cfgs.filter fun cfg => cfg.is_fracdiv ∧ cfg.fracdiv_n_min ≠ cfg.fracdiv_n_max ∧
      cfg.fracdiv_m_min ≠ cfg.fracdiv_m_max) =
      [cfg_audio_dev_clk, cfg_codec_adc_mclk, cfg_codec_dac_mclk, cfg_pdm_clk] := by
  decide

/-- C33, the code at a failing input: on each of the four both-variable
dividers (audio_dev_clk, codec_adc_mclk, codec_dac_mclk, pdm_clk) with
all-zero registers `k230_rate_clk_recalc_rate` passes the raw n-field 0 to
`mult_frac` as divisor, for every parent rate; every configured fixed-regime
divider returns a rate for every register content. -/
theorem recalc_rate_divides_by_zero (sys_base : Nat) (P : Nat) :
    (∀ cfg ∈ [cfg_audio_dev_clk, cfg_codec_adc_mclk, cfg_codec_dac_mclk, cfg_pdm_clk],
      cfg ∈ k230_cclk_cfgs ∧ cfg.is_fracdiv = true ∧
      k230_rate_clk_recalc_rate (cclk_fracdiv sys_base cfg) (fun _ => 0) P =
        .error .div_by_zero) ∧
    (∀ cfg ∈ k230_cclk_cfgs, cfg.is_fracdiv = true →
      ((cclk_fracdiv sys_base cfg).n_min = (cclk_fracdiv sys_base cfg).n_max ∨
        (cclk_fracdiv sys_base cfg).m_min = (cclk_fracdiv sys_base cfg).m_max) →
      ∀ regs : Regs, ∃ r, k230_rate_clk_recalc_rate (cclk_fracdiv sys_base cfg) regs P = .ok r) := by
  constructor
  · intro cfg hc
    rw [← configured_both_variable_names] at hc
    obtain ⟨hcfg, hp⟩ := List.mem_filter.mp hc
    simp only [decide_eq_true_eq] at hp
    obtain ⟨hf, hn, hm⟩ := hp
    obtain ⟨e1, e2, e3, e4⟩ := cclk_fracdiv_ranges sys_base cfg hf
    obtain ⟨f1, _⟩ := cclk_fracdiv_fields sys_base cfg hf
    exact ⟨hcfg, hf, recalc_rate_both_variable_zero _ P _ f1 (by rw [e3, e4]; exact hn)
      (by rw [e1, e2]; exact hm)⟩
  · intro cfg hcfg hf hfix regs
    obtain ⟨r, h, _⟩ := configured_fixed_recalc sys_base cfg hcfg hf hfix regs P
    exact ⟨r, h⟩

set_option maxRecDepth 100000 in
/-- Instance of C36: cpu0_src with its register all ones (field 15, so 16/16)
returns at most the parent rate 800000000. -/
theorem fixed_regime_never_multiplies_witness :
    ∃ r, k230_rate_clk_recalc_rate (cclk_fracdiv 0x91100000 cfg_cpu0_src)
        (fun _ => 0xFFFFFFFF) 800000000 = .ok r ∧ r ≤ 800000000 :=
  fixed_regime_never_multiplies 0x91100000 cfg_cpu0_src (by decide) rfl (Or.inl rfl)
    (fun _ => 0xFFFFFFFF) 800000000

set_option maxRecDepth 1000000 in
/-- C32, the code at a failing input: sec_aclk_gate has n_max = 8 with the
2-bit field mask 0x3, jamlinkCO_div has n_max = 512 with the 8-bit mask 0xFF.
Asked for parent_rate / 8 the first stores 7 & 3 = 3 and `recalc_rate` returns
parent_rate / 4; asked for parent_rate / 512 the second stores 511 & 0xFF = 255
and `recalc_rate` returns parent_rate / 256; `set_rate` returns 0 both times.
Every other fixed-regime entry has its largest stored value within n_mask. -/
theorem fixed_regime_field_truncates :
    (cclk_fracdiv 0x91100000 cfg_sec_aclk_gate).n_max = 8 ∧
    (cclk_fracdiv 0x91100000 cfg_sec_aclk_gate).n_mask = 0x3 ∧
    (∃ regs1, k230_rate_clk_set_rate (cclk_fracdiv 0x91100000 cfg_sec_aclk_gate) (fun _ => 0)
        50000000 (8 * 50000000) 0 0 = .ok (0, regs1) ∧
      (readl regs1 0x91100080 >>> 11) &&& 0x3 = 3 ∧
      k230_rate_clk_recalc_rate (cclk_fracdiv 0x91100000 cfg_sec_aclk_gate) regs1
        (8 * 50000000) = .ok 100000000) ∧
    (cclk_fracdiv 0x91100000 cfg_jamlinkCO_div).n_max = 512 ∧
    (cclk_fracdiv 0x91100000 cfg_jamlinkCO_div).n_mask = 0xFF ∧
    (∃ regs1, k230_rate_clk_set_rate (cclk_fracdiv 0x91100000 cfg_jamlinkCO_div) (fun _ => 0)
        100000 (512 * 100000) 0 0 = .ok (0, regs1) ∧
      (readl regs1 0x91100030 >>> 23) &&& 0xFF = 255 ∧
      k230_rate_clk_recalc_rate (cclk_fracdiv 0x91100000 cfg_jamlinkCO_div) regs1
        (512 * 100000) = .ok 200000) ∧
    (∀ cfg ∈ k230_cclk_cfgs, cfg.is_fracdiv = true →
      cfg.name ≠ "sec_aclk_gate" → cfg.name ≠ "jamlinkCO_div" →
        (cfg.fracdiv_n_min = cfg.fracdiv_n_max → cfg.fracdiv_m_max - 1 ≤ cfg.fracdiv_n_mask) ∧
        (cfg.fracdiv_n_min ≠ cfg.fracdiv_n_max → cfg.fracdiv_m_min = cfg.fracdiv_m_max →
          cfg.fracdiv_n_max - 1 ≤ cfg.fracdiv_n_mask)) :=
  ⟨rfl, rfl, ⟨_, rfl, by decide, by decide⟩, rfl, rfl, ⟨_, rfl, by decide, by decide⟩, by decide⟩

set_option maxRecDepth 1000000 in
theorem cclk_overlapping_pairs :
    k230_cclk_cfgs.Pairwise fun a b =>
      cclk_bits_overlap a b = true →
        (a.name, b.name) = ("usb0_ref_clk", "usb1_ref_clk") ∨
        (a.name, b.name) = ("usb_clk480", "usb_clk100") := by
  decide

/-- C34, the code at a failing input: usb_clk480 and usb_clk100 are built
with the same gate (bit 0 of register 0x100), so after enabling usb_clk480 a
disable of usb_clk100 clears the gate bit of usb_clk480; usb0_ref_clk and
usb1_ref_clk are built with the same mux field (bit 23 of register 0x18), so a
set_parent on usb1_ref_clk is what get_parent of usb0_ref_clk returns. These
are the only two pairs of entries of `k230_cclk_cfgs` that own a common bit. -/
theorem shared_gate_and_mux_bits (sys_base : Nat) (regs : Regs) :
    cclk_gate sys_base cfg_usb_clk480 = cclk_gate sys_base cfg_usb_clk100 ∧
    (readl (k230_gate_clk_enable (cclk_gate sys_base cfg_usb_clk480) regs).2
      (sys_base + 0x100)).testBit 0 = true ∧
    (readl (k230_gate_clk_disable (cclk_gate sys_base cfg_usb_clk100)
      (k230_gate_clk_enable (cclk_gate sys_base cfg_usb_clk480) regs).2)
      (sys_base + 0x100)).testBit 0 = false ∧
    cclk_mux sys_base cfg_usb0_ref_clk = cclk_mux sys_base cfg_usb1_ref_clk ∧
    (∀ i < 2, k230_mux_clk_get_parent (cclk_mux sys_base cfg_usb0_ref_clk)
      (k230_mux_clk_set_parent (cclk_mux sys_base cfg_usb1_ref_clk) regs i).2 = i) ∧
    cclk_bits_overlap cfg_usb_clk480 cfg_usb_clk100 = true ∧
    cclk_bits_overlap cfg_usb0_ref_clk cfg_usb1_ref_clk = true ∧
    (k230_cclk_cfgs.Pairwise fun a b =>
      cclk_bits_overlap a b = true →
        (a.name, b.name) = ("usb0_ref_clk", "usb1_ref_clk") ∨
        (a.name, b.name) = ("usb_clk480", "usb_clk100")) := by
  have hg : cclk_gate sys_base cfg_usb_clk480 =
      { reg := sys_base + 0x100, bit_idx := 0, flags := 0 } := rfl
  have hg2 : cclk_gate sys_base cfg_usb_clk100 =
      { reg := sys_base + 0x100, bit_idx := 0, flags := 0 } := rfl
  have hm : cclk_mux sys_base cfg_usb0_ref_clk = { reg := sys_base + 0x18, shift := 23, mask := 1 } :=
    rfl
  have hm2 : cclk_mux sys_base cfg_usb1_ref_clk = { reg := sys_base + 0x18, shift := 23, mask := 1 } :=
    rfl
  have hf : ((0 : Nat) &&& CLK_GATE_SET_TO_DISABLE) = 0 := by decide
  refine ⟨by rw [hg, hg2], ?_, ?_, by rw [hm, hm2], ?_, by decide, by decide,
    cclk_overlapping_pairs⟩
  · rw [hg, gate_enable_normal _ _ (show (0 : Nat) < 32 by decide) hf]
    show (readl (writel (readl regs (sys_base + 0x100) ||| BIT 0) (sys_base + 0x100) regs)
      (sys_base + 0x100)).testBit 0 = true
    rw [readl_set_bit _ _ _ _ (show (0 : Nat) < 32 by decide)]
    simp
  · rw [hg, hg2, gate_disable_normal _ _ hf]
    show (readl (writel (readl _ (sys_base + 0x100) &&& not32 (BIT 0)) (sys_base + 0x100) _)
      (sys_base + 0x100)).testBit 0 = false
    rw [readl_clear_bit]
    simp
  · intro i hi
    rw [hm, hm2]
    apply mux_set_get
    · omega
    · exact show (1 : Nat) <<< 23 < 2 ^ 32 by decide
    · have : i = 0 ∨ i = 1 := by omega
      rcases this with h | h
      · subst h
        exact show (0 : Nat) &&& 1 = 0 by decide
      · subst h
        exact show (1 : Nat) &&& 1 = 1 by decide

/-! ## Tables of the configured both-variable dividers -/

/-- Registration builds a divider for every record with `is_fracdiv`. -/
theorem cclk_rate_hw_some (sys_base : Nat) (cfg : k230_composite_clk_cfg)
    (h : cfg.is_fracdiv = true) :
    (k230_register_child_cclk sys_base cfg).rate_hw = some (cclk_fracdiv sys_base cfg) := by
  unfold cclk_fracdiv k230_register_child_cclk
  simp [h]

set_option maxRecDepth 100000 in
theorem configured_tables_sentinel :
    ∀ cfg ∈ k230_cclk_cfgs, cfg.is_fracdiv = true →
      cfg.fracdiv_m_min ≠ cfg.fracdiv_m_max → cfg.fracdiv_n_min ≠ cfg.fracdiv_n_max →
        ∃ tbl, (cclk_fracdiv 0 cfg).fracdiv_table = some tbl ∧
          (tbl = codec_fracdiv_table ∨ tbl = pdm_fracdiv_table) := by
  decide

/-- C30: for every entry of `k230_cclk_cfgs` with `is_fracdiv`,
`k230_register_child_cclk` builds a divider with the entry's ranges, and the
table it assigns by register offset is present exactly when the entry is
both-variable (fracdiv_m_min != fracdiv_m_max and fracdiv_n_min !=
fracdiv_n_max). The both-variable entries are audio_dev_clk and pdm_clk, which
get `pdm_fracdiv_table`, and codec_adc_mclk and codec_dac_mclk, which get
`codec_fracdiv_table`; on them `k230_approximate_clock_rate` returns 0 for
every rate and parent rate, so the missing-table error is not reachable, and
on every configured divider it returns 0 whenever it returns. -/
theorem configured_both_variable_have_table :
    (∀ (sys_base : Nat), ∀ cfg ∈ k230_cclk_cfgs, cfg.is_fracdiv = true →
      ∃ clk, (k230_register_child_cclk sys_base cfg).rate_hw = some clk ∧
        clk.m_min = cfg.fracdiv_m_min ∧ clk.m_max = cfg.fracdiv_m_max ∧
        clk.n_min = cfg.fracdiv_n_min ∧ clk.n_max = cfg.fracdiv_n_max ∧
        (clk.fracdiv_table ≠ none ↔
          (cfg.fracdiv_m_min ≠ cfg.fracdiv_m_max ∧ cfg.fracdiv_n_min ≠ cfg.fracdiv_n_max))) ∧
    (k230_cclk_cfgs.filter fun cfg => cfg.is_fracdiv ∧ cfg.fracdiv_n_min ≠ cfg.fracdiv_n_max ∧
      cfg.fracdiv_m_min ≠ cfg.fracdiv_m_max) =
      [cfg_audio_dev_clk, cfg_codec_adc_mclk, cfg_codec_dac_mclk, cfg_pdm_clk] ∧
    (∀ (sys_base : Nat),
      (∃ clk, (k230_register_child_cclk sys_base cfg_audio_dev_clk).rate_hw = some clk ∧
        clk.fracdiv_table = some pdm_fracdiv_table) ∧
      (∃ clk, (k230_register_child_cclk sys_base cfg_codec_adc_mclk).rate_hw = some clk ∧
        clk.fracdiv_table = some codec_fracdiv_table) ∧
      (∃ clk, (k230_register_child_cclk sys_base cfg_codec_dac_mclk).rate_hw = some clk ∧
        clk.fracdiv_table = some codec_fracdiv_table) ∧
      (∃ clk, (k230_register_child_cclk sys_base cfg_pdm_clk).rate_hw = some clk ∧
        clk.fracdiv_table = some pdm_fracdiv_table)) ∧
    (∀ (sys_base : Nat), ∀ cfg ∈ k230_cclk_cfgs, cfg.is_fracdiv = true →
      cfg.fracdiv_m_min ≠ cfg.fracdiv_m_max → cfg.fracdiv_n_min ≠ cfg.fracdiv_n_max →
      ∀ (rate P mul div : Nat), ∃ clk m d,
        (k230_register_child_cclk sys_base cfg).rate_hw = some clk ∧
        k230_approximate_clock_rate clk rate P mul div = .ok (0, m, d)) ∧
    (∀ (sys_base : Nat), ∀ cfg ∈ k230_cclk_cfgs, cfg.is_fracdiv = true →
      ((cclk_fracdiv sys_base cfg).fracdiv_table ≠ none ↔
        ((cclk_fracdiv sys_base cfg).m_min ≠ (cclk_fracdiv sys_base cfg).m_max ∧
          (cclk_fracdiv sys_base cfg).n_min ≠ (cclk_fracdiv sys_base cfg).n_max))) ∧
    (∀ (sys_base : Nat), ∀ cfg ∈ k230_cclk_cfgs, cfg.is_fracdiv = true →
      ∀ (rate P mul div : Nat) (r : Int × Nat × Nat),
        k230_approximate_clock_rate (cclk_fracdiv sys_base cfg) rate P mul div = .ok r →
          r.1 = 0) := by
  have h1 : ∀ (sys_base : Nat), ∀ cfg ∈ k230_cclk_cfgs, cfg.is_fracdiv = true →
      ((cclk_fracdiv sys_base cfg).fracdiv_table ≠ none ↔
        ((cclk_fracdiv sys_base cfg).m_min ≠ (cclk_fracdiv sys_base cfg).m_max ∧
          (cclk_fracdiv sys_base cfg).n_min ≠ (cclk_fracdiv sys_base cfg).n_max)) := by
    intro sys_base cfg hcfg hf
    obtain ⟨e1, e2, e3, e4⟩ := cclk_fracdiv_ranges sys_base cfg hf
    rw [cclk_fracdiv_table_base, e1, e2, e3, e4]
    exact configured_tables_at_zero cfg hcfg hf
  refine ⟨?_, configured_both_variable_names, ?_, ?_, h1, ?_⟩
  · intro sys_base cfg hcfg hf
    obtain ⟨e1, e2, e3, e4⟩ := cclk_fracdiv_ranges sys_base cfg hf
    refine ⟨cclk_fracdiv sys_base cfg, cclk_rate_hw_some sys_base cfg hf, e1, e2, e3, e4, ?_⟩
    rw [cclk_fracdiv_table_base]
    exact configured_tables_at_zero cfg hcfg hf
  · intro sys_base
    exact ⟨⟨_, rfl, rfl⟩, ⟨_, rfl, rfl⟩, ⟨_, rfl, rfl⟩, ⟨_, rfl, rfl⟩⟩
  · intro sys_base cfg hcfg hf hm hn rate P mul div
    obtain ⟨e1, e2, e3, e4⟩ := cclk_fracdiv_ranges sys_base cfg hf
    obtain ⟨tbl, htbl, hwhich⟩ := configured_tables_sentinel cfg hcfg hf hm hn
    rw [← cclk_fracdiv_table_base sys_base] at htbl
    have hsent : ∃ s ∈ tbl, s.div = 0 := by
      rcases hwhich with h | h <;> subst h <;> exact ⟨⟨0, 0, 0⟩, by decide, rfl⟩
    obtain ⟨r, hr⟩ := fracdiv_table_scan_ok rate tbl mul div hsent
    refine ⟨cclk_fracdiv sys_base cfg, r.1, r.2, cclk_rate_hw_some sys_base cfg hf, ?_⟩
    unfold k230_approximate_clock_rate
    rw [e3, e4, e1, e2, if_neg hn, if_neg hm, htbl]
    dsimp only
    rw [hr]
  · intro sys_base cfg hcfg hf rate P mul div r hr
    rcases approximate_ret _ rate P mul div r hr with h | ⟨hn, hm, htab⟩
    · exact h
    · exact absurd htab ((h1 sys_base cfg hcfg hf).mpr ⟨hm, hn⟩)

end K230
